import Mathlib

/-!
# RuntimeEditableLandscape: grid addressing, layer smoothing, triangle lists, rebuild scheduler

A shallow embedding of the C++ sources under `Source/RuntimeEditableLandscape`.

Modelling conventions used throughout:

* `float` / `double` values are exact rationals (`ℚ`); rounding is not modelled.
* `int32` values are unbounded integers (`Int`), or `Nat` where the source only
  ever produces non-negative values (loop counters, vertex indices).
* A pointer to a landscape component (tile) is the tile's position in
  `ARuntimeLandscape::LandscapeComponents`.
* A fatal assertion (`check`, `checkNoEntry`) makes a function return `none`;
  `ensure` is not fatal and only selects the branch the source takes.
-/

namespace RuntimeLandscape

/-! ## Engine value types -/

/-- FVector2D: a pair of floats, modelled as exact rationals. -/
structure FVector2D where
  X : ℚ
  Y : ℚ
deriving DecidableEq, Repr

/-- FIntVector2: a pair of 32 bit integers. -/
structure FIntVector2 where
  X : Int
  Y : Int
deriving DecidableEq, Repr

/-- FBox2D: an axis aligned box given by its minimum and maximum corner. -/
structure FBox2D where
  Min : FVector2D
  Max : FVector2D
deriving DecidableEq, Repr

/-- FMath::FloorToInt. -/
def FloorToInt (x : ℚ) : Int := Int.floor x

/-- FMath::RoundToInt, which is `FloorToInt(x + 0.5)`. -/
def RoundToInt (x : ℚ) : Int := Int.floor (x + 1 / 2)

/-- The values a loop `for (int32 I = Lo; I <= Hi; I++)` runs through, in order. -/
def forRange (Lo Hi : Int) : List Int :=
  (List.range (Hi + 1 - Lo).toNat).map (fun (k : Nat) => Lo + (k : Int))

/-! ## ARuntimeLandscape: grid addressing (RuntimeLandscape.h / RuntimeLandscape.cpp) -/

/-- The grid-wide constants of `ARuntimeLandscape` read by the functions below.
`StartLocation` is `LandscapeComponents[0]->GetComponentLocation()`.
`ComponentAmount` and `ComponentResolution` are `FVector2D` in the source but hold
whole numbers (tile counts and quads per tile); they are kept as integers and cast
back to `ℚ` wherever the source does float arithmetic with them. -/
structure ARuntimeLandscape where
  StartLocation : FVector2D
  LandscapeSize : FVector2D
  ComponentAmount : FIntVector2
  ComponentSize : ℚ
  ComponentResolutionX : Nat
  ComponentResolutionY : Nat
  VertexAmountPerComponent : FIntVector2
deriving DecidableEq, Repr

/-- ARuntimeLandscape::GetComponentCoordinates (RuntimeLandscape.cpp 276-280):
`X = SectionIndex % RoundToInt(ComponentAmount.X)` with the truncating `%` of C++ and
`Y = FloorToInt(SectionIndex / ComponentAmount.X)` with a float division. -/
def GetComponentCoordinates (L : ARuntimeLandscape) (SectionIndex : Int) : FIntVector2 :=
  { X := Int.tmod SectionIndex (RoundToInt (L.ComponentAmount.X : ℚ))
    Y := FloorToInt ((SectionIndex : ℚ) / (L.ComponentAmount.X : ℚ)) }

/-- ARuntimeLandscape::GetComponentsInArea (RuntimeLandscape.cpp 232-274).
The result lists the positions in `LandscapeComponents` of the returned tiles.
`ensure(ExpectedAmount > 0)` failing returns the empty array; the final
`check(Result.Num() == ExpectedAmount)` is fatal (`none`). -/
def GetComponentsInArea (L : ARuntimeLandscape) (Area : FBox2D) : Option (List Int) :=
  let StartLocation := L.StartLocation
  if Area.Min.X > StartLocation.X + L.LandscapeSize.X ∨
      Area.Min.Y > StartLocation.Y + L.LandscapeSize.Y ∨
      Area.Max.X < StartLocation.X ∨ Area.Max.Y < StartLocation.Y then
    some []
  else
    let RelativeArea : FBox2D :=
      { Min := { X := Area.Min.X - StartLocation.X, Y := Area.Min.Y - StartLocation.Y }
        Max := { X := Area.Max.X - StartLocation.X, Y := Area.Max.Y - StartLocation.Y } }
    let MinColumn := max (FloorToInt (RelativeArea.Min.X / L.ComponentSize)) 0
    let MaxColumn := min (FloorToInt (RelativeArea.Max.X / L.ComponentSize)) (L.ComponentAmount.X - 1)
    let MinRow := max (FloorToInt (RelativeArea.Min.Y / L.ComponentSize)) 0
    let MaxRow := min (FloorToInt (RelativeArea.Max.Y / L.ComponentSize)) (L.ComponentAmount.Y - 1)
    let ExpectedAmount := (MaxColumn - MinColumn + 1) * (MaxRow - MinRow + 1)
    if ¬ (ExpectedAmount > 0) then
      some []
    else
      let Result := (forRange MinRow MaxRow).flatMap (fun Y =>
        let RowOffset := Y * L.ComponentAmount.X
        (forRange MinColumn MaxColumn).map (fun X => RowOffset + X))
      if (Result.length : Int) = ExpectedAmount then some Result else none

/-- The claim's reading of "tile `i` intersects the query box", both taken as closed
sets: the rectangle `[col*ComponentSize, (col+1)*ComponentSize] x
[row*ComponentSize, (row+1)*ComponentSize]` of tile `i`, relative to the landscape
origin, meets the box `[Min, Max]`. -/
def closedTileIntersects (L : ARuntimeLandscape) (i : Int) (Area : FBox2D) : Prop :=
  let c := GetComponentCoordinates L i
  (c.X : ℚ) * L.ComponentSize ≤ Area.Max.X - L.StartLocation.X ∧
  Area.Min.X - L.StartLocation.X ≤ ((c.X : ℚ) + 1) * L.ComponentSize ∧
  (c.Y : ℚ) * L.ComponentSize ≤ Area.Max.Y - L.StartLocation.Y ∧
  Area.Min.Y - L.StartLocation.Y ≤ ((c.Y : ℚ) + 1) * L.ComponentSize

/-- What the floor-based clamp computes: the tile rectangle is closed on its lower
edges and open on its upper edges, `[col*ComponentSize, (col+1)*ComponentSize) x
[row*ComponentSize, (row+1)*ComponentSize)`, and meets the closed box `[Min, Max]`. -/
def halfOpenTileIntersects (L : ARuntimeLandscape) (i : Int) (Area : FBox2D) : Prop :=
  let c := GetComponentCoordinates L i
  (c.X : ℚ) * L.ComponentSize ≤ Area.Max.X - L.StartLocation.X ∧
  Area.Min.X - L.StartLocation.X < ((c.X : ℚ) + 1) * L.ComponentSize ∧
  (c.Y : ℚ) * L.ComponentSize ≤ Area.Max.Y - L.StartLocation.Y ∧
  Area.Min.Y - L.StartLocation.Y < ((c.Y : ℚ) + 1) * L.ComponentSize

/-- A 2x2 grid of tiles of side 100 (each 4x4 quads) with its origin at (0,0):
scenario 1 of the specification. -/
def grid2x2 : ARuntimeLandscape :=
  { StartLocation := { X := 0, Y := 0 }
    LandscapeSize := { X := 200, Y := 200 }
    ComponentAmount := { X := 2, Y := 2 }
    ComponentSize := 100
    ComponentResolutionX := 4
    ComponentResolutionY := 4
    VertexAmountPerComponent := { X := 5, Y := 5 } }

/-- A query box that coincides with tile 3 of `grid2x2`: its lower edges lie exactly on
the upper edges of tiles 1 and 2. -/
def edgeBox : FBox2D :=
  { Min := { X := 100, Y := 100 }, Max := { X := 200, Y := 200 } }

/-! ## ULandscapeLayerComponent: shape and smoothing (LandscapeLayerComponent.h / .cpp) -/

/-- ESmoothingDirection (LandscapeLayerComponent.h 15-20). -/
inductive ESmoothingDirection where
  | SD_Inwards
  | SD_Outwards
  | SD_Center
deriving DecidableEq, Repr

/-- ELayerShape (LandscapeLayerComponent.h 23-28). -/
inductive ELayerShape where
  | HS_Default
  | HS_Box
  | HS_Round
deriving DecidableEq, Repr

/-- The fields of `ULandscapeLayerComponent` read or written by the shape code.
`Extent` keeps the X and Y components of the `FVector`. `Origin` is the location of the
bounds component, or else of the owning actor; it is `none` when the component has
neither (`UpdateShape` then returns at once). -/
structure ULandscapeLayerComponent where
  SmoothingDirection : ESmoothingDirection
  SmoothingDistance : ℚ
  Shape : ELayerShape
  Radius : ℚ
  Extent : FVector2D
  Origin : Option FVector2D
  BoundingBox : FBox2D
  InnerBox : FBox2D
  BoundsSmoothingOffset : ℚ
  InnerSmoothingOffset : ℚ
deriving DecidableEq, Repr

/-- FMath::Clamp of the engine: `Max(Min(X, MaxValue), MinValue)`. -/
def Clamp (X MinValue MaxValue : ℚ) : ℚ := max (min X MaxValue) MinValue

/-- ULandscapeLayerComponent::UpdateShape (LandscapeLayerComponent.cpp 105-158).
`TransformedExtent` stands for the engine call `FBoxSphereBounds::TransformBy`: it maps
the X/Y box extent handed to it to the extent of the transformed bounds (box shape
only). The literal `0.001f` is the rational 1/1000. -/
def UpdateShape (TransformedExtent : FVector2D → FVector2D) (C : ULandscapeLayerComponent) :
    ULandscapeLayerComponent :=
  match C.Origin with
  | none => C
  | some Origin =>
    let Inner0 : ℚ := match C.SmoothingDirection with
      | .SD_Inwards => C.SmoothingDistance
      | .SD_Outwards => 0
      | .SD_Center => C.SmoothingDistance * (1 / 2)
    let BoundsOffset : ℚ := match C.SmoothingDirection with
      | .SD_Inwards => 0
      | .SD_Outwards => C.SmoothingDistance
      | .SD_Center => C.SmoothingDistance * (1 / 2)
    let Inner : ℚ :=
      if C.SmoothingDirection ≠ .SD_Outwards then
        let MaxOffset : ℚ :=
          if C.Shape = .HS_Round then C.Radius - 1 / 1000
          else min C.Extent.X C.Extent.Y - 1 / 1000
        Clamp Inner0 0 MaxOffset
      else Inner0
    if C.Shape = .HS_Round then
      { C with
        InnerSmoothingOffset := Inner
        BoundsSmoothingOffset := BoundsOffset
        BoundingBox :=
          { Min := { X := Origin.X - BoundsOffset - C.Radius, Y := Origin.Y - BoundsOffset - C.Radius }
            Max := { X := Origin.X + BoundsOffset + C.Radius, Y := Origin.Y + BoundsOffset + C.Radius } } }
    else
      let BoxExtent := TransformedExtent
        { X := C.Extent.X + BoundsOffset, Y := C.Extent.Y + BoundsOffset }
      { C with
        InnerSmoothingOffset := Inner
        BoundsSmoothingOffset := BoundsOffset
        BoundingBox :=
          { Min := { X := Origin.X - BoxExtent.X, Y := Origin.Y - BoxExtent.Y }
            Max := { X := Origin.X + BoxExtent.X, Y := Origin.Y + BoxExtent.Y } }
        InnerBox :=
          { Min := { X := Origin.X - C.Extent.X + Inner, Y := Origin.Y - C.Extent.Y + Inner }
            Max := { X := Origin.X + C.Extent.X - Inner, Y := Origin.Y + C.Extent.Y - Inner } } }

/-- `(Location - Origin).SizeSquared()`. -/
def SizeSquared (Location Origin : FVector2D) : ℚ :=
  (Location.X - Origin.X) * (Location.X - Origin.X) +
    (Location.Y - Origin.Y) * (Location.Y - Origin.Y)

/-- ULandscapeLayerComponent::TryCalculateSphereSmoothingFactor
(LandscapeLayerComponent.cpp 197-221). `Sqrt` stands for `FMath::Sqrt`.
Result: `none` when one of the two `check`s fails; `some none` when the function
returns false (the out-parameter is left untouched); `some (some f)` when it returns
true with `OutSmoothingFactor = f`. -/
def TryCalculateSphereSmoothingFactor (Sqrt : ℚ → ℚ) (C : ULandscapeLayerComponent)
    (Location Origin : FVector2D) : Option (Option ℚ) :=
  let OuterRadiusSquared := (C.Radius + C.BoundsSmoothingOffset) * (C.Radius + C.BoundsSmoothingOffset)
  let DistanceSqr := SizeSquared Location Origin
  if DistanceSqr ≥ OuterRadiusSquared then
    some none
  else
    let InnerRadiusSqr := (C.Radius - C.InnerSmoothingOffset) * (C.Radius - C.InnerSmoothingOffset)
    if DistanceSqr < InnerRadiusSqr then
      some (some 0)
    else if ¬ (C.SmoothingDistance > 0) then
      none
    else
      let Distance := |Sqrt DistanceSqr - (C.Radius - C.InnerSmoothingOffset)|
      let OutSmoothingFactor := Distance / C.SmoothingDistance
      if OutSmoothingFactor ≥ 0 ∧ OutSmoothingFactor ≤ 1 then some (some OutSmoothingFactor)
      else none

/-- The round layer of scenario 2 before `UpdateShape`: radius 100, smoothing distance 50,
direction Center, centred at the world origin. -/
def roundLayer : ULandscapeLayerComponent :=
  { SmoothingDirection := .SD_Center
    SmoothingDistance := 50
    Shape := .HS_Round
    Radius := 100
    Extent := { X := 100, Y := 100 }
    Origin := some { X := 0, Y := 0 }
    BoundingBox := { Min := { X := 0, Y := 0 }, Max := { X := 0, Y := 0 } }
    InnerBox := { Min := { X := 0, Y := 0 }, Max := { X := 0, Y := 0 } }
    BoundsSmoothingOffset := 0
    InnerSmoothingOffset := 0 }

/-! ## Triangle index list (RuntimeLandscapeRebuildManager.cpp 74-114) -/

/-- The hole test of one quad in `GenerateTriangleArray`:
`HoleIndices && (Contains(T1) || Contains(T2) || Contains(T3) || Contains(T2 + 1))`.
A null `HoleIndices` pointer is `none`. -/
def quadIsSkipped (HoleIndices : Option (Finset Nat)) (T1 T2 T3 : Nat) : Bool :=
  match HoleIndices with
  | none => false
  | some Holes => decide (T1 ∈ Holes ∨ T2 ∈ Holes ∨ T3 ∈ Holes ∨ T2 + 1 ∈ Holes)

/-- URuntimeLandscapeRebuildManager::GenerateTriangleArray. The two nested loops run over
`Y < ComponentResolution.Y` and `X < ComponentResolution.X`; a quad with a hole corner
is skipped (`continue`), any other quad appends its six indices. `Result.Reserve(EntryCount)`
only preallocates and does not change the contents, so `EntryCount` is left out. -/
def GenerateTriangleArray (L : ARuntimeLandscape) (HoleIndices : Option (Finset Nat)) : List Nat :=
  (List.range L.ComponentResolutionY).flatMap (fun Y =>
    (List.range L.ComponentResolutionX).flatMap (fun X =>
      let T1 := Y * (L.ComponentResolutionX + 1) + X
      let T2 := T1 + L.ComponentResolutionX + 1
      let T3 := T1 + 1
      if quadIsSkipped HoleIndices T1 T2 T3 then []
      else [T1, T2, T3, T3, T2, T2 + 1]))

/-- The four corner vertices of the quad at local `(x, y)` on a grid with `C` quads per
row, as the specification numbers them. -/
def quadCorners (C x y : Nat) : List Nat :=
  [y * (C + 1) + x, (y + 1) * (C + 1) + x, y * (C + 1) + x + 1, (y + 1) * (C + 1) + x + 1]

/-- The quad at `(x, y)` has at least one corner in the hole set. -/
def quadTouchesHole (C : Nat) (Holes : Finset Nat) (x y : Nat) : Bool :=
  (quadCorners C x y).any (fun v => decide (v ∈ Holes))

/-- Number of quads of an `R x C` tile (R rows, C columns) that have at least one hole
corner. -/
def holeQuadCount (R C : Nat) (Holes : Finset Nat) : Nat :=
  ((List.range R).map (fun y =>
    ((List.range C).filter (fun x => quadTouchesHole C Holes x y)).length)).sum

/-! ## URuntimeLandscapeRebuildManager: the rebuild scheduler
(RuntimeLandscapeRebuildManager.h / .cpp, GenerateAdditionalVertexDataWorker.h / .cpp) -/

/-- ERuntimeLandscapeRebuildState (RuntimeLandscapeRebuildManager.h 18-23). -/
inductive ERuntimeLandscapeRebuildState where
  | RLRS_None
  | RLRS_BuildVertices
  | RLRS_BuildAdditionalData
deriving DecidableEq, Repr

/-- The fields of `FRuntimeLandscapeRebuildBuffer` the scheduler itself reads or writes.
The vertex, normal, UV and grass arrays are filled by the workers and are not needed to
follow the scheduler. -/
structure FRuntimeLandscapeRebuildBuffer where
  HeightValues : List ℚ
  Triangles : List Nat
  UV1Offset : FVector2D
  RebuildState : ERuntimeLandscapeRebuildState
deriving DecidableEq, Repr

/-- A work item handed to the thread pool with `AddQueuedWork`: the single vertex worker,
or an additional-data worker with the `YCoordinate` and `StartIndex` set by `QueueWork`. -/
inductive FQueuedWork where
  | GenerateVertices
  | GenerateAdditionalVertexData (YCoordinate StartIndex : Nat)
deriving DecidableEq, Repr

/-- What the scheduler reads from outside itself: the landscape constants, and for each
tile (a component pointer, given by its number) its stored `InitialHeightValues` and the
effect of `URuntimeLandscapeComponent::ApplyDataFromLayers` on a height array. -/
structure RebuildContext where
  Landscape : ARuntimeLandscape
  InitialHeightValues : Nat → List ℚ
  ApplyDataFromLayers : Nat → List ℚ → List ℚ

/-- The state of `URuntimeLandscapeRebuildManager`. `RunnersCreated` is
`!AdditionalDataRunners.IsEmpty()`; `TickEnabled` is what `SetComponentTickEnabled` last
set. Two fields record calls to collaborators: `QueuedWork` holds the work items given to
the thread pool that have not run to completion yet, and `FinishedRebuilds` lists, in
order, the tiles on which `FinishRebuild` was invoked. -/
structure URuntimeLandscapeRebuildManager where
  CurrentComponent : Option Nat
  RebuildQueue : List Nat
  DataBuffer : FRuntimeLandscapeRebuildBuffer
  RunnersCreated : Bool
  ActiveRunners : Int
  TickEnabled : Bool
  QueuedWork : List FQueuedWork
  FinishedRebuilds : List Nat
deriving DecidableEq, Repr

/-- ARuntimeLandscape::GetTotalVertexAmountPerComponent (RuntimeLandscape.h 132-135). -/
def GetTotalVertexAmountPerComponent (L : ARuntimeLandscape) : Int :=
  L.VertexAmountPerComponent.X * L.VertexAmountPerComponent.Y

/-- The manager as constructed: no current tile, empty queue, default buffer, ticking
disabled (`bStartWithTickEnabled = false`), counter zero. -/
def newRebuildManager : URuntimeLandscapeRebuildManager :=
  { CurrentComponent := none
    RebuildQueue := []
    DataBuffer :=
      { HeightValues := [], Triangles := [], UV1Offset := { X := 0, Y := 0 },
        RebuildState := .RLRS_None }
    RunnersCreated := false
    ActiveRunners := 0
    TickEnabled := false
    QueuedWork := []
    FinishedRebuilds := [] }

/-- URuntimeLandscapeRebuildManager::InitializeBuffer (cpp 54-72): a fresh buffer
(`RebuildState = RLRS_None`), `HeightValues` sized to the vertex amount (uninitialised in
the source, zeros here) and the default triangle list. -/
def InitializeBuffer (ctx : RebuildContext) (M : URuntimeLandscapeRebuildManager) :
    URuntimeLandscapeRebuildManager :=
  let VertexAmount := GetTotalVertexAmountPerComponent ctx.Landscape
  { M with
    DataBuffer :=
      { HeightValues := List.replicate VertexAmount.toNat 0
        Triangles := GenerateTriangleArray ctx.Landscape none
        UV1Offset := { X := 0, Y := 0 }
        RebuildState := .RLRS_None } }

/-- URuntimeLandscapeRebuildManager::Initialize (h 129-140): on first use build the
buffer and create the `ComponentResolution.Y + 1` additional-data runners. -/
def Initialize (ctx : RebuildContext) (M : URuntimeLandscapeRebuildManager) :
    URuntimeLandscapeRebuildManager :=
  if M.RunnersCreated then M
  else { InitializeBuffer ctx M with RunnersCreated := true }

/-- URuntimeLandscapeRebuildManager::StartRebuild (cpp 116-147). `Tile` is the component
`CurrentComponent` points to; both callers set `CurrentComponent` just before the call. -/
def StartRebuild (ctx : RebuildContext) (M : URuntimeLandscapeRebuildManager) (Tile : Nat) :
    URuntimeLandscapeRebuildManager :=
  let M1 := Initialize ctx M
  let SectionCoordinates := GetComponentCoordinates ctx.Landscape (Tile : Int)
  let M2 : URuntimeLandscapeRebuildManager :=
    { M1 with
      DataBuffer :=
        { M1.DataBuffer with
          UV1Offset :=
            { X := 1 / (ctx.Landscape.ComponentAmount.X : ℚ) * (SectionCoordinates.X : ℚ)
              Y := 1 / (ctx.Landscape.ComponentAmount.Y : ℚ) * (SectionCoordinates.Y : ℚ) } } }
  if ¬ (((ctx.InitialHeightValues Tile).length : Int)
      = GetTotalVertexAmountPerComponent ctx.Landscape) then
    M2
  else
    { M2 with
      DataBuffer :=
        { M2.DataBuffer with
          RebuildState := .RLRS_BuildVertices
          HeightValues := ctx.ApplyDataFromLayers Tile (ctx.InitialHeightValues Tile) }
      ActiveRunners := 1
      QueuedWork := M2.QueuedWork ++ [FQueuedWork.GenerateVertices]
      TickEnabled := true }

/-- TArray::AddUnique. -/
def AddUnique (Queue : List Nat) (Item : Nat) : List Nat :=
  if Item ∈ Queue then Queue else Queue ++ [Item]

/-- URuntimeLandscapeRebuildManager::QueueRebuild (cpp 19-30). -/
def QueueRebuild (ctx : RebuildContext) (M : URuntimeLandscapeRebuildManager)
    (ComponentToRebuild : Nat) : URuntimeLandscapeRebuildManager :=
  if M.CurrentComponent.isSome then
    { M with RebuildQueue := AddUnique M.RebuildQueue ComponentToRebuild }
  else
    StartRebuild ctx { M with CurrentComponent := some ComponentToRebuild } ComponentToRebuild

/-- The `QueueWork(Y, VertexIndex, UV1Offset)` calls made by the loop of
`StartGenerateAdditionalData`, in order: `VertexIndex` starts at 0 and grows by
`ComponentResolution.X + 1` after every call. -/
def AdditionalDataWork (L : ARuntimeLandscape) : List FQueuedWork :=
  ((List.range (L.ComponentResolutionY + 1)).foldl
    (fun (acc : List FQueuedWork × Nat) Y =>
      (acc.1 ++ [FQueuedWork.GenerateAdditionalVertexData Y acc.2],
        acc.2 + (L.ComponentResolutionX + 1)))
    ([], 0)).1

/-- URuntimeLandscapeRebuildManager::StartGenerateAdditionalData (cpp 149-161). -/
def StartGenerateAdditionalData (ctx : RebuildContext) (M : URuntimeLandscapeRebuildManager) :
    URuntimeLandscapeRebuildManager :=
  { M with
    DataBuffer := { M.DataBuffer with RebuildState := .RLRS_BuildAdditionalData }
    ActiveRunners := (ctx.Landscape.ComponentResolutionY : Int) + 1
    QueuedWork := M.QueuedWork ++ AdditionalDataWork ctx.Landscape }

/-- The vertex indices handed to `GenerateGrassDataForVertex` by
`FGenerateAdditionalVertexDataWorker::DoThreadedWork` (worker cpp 180-191), in order:
`VertexIndex` starts at `StartIndex` and is incremented once for each
`X < ComponentResolution.X + 1`. -/
def DoThreadedWorkVertices (L : ARuntimeLandscape) (StartIndex : Nat) : List Nat :=
  ((List.range (L.ComponentResolutionX + 1)).foldl
    (fun (acc : List Nat × Nat) (_X : Nat) => (acc.1 ++ [acc.2], acc.2 + 1))
    ([], StartIndex)).1

/-- URuntimeLandscapeRebuildManager::RebuildNextInQueue (h 151-163); `TArray::Pop`
removes and returns the last element. -/
def RebuildNextInQueue (ctx : RebuildContext) (M : URuntimeLandscapeRebuildManager) :
    URuntimeLandscapeRebuildManager :=
  match M.RebuildQueue.getLast? with
  | none => { M with CurrentComponent := none, TickEnabled := false }
  | some Next =>
    StartRebuild ctx
      { M with CurrentComponent := some Next, RebuildQueue := M.RebuildQueue.dropLast } Next

/-- URuntimeLandscapeRebuildManager::CancelRebuild (h 165-170). -/
def CancelRebuild (M : URuntimeLandscapeRebuildManager) : URuntimeLandscapeRebuildManager :=
  { M with CurrentComponent := none, ActiveRunners := 0, TickEnabled := false }

/-- URuntimeLandscapeRebuildManager::NotifyRunnerFinished (h 100-108). -/
def NotifyRunnerFinished (M : URuntimeLandscapeRebuildManager) : URuntimeLandscapeRebuildManager :=
  { M with ActiveRunners := M.ActiveRunners - 1 }

/-- URuntimeLandscapeRebuildManager::TickComponent (cpp 163-181). `none` is a fatal stop:
`checkNoEntry()` in the default branch, or `CurrentComponent->FinishRebuild` through a
null pointer. The call `CurrentComponent->FinishRebuild(DataBuffer)` is recorded in
`FinishedRebuilds`. -/
def TickComponent (ctx : RebuildContext) (M : URuntimeLandscapeRebuildManager) :
    Option URuntimeLandscapeRebuildManager :=
  if M.ActiveRunners < 1 then
    match M.DataBuffer.RebuildState with
    | .RLRS_BuildVertices => some (StartGenerateAdditionalData ctx M)
    | .RLRS_BuildAdditionalData =>
      match M.CurrentComponent with
      | none => none
      | some Tile =>
        some (RebuildNextInQueue ctx { M with FinishedRebuilds := M.FinishedRebuilds ++ [Tile] })
    | .RLRS_None => none
  else some M

/-- What can happen to the manager: a caller queues a tile, the engine ticks the
component (only while ticking is enabled), a queued work item runs to completion and
calls `NotifyRunnerFinished`, or the thread pool abandons a work item, which calls
`CancelRebuild`. -/
inductive SchedulerEvent where
  | queueRebuild (Tile : Nat)
  | tick
  | runnerFinished (Slot : Nat)
  | cancelRebuild
deriving DecidableEq, Repr

/-- One step of the scheduler; `none` when the event cannot occur in this state or the
code stops fatally. -/
def schedulerStep (ctx : RebuildContext) (M : URuntimeLandscapeRebuildManager) :
    SchedulerEvent → Option URuntimeLandscapeRebuildManager
  | .queueRebuild Tile => some (QueueRebuild ctx M Tile)
  | .tick => if M.TickEnabled then TickComponent ctx M else none
  | .runnerFinished Slot =>
    if Slot < M.QueuedWork.length then
      some (NotifyRunnerFinished { M with QueuedWork := M.QueuedWork.eraseIdx Slot })
    else none
  | .cancelRebuild => some (CancelRebuild M)

/-- Run a sequence of events from a state. -/
def schedulerRun (ctx : RebuildContext) (M : URuntimeLandscapeRebuildManager) :
    List SchedulerEvent → Option URuntimeLandscapeRebuildManager
  | [] => some M
  | e :: es =>
    match schedulerStep ctx M e with
    | none => none
    | some M1 => schedulerRun ctx M1 es

/-- The states the manager can be in after any sequence of events. -/
inductive Reachable (ctx : RebuildContext) : URuntimeLandscapeRebuildManager → Prop where
  | start : Reachable ctx newRebuildManager
  | step (M M1 : URuntimeLandscapeRebuildManager) (e : SchedulerEvent) :
      Reachable ctx M → schedulerStep ctx M e = some M1 → Reachable ctx M1

/-- A landscape of 2x2 tiles with one quad per tile (2x2 vertices, so two additional-data
workers per tile). -/
def smallLandscape : ARuntimeLandscape :=
  { StartLocation := { X := 0, Y := 0 }
    LandscapeSize := { X := 200, Y := 200 }
    ComponentAmount := { X := 2, Y := 2 }
    ComponentSize := 100
    ComponentResolutionX := 1
    ComponentResolutionY := 1
    VertexAmountPerComponent := { X := 2, Y := 2 } }

/-- Every tile stores the four height samples its resolution requires; layers leave the
heights as they are. -/
def soundContext : RebuildContext :=
  { Landscape := smallLandscape
    InitialHeightValues := fun _ => [0, 0, 0, 0]
    ApplyDataFromLayers := fun _ h => h }

/-- Same as `soundContext`, except that tile 1 stores three height samples instead of the
four its resolution requires. -/
def mismatchContext : RebuildContext :=
  { Landscape := smallLandscape
    InitialHeightValues := fun t => if t = 1 then [7, 7, 7] else [0, 0, 0, 0]
    ApplyDataFromLayers := fun _ h => h }

/-! ## URuntimeLandscapeComponent: layers of a tile and its triangle list
(RuntimeLandscapeComponent.h / .cpp, RuntimeLandscape.cpp 176-182) -/

/-- The fields of `URuntimeLandscapeComponent` used below. `Index` is the tile's number,
which also stands for the pointer to it; `AffectingLayers` is the `TSet` of layer
pointers, given by layer numbers; `VerticesInHole` is the `TSet<int32>` of hole vertices. -/
structure URuntimeLandscapeComponent where
  Index : Nat
  AffectingLayers : Finset Nat
  VerticesInHole : Finset Nat
deriving DecidableEq

/-- URuntimeLandscapeComponent::Rebuild (RuntimeLandscapeComponent.cpp 72-75):
`ParentLandscape->GetRebuildManager()->QueueRebuild(this)`. -/
def URuntimeLandscapeComponent.Rebuild (ctx : RebuildContext) (Tile : URuntimeLandscapeComponent)
    (M : URuntimeLandscapeRebuildManager) : URuntimeLandscapeRebuildManager :=
  QueueRebuild ctx M Tile.Index

/-- URuntimeLandscapeComponent::RemoveLandscapeLayer (RuntimeLandscapeComponent.h 42-46):
`AffectingLayers.Remove(Layer); Rebuild();`. Returns the tile and the manager afterwards. -/
def URuntimeLandscapeComponent.RemoveLandscapeLayer (ctx : RebuildContext)
    (Tile : URuntimeLandscapeComponent) (M : URuntimeLandscapeRebuildManager) (Layer : Nat) :
    URuntimeLandscapeComponent × URuntimeLandscapeRebuildManager :=
  let Tile1 := { Tile with AffectingLayers := Tile.AffectingLayers.erase Layer }
  (Tile1, Tile1.Rebuild ctx M)

/-- ARuntimeLandscape::RemoveLandscapeLayer (RuntimeLandscape.cpp 176-182): the tile-level
call on every entry of `LandscapeComponents`, in order. -/
def ARuntimeLandscape.RemoveLandscapeLayer (ctx : RebuildContext)
    (LandscapeComponents : List URuntimeLandscapeComponent)
    (M : URuntimeLandscapeRebuildManager) (Layer : Nat) :
    List URuntimeLandscapeComponent × URuntimeLandscapeRebuildManager :=
  LandscapeComponents.foldl
    (fun (acc : List URuntimeLandscapeComponent × URuntimeLandscapeRebuildManager) Tile =>
      let r := Tile.RemoveLandscapeLayer ctx acc.2 Layer
      (acc.1 ++ [r.1], r.2))
    ([], M)

/-- The triangle list `URuntimeLandscapeComponent::FinishRebuild` passes to
`CreateMeshSection` (RuntimeLandscapeComponent.cpp 217-225): the list cached in the
buffer when `VerticesInHole` is empty, a fresh `GenerateTriangleArray(&VerticesInHole)`
otherwise. -/
def FinishRebuildTriangles (L : ARuntimeLandscape) (Tile : URuntimeLandscapeComponent)
    (RebuildBuffer : FRuntimeLandscapeRebuildBuffer) : List Nat :=
  if Tile.VerticesInHole = ∅ then RebuildBuffer.Triangles
  else GenerateTriangleArray L (some Tile.VerticesInHole)

/-- A tile with number 0, no layer attached and no hole vertex. -/
def bareTile : URuntimeLandscapeComponent :=
  { Index := 0, AffectingLayers := ∅, VerticesInHole := ∅ }

/-- The half-extent the inner offset is clamped against in `UpdateShape`: the radius of a
round layer, `FMath::Min(Extent.X, Extent.Y)` otherwise. -/
def halfExtent (C : ULandscapeLayerComponent) : ℚ :=
  if C.Shape = .HS_Round then C.Radius else min C.Extent.X C.Extent.Y

/-! ### The locals of GetComponentsInArea -/

/-- The local `MinColumn` of `GetComponentsInArea`. -/
def AreaMinColumn (L : ARuntimeLandscape) (Area : FBox2D) : Int :=
  max (FloorToInt ((Area.Min.X - L.StartLocation.X) / L.ComponentSize)) 0

/-- The local `MaxColumn` of `GetComponentsInArea`. -/
def AreaMaxColumn (L : ARuntimeLandscape) (Area : FBox2D) : Int :=
  min (FloorToInt ((Area.Max.X - L.StartLocation.X) / L.ComponentSize)) (L.ComponentAmount.X - 1)

/-- The local `MinRow` of `GetComponentsInArea`. -/
def AreaMinRow (L : ARuntimeLandscape) (Area : FBox2D) : Int :=
  max (FloorToInt ((Area.Min.Y - L.StartLocation.Y) / L.ComponentSize)) 0

/-- The local `MaxRow` of `GetComponentsInArea`. -/
def AreaMaxRow (L : ARuntimeLandscape) (Area : FBox2D) : Int :=
  min (FloorToInt ((Area.Max.Y - L.StartLocation.Y) / L.ComponentSize)) (L.ComponentAmount.Y - 1)

/-- The rejection test at the top of `GetComponentsInArea`. -/
def AreaIsRejected (L : ARuntimeLandscape) (Area : FBox2D) : Prop :=
  Area.Min.X > L.StartLocation.X + L.LandscapeSize.X ∨
    Area.Min.Y > L.StartLocation.Y + L.LandscapeSize.Y ∨
    Area.Max.X < L.StartLocation.X ∨ Area.Max.Y < L.StartLocation.Y

/-- The query box [0,50] x [0,50] of scenario 1. -/
def cornerBox : FBox2D :=
  { Min := { X := 0, Y := 0 }, Max := { X := 50, Y := 50 } }

/-! ## FGenerateAdditionalVertexDataWorker: vegetation data of one vertex row
(GenerateAdditionalVertexDataWorker.h / .cpp) -/

/-- FVector: three floats. -/
structure FVector where
  X : ℚ
  Y : ℚ
  Z : ℚ
deriving DecidableEq, Repr

/-- FFloatInterval of the engine: the bounds of a random scale. -/
structure FFloatInterval where
  Min : ℚ
  Max : ℚ
deriving DecidableEq, Repr

/-- EGrassScaling of the engine; `Other` is any value without a `case` label in
`GetRandomGrassScale`. -/
inductive EGrassScaling where
  | Uniform
  | Free
  | LockXY
  | Other
deriving DecidableEq, Repr

/-- The fields of the engine struct `FGrassVariety` the worker reads. `GrassMesh` is the
mesh pointer given by a number, `Density` the value of `GetDensity()`. -/
structure FGrassVariety where
  GrassMesh : Nat
  Density : ℚ
  RandomRotation : Bool
  Scaling : EGrassScaling
  ScaleX : FFloatInterval
  ScaleY : FFloatInterval
  ScaleZ : FFloatInterval
deriving DecidableEq, Repr

/-- Modelled from the spec: `FGrassTypeSettings` is declared in LandscapeGroundTypeData.h,
which is not among the sources. The two members the worker reads are kept: `GrassType`
(`none` when `IsValid` fails, else the `GrassVarieties` of the grass type) and
`MaxSlopeAngle`. -/
structure FGrassTypeSettings where
  GrassType : Option (List FGrassVariety)
  MaxSlopeAngle : ℚ
deriving DecidableEq, Repr

/-- FHeightBasedLandscapeData (RuntimeLandscape.h 85-97). -/
structure FHeightBasedLandscapeData where
  MinHeight : ℚ
  MaxHeight : ℚ
  Grass : FGrassTypeSettings
deriving DecidableEq, Repr

/-- An instance transform. The rotation set by the worker is the surface alignment
`MakeRotFromZ(Normal)` composed with a yaw about the up axis; it is kept as the pair of
the normal and the yaw angle. -/
structure FTransform where
  SurfaceNormal : FVector
  Yaw : ℚ
  Location : FVector
  Scale3D : FVector
deriving DecidableEq, Repr

/-- FLandscapeGrassVertexData (RuntimeLandscapeRebuildManager.h 25-29). -/
structure FLandscapeGrassVertexData where
  GrassVariety : FGrassVariety
  InstanceTransformsRelative : List FTransform
deriving DecidableEq, Repr

/-- FLandscapeAdditionalData (RuntimeLandscapeRebuildManager.h 31-39): the `TMap` from
mesh to grass data, as a list of key/value pairs with distinct keys. -/
structure FLandscapeAdditionalData where
  GrassData : List (Nat × FLandscapeGrassVertexData)
deriving DecidableEq, Repr

/-- FLandscapeAdditionalData::ClearData. -/
def FLandscapeAdditionalData.ClearData (_D : FLandscapeAdditionalData) : FLandscapeAdditionalData :=
  { GrassData := [] }

/-- What a worker reads while it processes the vertices of the current tile.
`GroundTypeWeights X Y` lists the entries of the map returned by
`GetGroundTypeLayerWeightsAtVertexCoordinates(CurrentComponent index, X, Y)` in
iteration order; the key of an entry is `none` for a null ground-type pointer (the map
holds an entry for every slot of a layer set, the empty slots included) and otherwise
`some` of the `GrassTypeSettings` the pointer leads to. `VertexHeight i` is
`(VerticesRelative[i] + ComponentLocation).Z`. `SlopeAngles i` is the pair (Roll, Pitch)
that `GetSlopeDegreeAngles` returns for `Normals[i]`. `Rand n` is the n-th value drawn
from the engine's random source (`FMath::FRand`, a value in [0, 1]). -/
structure GrassContext where
  Landscape : ARuntimeLandscape
  AreaPerSquare : ℚ
  QuadSideLength : ℚ
  HeightBasedData : List FHeightBasedLandscapeData
  GroundTypeWeights : Nat → Nat → List (Option FGrassTypeSettings × ℚ)
  VertexHeight : Nat → ℚ
  VerticesRelative : Nat → FVector
  Normals : Nat → FVector
  SlopeAngles : Nat → ℚ × ℚ
  Rand : Nat → ℚ

/-- FMath::RandRange(float, float): `InMin + (InMax - InMin) * FRand()`, drawing the
`n`-th random value. -/
def RandRange (Rand : Nat → ℚ) (n : Nat) (InMin InMax : ℚ) : ℚ :=
  InMin + (InMax - InMin) * Rand n

/-- The three locals `SelectedGrass`, `HighestWeight`, `bIsLayerApplied` of
`GenerateGrassDataForVertex`. -/
structure GrassSelection where
  SelectedGrass : FGrassTypeSettings
  HighestWeight : ℚ
  bIsLayerApplied : Bool
deriving DecidableEq, Repr

/-- The locals as declared: a default-constructed `SelectedGrass` (its members are not
read before the first assignment), `HighestWeight = 0`, `bIsLayerApplied = false`. -/
def GrassSelection.initial : GrassSelection :=
  { SelectedGrass := { GrassType := none, MaxSlopeAngle := 0 }
    HighestWeight := 0
    bIsLayerApplied := false }

/-- The loop over the ground-type weights (worker cpp 35-44), on the entries not yet
visited; the literal `0.2f` is the rational 1/5. An entry that passes the test is
dereferenced (`LayerWeightData.Key->GrassTypeSettings`): with a null key the program
stops (`none`). -/
def SelectGroundType :
    List (Option FGrassTypeSettings × ℚ) → GrassSelection → Option GrassSelection
  | [], S => some S
  | LayerWeightData :: Rest, S =>
    if LayerWeightData.2 ≥ S.HighestWeight ∧ LayerWeightData.2 > 1 / 5 then
      match LayerWeightData.1 with
      | none => none
      | some GrassTypeSettings =>
        SelectGroundType Rest
          { SelectedGrass := GrassTypeSettings
            HighestWeight := LayerWeightData.2
            bIsLayerApplied := true }
    else SelectGroundType Rest S

/-- The loop over the height bands (worker cpp 52-61). -/
def SelectHeightBand (HeightBasedData : List FHeightBasedLandscapeData) (VertexHeight : ℚ)
    (S : GrassSelection) : GrassSelection :=
  HeightBasedData.foldl
    (fun S Band =>
      if Band.MinHeight < VertexHeight ∧ Band.MaxHeight > VertexHeight then
        { SelectedGrass := Band.Grass, HighestWeight := 1, bIsLayerApplied := true }
      else S)
    S

/-- FGenerateAdditionalVertexDataWorker::GetRandomGrassLocation (cpp 147-155); draws two
random values. -/
def GetRandomGrassLocation (G : GrassContext) (VertexRelativeLocation : FVector) (n : Nat) :
    FVector × Nat :=
  let PosX := RandRange G.Rand n (-(1 / 2)) (1 / 2)
  let PosY := RandRange G.Rand (n + 1) (-(1 / 2)) (1 / 2)
  let SideLength := G.QuadSideLength
  ({ X := VertexRelativeLocation.X + PosX * SideLength
     Y := VertexRelativeLocation.Y + PosY * SideLength
     Z := VertexRelativeLocation.Z + 0 }, n + 2)

/-- FGenerateAdditionalVertexDataWorker::GetRandomGrassRotation (cpp 137-145): the yaw of
the rotator; the rotator is left as declared (yaw 0 here) without `RandomRotation`. -/
def GetRandomGrassRotation (G : GrassContext) (Variety : FGrassVariety) (n : Nat) : ℚ × Nat :=
  if Variety.RandomRotation then (RandRange G.Rand n (-180) 180, n + 1) else (0, n)

/-- FGenerateAdditionalVertexDataWorker::GetRandomGrassScale (cpp 157-178). -/
def GetRandomGrassScale (G : GrassContext) (Variety : FGrassVariety) (n : Nat) : FVector × Nat :=
  match Variety.Scaling with
  | .Uniform =>
    let S := RandRange G.Rand n Variety.ScaleX.Min Variety.ScaleX.Max
    ({ X := S, Y := S, Z := S }, n + 1)
  | .Free =>
    ({ X := RandRange G.Rand n Variety.ScaleX.Min Variety.ScaleX.Max
       Y := RandRange G.Rand (n + 1) Variety.ScaleY.Min Variety.ScaleY.Max
       Z := RandRange G.Rand (n + 2) Variety.ScaleZ.Min Variety.ScaleZ.Max }, n + 3)
  | .LockXY =>
    let SX := RandRange G.Rand n Variety.ScaleX.Min Variety.ScaleX.Max
    ({ X := SX, Y := SX, Z := RandRange G.Rand (n + 1) Variety.ScaleZ.Min Variety.ScaleZ.Max },
      n + 2)
  | .Other => ({ X := 1, Y := 1, Z := 1 }, n)

/-- The `while (RemainingInstanceCount > 0)` loop of `GenerateGrassTransformsAtVertex`
(cpp 118-133): one transform per pass, appended in order. -/
def GenerateInstances (G : GrassContext) (Variety : FGrassVariety) (VertexIndex : Nat) :
    Nat → Nat → List FTransform × Nat
  | 0, n => ([], n)
  | RemainingInstanceCount + 1, n =>
    let Location := GetRandomGrassLocation G (G.VerticesRelative VertexIndex) n
    let Rotation := GetRandomGrassRotation G Variety Location.2
    let Scale := GetRandomGrassScale G Variety Rotation.2
    let InstanceTransformRelative : FTransform :=
      { SurfaceNormal := G.Normals VertexIndex
        Yaw := Rotation.1
        Location := Location.1
        Scale3D := Scale.1 }
    let Rest := GenerateInstances G Variety VertexIndex RemainingInstanceCount Scale.2
    (InstanceTransformRelative :: Rest.1, Rest.2)

/-- The number of passes of the instance loop for one variety (cpp 104-113):
`FloorToInt(InstanceCount)`, plus one when the random draw is below the remainder. The
literal `0.000001f` is the rational 1/1000000. -/
def RemainingInstanceCount (G : GrassContext) (Variety : FGrassVariety) (Weight : ℚ) (n : Nat) :
    Int :=
  let InstanceCount := G.AreaPerSquare * Variety.Density * (1 / 1000000) * Weight
  let Remaining := FloorToInt InstanceCount
  let Remainder := InstanceCount - (Remaining : ℚ)
  if RandRange G.Rand n 0 1 < Remainder then Remaining + 1 else Remaining

/-- The body of the loop over the varieties (cpp 100-134) for one variety: the grass data
written for the variety's mesh and the next random index. A count that is not positive
gives no pass of the instance loop. -/
def GenerateGrassForVariety (G : GrassContext) (Variety : FGrassVariety) (VertexIndex : Nat)
    (Weight : ℚ) (n : Nat) : FLandscapeGrassVertexData × Nat :=
  let Count := RemainingInstanceCount G Variety Weight n
  let Instances := GenerateInstances G Variety VertexIndex Count.toNat (n + 1)
  ({ GrassVariety := Variety, InstanceTransformsRelative := Instances.1 }, Instances.2)

/-- TMap::FindOrAdd followed by overwriting the found value: replace the value stored
under `Key`, or append the pair when the key is absent. -/
def FindOrAddSet (GrassData : List (Nat × FLandscapeGrassVertexData)) (Key : Nat)
    (Value : FLandscapeGrassVertexData) : List (Nat × FLandscapeGrassVertexData) :=
  if GrassData.any (fun p => p.1 == Key) then
    GrassData.map (fun p => if p.1 == Key then (Key, Value) else p)
  else GrassData ++ [(Key, Value)]

/-- FGenerateAdditionalVertexDataWorker::GenerateGrassTransformsAtVertex (cpp 73-135),
acting on the entry `AdditionalData[VertexIndex]`. -/
def GenerateGrassTransformsAtVertex (G : GrassContext) (SelectedGrass : FGrassTypeSettings)
    (VertexIndex : Nat) (Weight : ℚ) (AdditionalData : FLandscapeAdditionalData) (n : Nat) :
    FLandscapeAdditionalData × Nat :=
  match SelectedGrass.GrassType with
  | none => (AdditionalData, n)
  | some GrassVarieties =>
    let Roll := (G.SlopeAngles VertexIndex).1
    let Pitch := (G.SlopeAngles VertexIndex).2
    if SelectedGrass.MaxSlopeAngle > 0 ∧
        (|Roll| > SelectedGrass.MaxSlopeAngle ∨ |Pitch| > SelectedGrass.MaxSlopeAngle) then
      (AdditionalData, n)
    else
      GrassVarieties.foldl
        (fun (acc : FLandscapeAdditionalData × Nat) Variety =>
          let r := GenerateGrassForVariety G Variety VertexIndex Weight acc.2
          ({ GrassData := FindOrAddSet acc.1.GrassData Variety.GrassMesh r.1 }, r.2))
        (AdditionalData, n)

/-- FGenerateAdditionalVertexDataWorker::GenerateGrassDataForVertex (cpp 22-71): the new
value of `AdditionalData[VertexIndex]` and the next random index; `none` when the loop
over the ground-type weights dereferences a null key. -/
def GenerateGrassDataForVertex (G : GrassContext) (YCoordinate VertexIndex X : Nat)
    (AdditionalData : FLandscapeAdditionalData) (n : Nat) :
    Option (FLandscapeAdditionalData × Nat) :=
  if YCoordinate = 0 ∨ X = 0 then
    some (AdditionalData.ClearData, n)
  else
    match SelectGroundType (G.GroundTypeWeights X YCoordinate) GrassSelection.initial with
    | none => none
    | some S1 =>
      let S2 :=
        if ¬ S1.bIsLayerApplied then
          SelectHeightBand G.HeightBasedData (G.VertexHeight VertexIndex) S1
        else S1
      let Cleared := AdditionalData.ClearData
      if S2.bIsLayerApplied then
        some (GenerateGrassTransformsAtVertex G S2.SelectedGrass VertexIndex S2.HighestWeight
          Cleared n)
      else some (Cleared, n)

/-- FGenerateAdditionalVertexDataWorker::DoThreadedWork (cpp 180-191) on the buffer array
`DataBuffer.AdditionalData`: one call of `GenerateGrassDataForVertex` per
`X < ComponentResolution.X + 1`, with `VertexIndex` counting up from `StartIndex`. An
index outside the array stops the engine (`none`), and so does a call that dereferences
a null ground type. -/
def DoThreadedWork (G : GrassContext) (YCoordinate StartIndex : Nat)
    (AdditionalData : List FLandscapeAdditionalData) (n : Nat) :
    Option (List FLandscapeAdditionalData × Nat) :=
  ((List.range (G.Landscape.ComponentResolutionX + 1)).foldl
    (fun (acc : Option (List FLandscapeAdditionalData × Nat) × Nat) X =>
      (match acc.1 with
        | none => none
        | some (Buffer, m) =>
          match Buffer[acc.2]? with
          | none => none
          | some Entry =>
            match GenerateGrassDataForVertex G YCoordinate acc.2 X Entry m with
            | none => none
            | some r => some (Buffer.set acc.2 r.1, r.2),
        acc.2 + 1))
    (some (AdditionalData, n), StartIndex)).1

/-- Phase 2 on the buffer array: the additional-data workers run one after the other in
the order `Rows` (any order the pool may pick), each on its own vertex row. -/
def RunAdditionalDataWorkers (G : GrassContext) :
    List Nat → List FLandscapeAdditionalData → Nat → Option (List FLandscapeAdditionalData × Nat)
  | [], AdditionalData, n => some (AdditionalData, n)
  | Y :: Rows, AdditionalData, n =>
    match DoThreadedWork G Y (Y * (G.Landscape.ComponentResolutionX + 1)) AdditionalData n with
    | none => none
    | some r => RunAdditionalDataWorkers G Rows r.1 r.2

/-- The band test of the fallback loop as the claim words it: the half-open interval
`[MinHeight, MaxHeight)` contains the height. -/
def inHalfOpenBand (Band : FHeightBasedLandscapeData) (VertexHeight : ℚ) : Bool :=
  decide (Band.MinHeight ≤ VertexHeight ∧ VertexHeight < Band.MaxHeight)

/-- The band test of the fallback loop as the source writes it:
`MinHeight < VertexHeight && MaxHeight > VertexHeight`. -/
def inOpenBand (Band : FHeightBasedLandscapeData) (VertexHeight : ℚ) : Bool :=
  decide (Band.MinHeight < VertexHeight ∧ Band.MaxHeight > VertexHeight)

/-- A grass type with a single variety of density 1 that is neither rotated nor scaled
at random. -/
def plainGrass : FGrassTypeSettings :=
  { GrassType := some
      [{ GrassMesh := 0, Density := 1, RandomRotation := false, Scaling := .Other
         ScaleX := { Min := 1, Max := 1 }, ScaleY := { Min := 1, Max := 1 }
         ScaleZ := { Min := 1, Max := 1 } }]
    MaxSlopeAngle := 0 }

/-- A worker context on `smallLandscape`: every quad has area 5000000, so density 1 and
weight 1 give exactly five instances; one height band from 0 to 100 with `plainGrass`;
every vertex carries the single ground-type weight `w` for a ground type with
`plainGrass` and lies at world height `h`; all random draws are 1/2. -/
def grassContext (w h : ℚ) : GrassContext :=
  { Landscape := smallLandscape
    AreaPerSquare := 5000000
    QuadSideLength := 1000
    HeightBasedData := [{ MinHeight := 0, MaxHeight := 100, Grass := plainGrass }]
    GroundTypeWeights := fun _ _ => [(some plainGrass, w)]
    VertexHeight := fun _ => h
    VerticesRelative := fun _ => { X := 0, Y := 0, Z := 0 }
    Normals := fun _ => { X := 0, Y := 0, Z := 1 }
    SlopeAngles := fun _ => (0, 0)
    Rand := fun _ => 1 / 2 }

/-- The context `grassContext w h` with the weights map of a layer set whose first slot
holds a ground type with `plainGrass` and weight `w` and whose second slot is empty
(null key) with weight `v`. -/
def emptySlotContext (w v h : ℚ) : GrassContext :=
  { grassContext w h with GroundTypeWeights := fun _ _ => [(some plainGrass, w), (none, v)] }

/-! ## Box shape, shape dispatch and layer application
(LandscapeLayerComponent.cpp 56-84, 160-195) -/

/-- FBox2D::ComputeSquaredDistanceToPoint of the engine: per axis, the squared excess of
the point below `Min` or above `Max`, summed. -/
def ComputeSquaredDistanceToPoint (Box : FBox2D) (Point : FVector2D) : ℚ :=
  (if Point.X < Box.Min.X then (Point.X - Box.Min.X) * (Point.X - Box.Min.X)
    else if Point.X > Box.Max.X then (Point.X - Box.Max.X) * (Point.X - Box.Max.X)
    else 0) +
  (if Point.Y < Box.Min.Y then (Point.Y - Box.Min.Y) * (Point.Y - Box.Min.Y)
    else if Point.Y > Box.Max.Y then (Point.Y - Box.Max.Y) * (Point.Y - Box.Max.Y)
    else 0)

/-- FBox2D::IsInside of the engine: strictly inside on both axes. -/
def IsInside (Box : FBox2D) (TestPoint : FVector2D) : Prop :=
  TestPoint.X > Box.Min.X ∧ TestPoint.X < Box.Max.X ∧
    TestPoint.Y > Box.Min.Y ∧ TestPoint.Y < Box.Max.Y

/-- The point handed to `ComputeSquaredDistanceToPoint` in
`TryCalculateBoxSmoothingFactor`: `FVector2D(RotatedLocation) + Origin`, where
`InverseTransformLocation` stands for the X/Y part of the engine call
`UKismetMathLibrary::InverseTransformLocation(Transform, FVector(Location, 0))`. -/
def BoxLocalPoint (InverseTransformLocation : FVector2D → FVector2D)
    (Location Origin : FVector2D) : FVector2D :=
  { X := (InverseTransformLocation Location).X + Origin.X
    Y := (InverseTransformLocation Location).Y + Origin.Y }

/-- ULandscapeLayerComponent::TryCalculateBoxSmoothingFactor
(LandscapeLayerComponent.cpp 179-195). Result: `some none` when the function returns
false, `some (some f)` when it returns true with `OutSmoothingFactor = f`, and `none`
when the division `DistanceSqr / SmoothingDistanceSqr` would be carried out with a zero
divisor (the float result would be infinite or not a number). -/
def TryCalculateBoxSmoothingFactor (InverseTransformLocation : FVector2D → FVector2D)
    (C : ULandscapeLayerComponent) (Location Origin : FVector2D) : Option (Option ℚ) :=
  let DistanceSqr := ComputeSquaredDistanceToPoint C.InnerBox
    (BoxLocalPoint InverseTransformLocation Location Origin)
  let SmoothingDistanceSqr := C.SmoothingDistance * C.SmoothingDistance
  if DistanceSqr ≥ SmoothingDistanceSqr then
    some none
  else if DistanceSqr = 0 then
    some (some 0)
  else if SmoothingDistanceSqr = 0 then
    none
  else
    some (some (DistanceSqr / SmoothingDistanceSqr))

/-- ULandscapeLayerComponent::TryCalculateSmoothingFactor
(LandscapeLayerComponent.cpp 160-177). `none` is a fatal stop: no bounds component and
no owner to take the origin from, `checkNoEntry()` for the shape `HS_Default`, or a
fatal result of the shape's own function. -/
def TryCalculateSmoothingFactor (Sqrt : ℚ → ℚ) (InverseTransformLocation : FVector2D → FVector2D)
    (C : ULandscapeLayerComponent) (Location : FVector2D) : Option (Option ℚ) :=
  match C.Origin with
  | none => none
  | some Origin =>
    match C.Shape with
    | .HS_Box => TryCalculateBoxSmoothingFactor InverseTransformLocation C Location Origin
    | .HS_Round => TryCalculateSphereSmoothingFactor Sqrt C Location Origin
    | .HS_Default => none

/-- ULandscapeLayerComponent::IsAffectedByLayer (LandscapeLayerComponent.cpp 56-59). -/
def IsAffectedByLayer (C : ULandscapeLayerComponent) (Location : FVector2D) : Prop :=
  IsInside C.BoundingBox Location

instance (Box : FBox2D) (P : FVector2D) : Decidable (IsInside Box P) := by
  unfold IsInside
  infer_instance

instance (C : ULandscapeLayerComponent) (P : FVector2D) : Decidable (IsAffectedByLayer C P) := by
  unfold IsAffectedByLayer
  infer_instance

/-- ULandscapeLayerComponent::ApplyLayerData (LandscapeLayerComponent.cpp 61-84) on the
state `Vertex` of one vertex (its height, its colour and whatever else an effect may
write, such as the hole flag). `VertexLocation` is the local of that name, the world
position of the vertex. `Layers` lists the effects
`ULandscapeLayerDataBase::ApplyToVertices` of the layer's non-null effect payloads, each
taking the smoothing factor; their sources are not available. `none` is a fatal stop
inside `TryCalculateSmoothingFactor`. -/
def ApplyLayerData {σ : Type} (Sqrt : ℚ → ℚ) (InverseTransformLocation : FVector2D → FVector2D)
    (C : ULandscapeLayerComponent) (Layers : List (ℚ → σ → σ)) (VertexLocation : FVector2D)
    (Vertex : σ) : Option σ :=
  if ¬ IsAffectedByLayer C VertexLocation then some Vertex
  else
    match TryCalculateSmoothingFactor Sqrt InverseTransformLocation C VertexLocation with
    | none => none
    | some none => some Vertex
    | some (some SmoothingFactor) =>
      some (Layers.foldl (fun V Layer => Layer SmoothingFactor V) Vertex)

/-- A box layer around the world origin before `UpdateShape`: extent 100 x 100, smoothing
distance `D`, direction Outwards (the inner box is the whole extent). -/
def boxLayer (D : ℚ) : ULandscapeLayerComponent :=
  { SmoothingDirection := .SD_Outwards
    SmoothingDistance := D
    Shape := .HS_Box
    Radius := 100
    Extent := { X := 100, Y := 100 }
    Origin := some { X := 0, Y := 0 }
    BoundingBox := { Min := { X := 0, Y := 0 }, Max := { X := 0, Y := 0 } }
    InnerBox := { Min := { X := 0, Y := 0 }, Max := { X := 0, Y := 0 } }
    BoundsSmoothingOffset := 0
    InnerSmoothingOffset := 0 }

/-! ## Vertex addressing and the ground-type raster (RuntimeLandscape.h / .cpp) -/

/-- ARuntimeLandscape::GetVertexCoordinatesWithinLandscape (RuntimeLandscape.cpp 289-298). -/
def GetVertexCoordinatesWithinLandscape (L : ARuntimeLandscape) (SectionIndex : Int)
    (SectionVertexX SectionVertexY : Int) : FIntVector2 :=
  let SectionCoordinates := GetComponentCoordinates L SectionIndex
  { X := (L.ComponentResolutionX : Int) * SectionCoordinates.X + SectionVertexX
    Y := (L.ComponentResolutionY : Int) * SectionCoordinates.Y + SectionVertexY }

/-- FColor: four 8 bit channels. -/
structure FColor where
  R : Fin 256
  G : Fin 256
  B : Fin 256
  A : Fin 256
deriving DecidableEq, Repr

/-- FLinearColor: four float channels. -/
structure FLinearColor where
  R : ℚ
  G : ℚ
  B : ℚ
  A : ℚ
deriving DecidableEq, Repr

/-- FRuntimeLandscapeGroundTypeLayerSet (RuntimeLandscape.h 34-82). `RenderTarget` is
`none` for a null pointer, else the pair `SizeX`, `SizeY` of the target; a ground type
pointer is a number, `none` for `nullptr`. -/
structure FRuntimeLandscapeGroundTypeLayerSet where
  RenderTarget : Option FIntVector2
  GroundTypes : List (Option Nat)
  VertexLayerWeights : List FColor
deriving DecidableEq, Repr

/-- FRuntimeLandscapeGroundTypeLayerSet::GetPixelIndexForCoordinates
(RuntimeLandscape.cpp 34-39), for a render target of width `SizeX`. -/
def GetPixelIndexForCoordinates (SizeX : Int) (VertexCoords : FIntVector2) : Int :=
  VertexCoords.X + VertexCoords.Y * SizeX

/-- The channel read in the `switch (LayerIndex)` of
`GetGroundTypeLayerWeightsAtVertexCoordinates`: R, G, B, A for 0..3, `none` for the
`default` branch (`checkNoEntry`). -/
def ChannelValue (ColorAtPixel : FColor) (LayerIndex : Nat) : Option (Fin 256) :=
  match LayerIndex with
  | 0 => some ColorAtPixel.R
  | 1 => some ColorAtPixel.G
  | 2 => some ColorAtPixel.B
  | 3 => some ColorAtPixel.A
  | _ => none

/-- TMap::Add: replace the value stored under the key, or append the pair. -/
def TMapAdd {κ ν : Type} [DecidableEq κ] (Map : List (κ × ν)) (Key : κ) (Value : ν) :
    List (κ × ν) :=
  match Map with
  | [] => [(Key, Value)]
  | p :: Rest => if p.1 = Key then (Key, Value) :: Rest else p :: TMapAdd Rest Key Value

/-- TMap::Find: the value stored under the key. -/
def TMapFind {κ ν : Type} [DecidableEq κ] (Map : List (κ × ν)) (Key : κ) : Option ν :=
  match Map with
  | [] => none
  | p :: Rest => if p.1 = Key then some p.2 else TMapFind Rest Key

/-- The inner loop of `GetGroundTypeLayerWeightsAtVertexCoordinates` (cpp 200-224) over the
ground types not yet visited, `LayerIndex` being the running index. -/
def AddLayerWeights (ColorAtPixel : FColor) :
    List (Option Nat) → Nat → List (Option Nat × ℚ) → Option (List (Option Nat × ℚ))
  | [], _, Result => some Result
  | Layer :: Rest, LayerIndex, Result =>
    match ChannelValue ColorAtPixel LayerIndex with
    | none => none
    | some Value =>
      let LayerWeight : ℚ := ((Value : Nat) : ℚ) / 255
      AddLayerWeights ColorAtPixel Rest (LayerIndex + 1) (TMapAdd Result Layer LayerWeight)

/-- The body of the loop over the layer sets (cpp 192-227) for one set: a set without
render target, or with the pixel index outside `VertexLayerWeights`, is skipped. -/
def AddLayerSetWeights (VertexCoordinates : FIntVector2)
    (LayerSet : FRuntimeLandscapeGroundTypeLayerSet) (Result : List (Option Nat × ℚ)) :
    Option (List (Option Nat × ℚ)) :=
  match LayerSet.RenderTarget with
  | none => some Result
  | some Size =>
    let PixelIndex := GetPixelIndexForCoordinates Size.X VertexCoordinates
    if 0 ≤ PixelIndex ∧ PixelIndex < (LayerSet.VertexLayerWeights.length : Int) then
      match LayerSet.VertexLayerWeights[PixelIndex.toNat]? with
      | none => some Result
      | some ColorAtPixel => AddLayerWeights ColorAtPixel LayerSet.GroundTypes 0 Result
    else some Result

/-- The loop over `GroundLayerSets`, continuing from the map `Result`. -/
def AddAllLayerSetWeights (VertexCoordinates : FIntVector2) :
    List FRuntimeLandscapeGroundTypeLayerSet → List (Option Nat × ℚ) →
      Option (List (Option Nat × ℚ))
  | [], Result => some Result
  | LayerSet :: Rest, Result =>
    match AddLayerSetWeights VertexCoordinates LayerSet Result with
    | none => none
    | some Result1 => AddAllLayerSetWeights VertexCoordinates Rest Result1

/-- ARuntimeLandscape::GetGroundTypeLayerWeightsAtVertexCoordinates
(RuntimeLandscape.cpp 184-230): the returned map, as its key/value pairs in insertion
order; `none` when `checkNoEntry()` is reached (a fifth ground type in a set). -/
def GetGroundTypeLayerWeightsAtVertexCoordinates (L : ARuntimeLandscape)
    (GroundLayerSets : List FRuntimeLandscapeGroundTypeLayerSet) (SectionIndex : Int)
    (X Y : Int) : Option (List (Option Nat × ℚ)) :=
  AddAllLayerSetWeights (GetVertexCoordinatesWithinLandscape L SectionIndex X Y)
    GroundLayerSets []

/-- TArray::IndexOfByKey: the index of the first element equal to the key, `none` for
`INDEX_NONE`. -/
def IndexOfByKey : List (Option Nat) → Option Nat → Option Nat
  | [], _ => none
  | Item :: Rest, Key =>
    if Item = Key then some 0 else (IndexOfByKey Rest Key).map (fun n => n + 1)

/-- FRuntimeLandscapeGroundTypeLayerSet::GetColorChannelForLayer (RuntimeLandscape.h
58-79): the unit colour of the first slot holding the ground type, `FLinearColor::Black`
(0, 0, 0 with alpha 1) when no slot holds it, `none` when `checkNoEntry()` is reached. -/
def GetColorChannelForLayer (LayerSet : FRuntimeLandscapeGroundTypeLayerSet)
    (GroundType : Option Nat) : Option FLinearColor :=
  match IndexOfByKey LayerSet.GroundTypes GroundType with
  | some 0 => some { R := 1, G := 0, B := 0, A := 0 }
  | some 1 => some { R := 0, G := 1, B := 0, A := 0 }
  | some 2 => some { R := 0, G := 0, B := 1, A := 0 }
  | some 3 => some { R := 0, G := 0, B := 0, A := 1 }
  | some _ => none
  | none => some { R := 0, G := 0, B := 0, A := 1 }

/-- The component of a linear colour with the number of a slot: R, G, B, A for 0..3. -/
def LinearChannel (Color : FLinearColor) (LayerIndex : Nat) : ℚ :=
  match LayerIndex with
  | 0 => Color.R
  | 1 => Color.G
  | 2 => Color.B
  | _ => Color.A

/-! ## Reference definition of the triangle list -/

/-- The quads `(x, y)` of an `R x C` tile without a hole corner, in row-major order
(`y` outer, `x` inner), as the specification enumerates them. -/
def quadsWithoutHole (R C : Nat) (Holes : Finset Nat) : List (Nat × Nat) :=
  (List.range R).flatMap (fun y =>
    ((List.range C).filter (fun x => !quadTouchesHole C Holes x y)).map (fun x => (x, y)))

/-- The six indices T1,T2,T3,T3,T2,T4 of a quad, with T1 = y*(C+1)+x, T2 = T1+(C+1),
T3 = T1+1, T4 = T2+1. -/
def quadIndices (C : Nat) (q : Nat × Nat) : List Nat :=
  let T1 := q.2 * (C + 1) + q.1
  let T2 := T1 + (C + 1)
  let T3 := T1 + 1
  let T4 := T2 + 1
  [T1, T2, T3, T3, T2, T4]

/-- The triangle list as the specification defines it: the six indices of every quad
without a hole corner, concatenated in row-major order. -/
def triangleListReference (R C : Nat) (Holes : Finset Nat) : List Nat :=
  (quadsWithoutHole R C Holes).flatMap (quadIndices C)

/-- A query box whose lower X edge lies exactly on the far edge of `grid2x2`. -/
def farEdgeBox : FBox2D :=
  { Min := { X := 200, Y := 0 }, Max := { X := 250, Y := 50 } }

/-- A layer set over a 3 x 3 raster whose every sample is (255, 51, 0, 0), with two
ground types and two empty slots. -/
def sampleLayerSet : FRuntimeLandscapeGroundTypeLayerSet :=
  { RenderTarget := some { X := 3, Y := 3 }
    GroundTypes := [some 1, some 2, none, none]
    VertexLayerWeights := List.replicate 9 { R := 255, G := 51, B := 0, A := 0 } }

/-- A layer set over the same raster whose slots 0 and 1 hold the same ground type. -/
def repeatedLayerSet : FRuntimeLandscapeGroundTypeLayerSet :=
  { RenderTarget := some { X := 3, Y := 3 }
    GroundTypes := [some 1, some 1, some 2, some 3]
    VertexLayerWeights := List.replicate 9 { R := 255, G := 51, B := 0, A := 0 } }


/-! ## Theorems -/

theorem mem_forRange (Lo Hi k : Int) : k ∈ forRange Lo Hi ↔ Lo ≤ k ∧ k ≤ Hi := by
  unfold forRange
  simp only [List.mem_map, List.mem_range]
  constructor
  · rintro ⟨n, hn, rfl⟩
    omega
  · rintro ⟨h1, h2⟩
    exact ⟨(k - Lo).toNat, by omega, by omega⟩

theorem length_forRange (Lo Hi : Int) : (forRange Lo Hi).length = (Hi + 1 - Lo).toNat := by
  simp [forRange]

theorem RoundToInt_intCast (W : Int) : RoundToInt (W : ℚ) = W := by
  unfold RoundToInt
  rw [Int.floor_eq_iff]
  constructor
  · linarith
  · linarith

theorem FloorToInt_div_intCast (i W : Int) (hW : 0 < W) :
    FloorToInt ((i : ℚ) / (W : ℚ)) = i / W := by
  unfold FloorToInt
  have hWq : (0 : ℚ) < (W : ℚ) := by exact_mod_cast hW
  rw [Int.floor_eq_iff]
  constructor
  · rw [le_div_iff₀ hWq]
    exact_mod_cast Int.ediv_mul_le i (ne_of_gt hW)
  · rw [div_lt_iff₀ hWq]
    exact_mod_cast Int.lt_ediv_add_one_mul_self i hW

theorem GetComponentCoordinates_eq (L : ARuntimeLandscape) (i : Int)
    (hW : 1 ≤ L.ComponentAmount.X) (hi : 0 ≤ i) :
    GetComponentCoordinates L i = { X := i % L.ComponentAmount.X, Y := i / L.ComponentAmount.X } := by
  unfold GetComponentCoordinates
  rw [RoundToInt_intCast, FloorToInt_div_intCast _ _ (by omega),
    Int.tmod_eq_emod hi (by omega)]

theorem GetComponentCoordinates_in_grid (L : ARuntimeLandscape)
    (hW : 1 ≤ L.ComponentAmount.X) (i : Int) (hi0 : 0 ≤ i)
    (hi1 : i < L.ComponentAmount.X * L.ComponentAmount.Y) :
    (GetComponentCoordinates L i).X = i % L.ComponentAmount.X ∧
    (GetComponentCoordinates L i).Y = i / L.ComponentAmount.X ∧
    (GetComponentCoordinates L i).Y * L.ComponentAmount.X + (GetComponentCoordinates L i).X = i ∧
    0 ≤ (GetComponentCoordinates L i).X ∧
    (GetComponentCoordinates L i).X < L.ComponentAmount.X ∧
    0 ≤ (GetComponentCoordinates L i).Y ∧
    (GetComponentCoordinates L i).Y < L.ComponentAmount.Y := by
  have hWpos : 0 < L.ComponentAmount.X := by omega
  rw [GetComponentCoordinates_eq L i hW hi0]
  have h1 := Int.emod_add_ediv i L.ComponentAmount.X
  have h2 := Int.emod_nonneg i (ne_of_gt hWpos)
  have h3 := Int.emod_lt_of_pos i hWpos
  have h4 : 0 ≤ i / L.ComponentAmount.X := Int.ediv_nonneg hi0 (by omega)
  have h5 : i / L.ComponentAmount.X < L.ComponentAmount.Y := by
    apply Int.ediv_lt_of_lt_mul hWpos
    rw [mul_comm]; exact hi1
  refine ⟨rfl, rfl, ?_, h2, h3, h4, h5⟩
  show i / L.ComponentAmount.X * L.ComponentAmount.X + i % L.ComponentAmount.X = i
  rw [mul_comm]; omega

/-- C2. Tile index round trip: on a grid of width W >= 1 and height H >= 1,
GetComponentCoordinates(row*W + col) is exactly (X = col, Y = row) for every
0 <= col < W and 0 <= row < H, and for every index i in [0, W*H) the result satisfies
X = i mod W, Y = i div W, Y*W + X = i, with X and Y inside the grid. -/
theorem GetComponentCoordinates_round_trip (L : ARuntimeLandscape)
    (hW : 1 ≤ L.ComponentAmount.X) (_hH : 1 ≤ L.ComponentAmount.Y) :
    (∀ col row : Int, 0 ≤ col → col < L.ComponentAmount.X → 0 ≤ row →
        row < L.ComponentAmount.Y →
        GetComponentCoordinates L (row * L.ComponentAmount.X + col) = { X := col, Y := row }) ∧
    (∀ i : Int, 0 ≤ i → i < L.ComponentAmount.X * L.ComponentAmount.Y →
        (GetComponentCoordinates L i).X = i % L.ComponentAmount.X ∧
        (GetComponentCoordinates L i).Y = i / L.ComponentAmount.X ∧
        (GetComponentCoordinates L i).Y * L.ComponentAmount.X + (GetComponentCoordinates L i).X = i ∧
        0 ≤ (GetComponentCoordinates L i).X ∧
        (GetComponentCoordinates L i).X < L.ComponentAmount.X ∧
        0 ≤ (GetComponentCoordinates L i).Y ∧
        (GetComponentCoordinates L i).Y < L.ComponentAmount.Y) := by
  have hWpos : 0 < L.ComponentAmount.X := by omega
  constructor
  · intro col row hc0 hc1 hr0 _
    have hidx : 0 ≤ row * L.ComponentAmount.X + col :=
      add_nonneg (mul_nonneg hr0 (by omega)) hc0
    rw [GetComponentCoordinates_eq L _ hW hidx]
    have hX : (row * L.ComponentAmount.X + col) % L.ComponentAmount.X = col := by
      rw [add_comm, Int.add_mul_emod_self, Int.emod_eq_of_lt hc0 hc1]
    have hY : (row * L.ComponentAmount.X + col) / L.ComponentAmount.X = row := by
      rw [add_comm, Int.add_mul_ediv_right _ _ (ne_of_gt hWpos), Int.ediv_eq_zero_of_lt hc0 hc1,
        zero_add]
    rw [hX, hY]
  · intro i hi0 hi1
    exact GetComponentCoordinates_in_grid L hW i hi0 hi1

/-- Witness for C2 on the 2x2 grid. -/
theorem GetComponentCoordinates_round_trip_witness :
    GetComponentCoordinates grid2x2 (1 * grid2x2.ComponentAmount.X + 1) = { X := 1, Y := 1 } :=
  (GetComponentCoordinates_round_trip grid2x2 (by decide) (by decide)).1 1 1
    (by decide) (by decide) (by decide) (by decide)


theorem mem_tileGrid (W r0 r1 c0 c1 i : Int) (hW : 0 < W) (hc0 : 0 ≤ c0) (hc1 : c1 ≤ W - 1) :
    i ∈ (forRange r0 r1).flatMap (fun Y => (forRange c0 c1).map (fun X => Y * W + X)) ↔
      (r0 ≤ i / W ∧ i / W ≤ r1) ∧ (c0 ≤ i % W ∧ i % W ≤ c1) := by
  simp only [List.mem_flatMap, List.mem_map, mem_forRange]
  constructor
  · rintro ⟨Y, hY, X, hX, rfl⟩
    have hX0 : 0 ≤ X := by omega
    have hX1 : X < W := by omega
    have hmod : (Y * W + X) % W = X := by
      rw [add_comm, Int.add_mul_emod_self, Int.emod_eq_of_lt hX0 hX1]
    have hdiv : (Y * W + X) / W = Y := by
      rw [add_comm, Int.add_mul_ediv_right _ _ (ne_of_gt hW), Int.ediv_eq_zero_of_lt hX0 hX1,
        zero_add]
    rw [hmod, hdiv]
    exact ⟨hY, hX⟩
  · rintro ⟨hY, hX⟩
    refine ⟨i / W, hY, i % W, hX, ?_⟩
    have := Int.emod_add_ediv i W
    rw [mul_comm]; omega

theorem length_flatMap_const {α β : Type} (l : List α) (f : α → List β) (n : Nat)
    (h : ∀ y, (f y).length = n) : (l.flatMap f).length = l.length * n := by
  induction l with
  | nil => simp
  | cons a t ih => simp [List.flatMap_cons, ih, h]; ring

theorem length_tileGrid (W r0 r1 c0 c1 : Int) :
    ((forRange r0 r1).flatMap (fun Y => (forRange c0 c1).map (fun X => Y * W + X))).length =
      (r1 + 1 - r0).toNat * (c1 + 1 - c0).toNat := by
  rw [length_flatMap_const _ _ (c1 + 1 - c0).toNat (fun y => by simp [length_forRange]),
    length_forRange]

theorem floor_div_le_iff (a s : ℚ) (c : Int) (hs : 0 < s) :
    FloorToInt (a / s) ≤ c ↔ a < ((c : ℚ) + 1) * s := by
  unfold FloorToInt
  rw [← Int.lt_add_one_iff, Int.floor_lt, div_lt_iff₀ hs]
  push_cast
  rfl

theorem le_floor_div_iff (a s : ℚ) (c : Int) (hs : 0 < s) :
    c ≤ FloorToInt (a / s) ↔ (c : ℚ) * s ≤ a := by
  unfold FloorToInt
  rw [Int.le_floor, le_div_iff₀ hs]


/-- C1 (amended). On a landscape whose size is ComponentAmount * ComponentSize, for every
query box with Min <= Max the area query returns a list, and a tile index i in [0, W*H)
is in it exactly when the tile rectangle taken half-open on its upper edges,
[col*S, (col+1)*S) x [row*S, (row+1)*S), meets the closed query box. -/
theorem GetComponentsInArea_half_open (L : ARuntimeLandscape) (Area : FBox2D)
    (hS : 0 < L.ComponentSize)
    (hW : 1 ≤ L.ComponentAmount.X) (_hH : 1 ≤ L.ComponentAmount.Y)
    (hLX : L.LandscapeSize.X = (L.ComponentAmount.X : ℚ) * L.ComponentSize)
    (hLY : L.LandscapeSize.Y = (L.ComponentAmount.Y : ℚ) * L.ComponentSize)
    (hX : Area.Min.X ≤ Area.Max.X) (hY : Area.Min.Y ≤ Area.Max.Y) :
    ∃ r, GetComponentsInArea L Area = some r ∧
      ∀ i : Int, 0 ≤ i → i < L.ComponentAmount.X * L.ComponentAmount.Y →
        (i ∈ r ↔ halfOpenTileIntersects L i Area) := by
  have hcoord := GetComponentCoordinates_in_grid L hW
  have hWpos : 0 < L.ComponentAmount.X := by omega
  -- the four clamp bounds, as facts about an integer column / row
  have key : ∀ i : Int, 0 ≤ i → i < L.ComponentAmount.X * L.ComponentAmount.Y →
      (halfOpenTileIntersects L i Area ↔
        (max (FloorToInt ((Area.Min.Y - L.StartLocation.Y) / L.ComponentSize)) 0 ≤ i / L.ComponentAmount.X ∧
          i / L.ComponentAmount.X ≤
            min (FloorToInt ((Area.Max.Y - L.StartLocation.Y) / L.ComponentSize)) (L.ComponentAmount.Y - 1)) ∧
        (max (FloorToInt ((Area.Min.X - L.StartLocation.X) / L.ComponentSize)) 0 ≤ i % L.ComponentAmount.X ∧
          i % L.ComponentAmount.X ≤
            min (FloorToInt ((Area.Max.X - L.StartLocation.X) / L.ComponentSize)) (L.ComponentAmount.X - 1))) := by
    intro i hi0 hi1
    obtain ⟨hx, hy, -, hx0, hx1, hy0, hy1⟩ := hcoord i hi0 hi1
    unfold halfOpenTileIntersects
    simp only [hx, hy] at hx0 hx1 hy0 hy1 ⊢
    rw [max_le_iff, max_le_iff, le_min_iff, le_min_iff, floor_div_le_iff _ _ _ hS,
      floor_div_le_iff _ _ _ hS, le_floor_div_iff _ _ _ hS, le_floor_div_iff _ _ _ hS]
    constructor
    · rintro ⟨h1, h2, h3, h4⟩
      exact ⟨⟨⟨h4, hy0⟩, h3, by omega⟩, ⟨h2, hx0⟩, h1, by omega⟩
    · rintro ⟨⟨⟨h4, -⟩, h3, -⟩, ⟨h2, -⟩, h1, -⟩
      exact ⟨h1, h2, h3, h4⟩
  unfold GetComponentsInArea
  simp only []
  split_ifs with hrej hexp hlen
  · -- rejected: the box lies outside the landscape
    refine ⟨[], rfl, ?_⟩
    intro i hi0 hi1
    simp only [List.not_mem_nil, false_iff]
    obtain ⟨hx, hy, -, hx0, hx1, hy0, hy1⟩ := hcoord i hi0 hi1
    unfold halfOpenTileIntersects
    simp only []
    rintro ⟨h1, h2, h3, h4⟩
    have hx1q : ((GetComponentCoordinates L i).X : ℚ) + 1 ≤ (L.ComponentAmount.X : ℚ) := by
      exact_mod_cast hx1
    have hy1q : ((GetComponentCoordinates L i).Y : ℚ) + 1 ≤ (L.ComponentAmount.Y : ℚ) := by
      exact_mod_cast hy1
    have hx0q : (0 : ℚ) ≤ ((GetComponentCoordinates L i).X : ℚ) := by exact_mod_cast hx0
    have hy0q : (0 : ℚ) ≤ ((GetComponentCoordinates L i).Y : ℚ) := by exact_mod_cast hy0
    have e1 := mul_le_mul_of_nonneg_right hx1q hS.le
    have e2 := mul_le_mul_of_nonneg_right hy1q hS.le
    have e3 := mul_nonneg hx0q hS.le
    have e4 := mul_nonneg hy0q hS.le
    rcases hrej with h | h | h | h
    · rw [hLX] at h; linarith
    · rw [hLY] at h; linarith
    · linarith
    · linarith
  · refine ⟨_, rfl, ?_⟩
    intro i hi0 hi1
    rw [key i hi0 hi1]
    exact mem_tileGrid _ _ _ _ _ i hWpos (le_max_right _ _) (min_le_right _ _)
  · -- the final check cannot fail
    exfalso
    apply hlen
    rw [length_tileGrid]
    simp only [not_or, not_lt] at hrej
    obtain ⟨r1, r2, r3, r4⟩ := hrej
    rw [hLX] at r1
    rw [hLY] at r2
    have a1 : FloorToInt ((Area.Min.X - L.StartLocation.X) / L.ComponentSize) ≤ L.ComponentAmount.X := by
      rw [floor_div_le_iff _ _ _ hS]; nlinarith
    have a2 : FloorToInt ((Area.Min.Y - L.StartLocation.Y) / L.ComponentSize) ≤ L.ComponentAmount.Y := by
      rw [floor_div_le_iff _ _ _ hS]; nlinarith
    have a3 : 0 ≤ FloorToInt ((Area.Max.X - L.StartLocation.X) / L.ComponentSize) := by
      rw [le_floor_div_iff _ _ _ hS]; simp; linarith
    have a4 : 0 ≤ FloorToInt ((Area.Max.Y - L.StartLocation.Y) / L.ComponentSize) := by
      rw [le_floor_div_iff _ _ _ hS]; simp; linarith
    have a5 : FloorToInt ((Area.Min.X - L.StartLocation.X) / L.ComponentSize) ≤
        FloorToInt ((Area.Max.X - L.StartLocation.X) / L.ComponentSize) := by
      unfold FloorToInt
      apply Int.floor_le_floor
      apply div_le_div_of_nonneg_right _ hS.le
      linarith
    have a6 : FloorToInt ((Area.Min.Y - L.StartLocation.Y) / L.ComponentSize) ≤
        FloorToInt ((Area.Max.Y - L.StartLocation.Y) / L.ComponentSize) := by
      unfold FloorToInt
      apply Int.floor_le_floor
      apply div_le_div_of_nonneg_right _ hS.le
      linarith
    have b1 : 0 ≤ min (FloorToInt ((Area.Max.X - L.StartLocation.X) / L.ComponentSize)) (L.ComponentAmount.X - 1)
        + 1 - max (FloorToInt ((Area.Min.X - L.StartLocation.X) / L.ComponentSize)) 0 := by omega
    have b2 : 0 ≤ min (FloorToInt ((Area.Max.Y - L.StartLocation.Y) / L.ComponentSize)) (L.ComponentAmount.Y - 1)
        + 1 - max (FloorToInt ((Area.Min.Y - L.StartLocation.Y) / L.ComponentSize)) 0 := by omega
    push_cast
    rw [Int.toNat_of_nonneg b1, Int.toNat_of_nonneg b2]
    ring
  · -- the clamped rectangle is empty
    refine ⟨[], rfl, ?_⟩
    intro i hi0 hi1
    simp only [List.not_mem_nil, false_iff]
    rw [key i hi0 hi1]
    rintro ⟨⟨h1, h2⟩, h3, h4⟩
    apply hexp
    apply mul_pos <;> omega

/-- Witness for C1 (amended) on the 2x2 grid: tile 3 is returned for `edgeBox`, tile 1
(which only shares an edge with the box) is decided by the half-open rule. -/
theorem GetComponentsInArea_half_open_witness :
    ∃ r, GetComponentsInArea grid2x2 edgeBox = some r ∧
      ∀ i : Int, 0 ≤ i → i < grid2x2.ComponentAmount.X * grid2x2.ComponentAmount.Y →
        (i ∈ r ↔ halfOpenTileIntersects grid2x2 i edgeBox) :=
  GetComponentsInArea_half_open grid2x2 edgeBox (by norm_num [grid2x2]) (by decide) (by decide)
    (by norm_num [grid2x2]) (by norm_num [grid2x2]) (by norm_num [edgeBox])
    (by norm_num [edgeBox])

/-- C1 (counterexample). On the 2x2 grid with tiles of side 100, the well-formed box
[100,200] x [100,200] touches the closed rectangle [100,200] x [0,100] of tile 1 along
a whole edge, yet the area query returns only tile 3. -/
theorem GetComponentsInArea_closed_counterexample :
    (edgeBox.Min.X ≤ edgeBox.Max.X ∧ edgeBox.Min.Y ≤ edgeBox.Max.Y) ∧
    ((0 : Int) ≤ 1 ∧ (1 : Int) < grid2x2.ComponentAmount.X * grid2x2.ComponentAmount.Y) ∧
    closedTileIntersects grid2x2 1 edgeBox ∧
    GetComponentsInArea grid2x2 edgeBox = some [3] ∧ (1 : Int) ∉ [3] := by
  have h : Int.tmod 1 2 = 1 := by decide
  refine ⟨by norm_num [edgeBox], by decide, ?_, ?_, by decide⟩
  · norm_num [closedTileIntersects, GetComponentCoordinates, grid2x2, edgeBox, FloorToInt,
      RoundToInt, h]
  · norm_num [GetComponentsInArea, grid2x2, edgeBox, FloorToInt, forRange, List.range_succ]

/-! ### Round-shape smoothing -/

theorem Clamp_zero_nonneg (x hi : ℚ) : 0 ≤ Clamp x 0 hi := le_max_right _ _

theorem Clamp_zero_le_self (x hi : ℚ) (hx : 0 ≤ x) : Clamp x 0 hi ≤ x :=
  max_le (min_le_left _ _) hx

theorem Clamp_zero_le_max (x hi : ℚ) : Clamp x 0 hi ≤ max hi 0 :=
  max_le_max (min_le_right _ _) (le_refl _)

theorem UpdateShape_round_offsets (T : FVector2D → FVector2D) (C0 : ULandscapeLayerComponent)
    (o : FVector2D) (hShape : C0.Shape = .HS_Round) (hO : C0.Origin = some o)
    (hR : 0 ≤ C0.Radius) (hD : 0 ≤ C0.SmoothingDistance) :
    (UpdateShape T C0).Radius = C0.Radius ∧
    (UpdateShape T C0).SmoothingDistance = C0.SmoothingDistance ∧
    0 ≤ (UpdateShape T C0).BoundsSmoothingOffset ∧
    0 ≤ (UpdateShape T C0).InnerSmoothingOffset ∧
    (UpdateShape T C0).InnerSmoothingOffset ≤ C0.Radius ∧
    (UpdateShape T C0).InnerSmoothingOffset + (UpdateShape T C0).BoundsSmoothingOffset
      ≤ C0.SmoothingDistance := by
  have hmax : max (C0.Radius - 1 / 1000) 0 ≤ C0.Radius := max_le (by linarith) hR
  unfold UpdateShape
  rw [hO]
  simp only [hShape, if_true]
  cases hdir : C0.SmoothingDirection
  · simp only [ne_eq, reduceCtorEq, not_false_eq_true, if_true]
    have h1 := Clamp_zero_nonneg C0.SmoothingDistance (C0.Radius - 1 / 1000)
    have h2 := Clamp_zero_le_self C0.SmoothingDistance (C0.Radius - 1 / 1000) hD
    have h3 := Clamp_zero_le_max C0.SmoothingDistance (C0.Radius - 1 / 1000)
    exact ⟨trivial, trivial, le_refl _, h1, by linarith, by linarith⟩
  · simp only [ne_eq, not_true_eq_false, if_false]
    exact ⟨trivial, trivial, hD, le_refl _, hR, by linarith⟩
  · simp only [ne_eq, reduceCtorEq, not_false_eq_true, if_true]
    have hD2 : 0 ≤ C0.SmoothingDistance * (1 / 2) := by linarith
    have h1 := Clamp_zero_nonneg (C0.SmoothingDistance * (1 / 2)) (C0.Radius - 1 / 1000)
    have h2 := Clamp_zero_le_self (C0.SmoothingDistance * (1 / 2)) (C0.Radius - 1 / 1000) hD2
    have h3 := Clamp_zero_le_max (C0.SmoothingDistance * (1 / 2)) (C0.Radius - 1 / 1000)
    exact ⟨trivial, trivial, hD2, h1, by linarith, by linarith⟩

theorem sq_lt_sq_of_nonneg {a b : ℚ} (ha : 0 ≤ a) (hab : a < b) : a * a < b * b := by
  nlinarith

theorem quadIsSkipped_some (C : Nat) (Holes : Finset Nat) (x y : Nat) :
    quadIsSkipped (some Holes) (y * (C + 1) + x) (y * (C + 1) + x + C + 1) (y * (C + 1) + x + 1)
      = quadTouchesHole C Holes x y := by
  have e1 : (y + 1) * (C + 1) + x = y * (C + 1) + x + C + 1 := by ring
  have e2 : (y + 1) * (C + 1) + x + 1 = y * (C + 1) + x + C + 1 + 1 := by ring
  simp only [quadIsSkipped, quadTouchesHole, quadCorners, List.any_cons, List.any_nil, e1, e2,
    Bool.or_false, Bool.decide_or]

theorem length_flatMap_skip {α β : Type} (l : List α) (p : α → Bool) (g : α → List β)
    (hg : ∀ x, (g x).length = 6) :
    (l.flatMap (fun x => if p x then [] else g x)).length + 6 * (l.filter p).length
      = 6 * l.length := by
  induction l with
  | nil => simp
  | cons a t ih =>
    rw [List.flatMap_cons, List.length_append, List.filter_cons, List.length_cons]
    by_cases h : p a
    · simp only [h, if_true, List.length_nil, List.length_cons]
      omega
    · have h6 := hg a
      simp only [h, Bool.false_eq_true, if_false]
      omega

theorem length_flatMap_rows {α β : Type} (l : List α) (f : α → List β) (c : α → Nat) (n : Nat)
    (h : ∀ y, (f y).length + 6 * c y = 6 * n) :
    (l.flatMap f).length + 6 * (l.map c).sum = 6 * (l.length * n) := by
  induction l with
  | nil => simp
  | cons a t ih =>
    rw [List.flatMap_cons, List.length_append, List.map_cons, List.sum_cons, List.length_cons]
    have := h a
    have e : 6 * ((t.length + 1) * n) = 6 * (t.length * n) + 6 * n := by ring
    omega

theorem GenerateTriangleArray_length_some (L : ARuntimeLandscape) (Holes : Finset Nat) :
    (GenerateTriangleArray L (some Holes)).length
        + 6 * holeQuadCount L.ComponentResolutionY L.ComponentResolutionX Holes
      = 6 * (L.ComponentResolutionY * L.ComponentResolutionX) := by
  unfold GenerateTriangleArray holeQuadCount
  have := length_flatMap_rows (List.range L.ComponentResolutionY)
    (fun Y => (List.range L.ComponentResolutionX).flatMap (fun X =>
      if quadIsSkipped (some Holes) (Y * (L.ComponentResolutionX + 1) + X)
          (Y * (L.ComponentResolutionX + 1) + X + L.ComponentResolutionX + 1)
          (Y * (L.ComponentResolutionX + 1) + X + 1) then []
      else [Y * (L.ComponentResolutionX + 1) + X,
        Y * (L.ComponentResolutionX + 1) + X + L.ComponentResolutionX + 1,
        Y * (L.ComponentResolutionX + 1) + X + 1, Y * (L.ComponentResolutionX + 1) + X + 1,
        Y * (L.ComponentResolutionX + 1) + X + L.ComponentResolutionX + 1,
        Y * (L.ComponentResolutionX + 1) + X + L.ComponentResolutionX + 1 + 1]))
    (fun y => ((List.range L.ComponentResolutionX).filter
      (fun x => quadTouchesHole L.ComponentResolutionX Holes x y)).length)
    L.ComponentResolutionX
    (by
      intro y
      have h := length_flatMap_skip (List.range L.ComponentResolutionX)
        (fun x => quadTouchesHole L.ComponentResolutionX Holes x y)
        (fun X => [y * (L.ComponentResolutionX + 1) + X,
          y * (L.ComponentResolutionX + 1) + X + L.ComponentResolutionX + 1,
          y * (L.ComponentResolutionX + 1) + X + 1, y * (L.ComponentResolutionX + 1) + X + 1,
          y * (L.ComponentResolutionX + 1) + X + L.ComponentResolutionX + 1,
          y * (L.ComponentResolutionX + 1) + X + L.ComponentResolutionX + 1 + 1])
        (fun _ => rfl)
      simp only [List.length_range] at h
      simp only [quadIsSkipped_some]
      exact h)
  simp only [List.length_range] at this
  exact this

theorem holeQuadCount_le (R C : Nat) (Holes : Finset Nat) : holeQuadCount R C Holes ≤ R * C := by
  unfold holeQuadCount
  induction R with
  | zero => simp
  | succ n ih =>
    rw [List.range_succ, List.map_append, List.sum_append]
    simp only [List.map_cons, List.map_nil, List.sum_cons, List.sum_nil, add_zero]
    have h := List.length_filter_le (fun x => quadTouchesHole C Holes x n) (List.range C)
    rw [List.length_range] at h
    have e : (n + 1) * C = n * C + C := by ring
    omega

/-- C4 (amended). For a tile of R x C quads and any hole set, the index list returned by
GenerateTriangleArray has 6 * (R*C - q) entries, q being the number of quads with at
least one hole corner (q <= R*C); so the number of triangles (length / 3) is
R*C*2 - 2*q, which is never negative. -/
theorem GenerateTriangleArray_triangle_count (L : ARuntimeLandscape) (Holes : Finset Nat) :
    holeQuadCount L.ComponentResolutionY L.ComponentResolutionX Holes
      ≤ L.ComponentResolutionY * L.ComponentResolutionX ∧
    (GenerateTriangleArray L (some Holes)).length
      = 6 * (L.ComponentResolutionY * L.ComponentResolutionX
          - holeQuadCount L.ComponentResolutionY L.ComponentResolutionX Holes) ∧
    (((GenerateTriangleArray L (some Holes)).length / 3 : Nat) : Int)
      = (L.ComponentResolutionY : Int) * L.ComponentResolutionX * 2
          - 2 * (holeQuadCount L.ComponentResolutionY L.ComponentResolutionX Holes : Int) ∧
    (0 : Int) ≤ (L.ComponentResolutionY : Int) * L.ComponentResolutionX * 2
          - 2 * (holeQuadCount L.ComponentResolutionY L.ComponentResolutionX Holes : Int) := by
  have h1 := GenerateTriangleArray_length_some L Holes
  have h2 := holeQuadCount_le L.ComponentResolutionY L.ComponentResolutionX Holes
  have h3 : (GenerateTriangleArray L (some Holes)).length / 3
      = 2 * (L.ComponentResolutionY * L.ComponentResolutionX)
          - 2 * holeQuadCount L.ComponentResolutionY L.ComponentResolutionX Holes := by
    omega
  refine ⟨h2, by omega, ?_, ?_⟩
  · rw [h3]
    push_cast [Nat.cast_sub (Nat.mul_le_mul_left 2 h2)]
    ring
  · have : ((holeQuadCount L.ComponentResolutionY L.ComponentResolutionX Holes : Nat) : Int)
        ≤ ((L.ComponentResolutionY * L.ComponentResolutionX : Nat) : Int) := by
      exact_mod_cast h2
    push_cast at this
    linarith

/-- C4 (counterexample). On a 4x4 quad grid with hole vertex 5, two quads are incident to
vertex 5 and the list holds 28 triangles, not 4*4*2 - 6*2 = 20. -/
theorem GenerateTriangleArray_count_counterexample :
    grid2x2.ComponentResolutionY = 4 ∧ grid2x2.ComponentResolutionX = 4 ∧
    holeQuadCount 4 4 {5} = 2 ∧
    (GenerateTriangleArray grid2x2 (some {5})).length / 3 = 28 ∧
    (((GenerateTriangleArray grid2x2 (some {5})).length / 3 : Nat) : Int)
      ≠ 4 * 4 * 2 - 6 * (holeQuadCount 4 4 {5} : Int) := by
  decide

theorem infix_flatMap_of_mem {α β : Type} (l : List α) (f : α → List β) (a : α) (h : a ∈ l) :
    f a <:+: l.flatMap f := by
  induction l with
  | nil => cases h
  | cons b t ih =>
    rw [List.flatMap_cons]
    rcases List.mem_cons.mp h with rfl | h'
    · exact List.infix_append' [] (f a) (t.flatMap f)
    · exact (ih h').trans (List.suffix_append _ _).isInfix

/-- C5. Hole omission: for every resolution and every hole set, no entry of the list
returned by GenerateTriangleArray is a hole vertex, and every quad (x, y) of the tile
none of whose four corners is a hole contributes both of its triangles, i.e. the six
indices T1,T2,T3,T3,T2,T4 appear as one contiguous block of the list. -/
theorem GenerateTriangleArray_hole_omission (L : ARuntimeLandscape) (Holes : Finset Nat) :
    (∀ v ∈ GenerateTriangleArray L (some Holes), v ∉ Holes) ∧
    (∀ x y : Nat, x < L.ComponentResolutionX → y < L.ComponentResolutionY →
      (∀ v ∈ quadCorners L.ComponentResolutionX x y, v ∉ Holes) →
      [y * (L.ComponentResolutionX + 1) + x,
        y * (L.ComponentResolutionX + 1) + x + (L.ComponentResolutionX + 1),
        y * (L.ComponentResolutionX + 1) + x + 1,
        y * (L.ComponentResolutionX + 1) + x + 1,
        y * (L.ComponentResolutionX + 1) + x + (L.ComponentResolutionX + 1),
        y * (L.ComponentResolutionX + 1) + x + (L.ComponentResolutionX + 1) + 1]
        <:+: GenerateTriangleArray L (some Holes)) := by
  constructor
  · intro v hv
    unfold GenerateTriangleArray at hv
    simp only [List.mem_flatMap, List.mem_range] at hv
    obtain ⟨Y, -, X, -, hmem⟩ := hv
    split_ifs at hmem with hskip
    · cases hmem
    · simp only [quadIsSkipped, decide_eq_true_eq, not_or] at hskip
      obtain ⟨h1, h2, h3, h4⟩ := hskip
      simp only [List.mem_cons, List.mem_singleton, List.not_mem_nil, or_false] at hmem
      rcases hmem with rfl | rfl | rfl | rfl | rfl | rfl <;> assumption
  · intro x y hx hy hfree
    have hskip : quadIsSkipped (some Holes) (y * (L.ComponentResolutionX + 1) + x)
        (y * (L.ComponentResolutionX + 1) + x + L.ComponentResolutionX + 1)
        (y * (L.ComponentResolutionX + 1) + x + 1) = false := by
      rw [quadIsSkipped_some]
      unfold quadTouchesHole
      rw [List.any_eq_false]
      intro v hv
      simpa using hfree v hv
    unfold GenerateTriangleArray
    have hrow := infix_flatMap_of_mem (List.range L.ComponentResolutionY)
      (fun Y => (List.range L.ComponentResolutionX).flatMap (fun X =>
        if quadIsSkipped (some Holes) (Y * (L.ComponentResolutionX + 1) + X)
            (Y * (L.ComponentResolutionX + 1) + X + L.ComponentResolutionX + 1)
            (Y * (L.ComponentResolutionX + 1) + X + 1) then []
        else [Y * (L.ComponentResolutionX + 1) + X,
          Y * (L.ComponentResolutionX + 1) + X + L.ComponentResolutionX + 1,
          Y * (L.ComponentResolutionX + 1) + X + 1, Y * (L.ComponentResolutionX + 1) + X + 1,
          Y * (L.ComponentResolutionX + 1) + X + L.ComponentResolutionX + 1,
          Y * (L.ComponentResolutionX + 1) + X + L.ComponentResolutionX + 1 + 1]))
      y (List.mem_range.mpr hy)
    have hquad := infix_flatMap_of_mem (List.range L.ComponentResolutionX)
      (fun X =>
        if quadIsSkipped (some Holes) (y * (L.ComponentResolutionX + 1) + X)
            (y * (L.ComponentResolutionX + 1) + X + L.ComponentResolutionX + 1)
            (y * (L.ComponentResolutionX + 1) + X + 1) then []
        else [y * (L.ComponentResolutionX + 1) + X,
          y * (L.ComponentResolutionX + 1) + X + L.ComponentResolutionX + 1,
          y * (L.ComponentResolutionX + 1) + X + 1, y * (L.ComponentResolutionX + 1) + X + 1,
          y * (L.ComponentResolutionX + 1) + X + L.ComponentResolutionX + 1,
          y * (L.ComponentResolutionX + 1) + X + L.ComponentResolutionX + 1 + 1])
      x (List.mem_range.mpr hx)
    simp only [hskip, Bool.false_eq_true, if_false] at hquad
    simp only [← add_assoc]
    exact hquad.trans hrow

/-! ### Rebuild scheduler -/

theorem Initialize_fields (ctx : RebuildContext) (M : URuntimeLandscapeRebuildManager) :
    (Initialize ctx M).CurrentComponent = M.CurrentComponent ∧
    (Initialize ctx M).RebuildQueue = M.RebuildQueue ∧
    (Initialize ctx M).ActiveRunners = M.ActiveRunners ∧
    (Initialize ctx M).TickEnabled = M.TickEnabled ∧
    (Initialize ctx M).QueuedWork = M.QueuedWork ∧
    (Initialize ctx M).FinishedRebuilds = M.FinishedRebuilds := by
  unfold Initialize InitializeBuffer
  split_ifs <;> exact ⟨rfl, rfl, rfl, rfl, rfl, rfl⟩

theorem StartRebuild_fields (ctx : RebuildContext) (M : URuntimeLandscapeRebuildManager)
    (Tile : Nat) :
    (StartRebuild ctx M Tile).CurrentComponent = M.CurrentComponent ∧
    (StartRebuild ctx M Tile).RebuildQueue = M.RebuildQueue ∧
    (StartRebuild ctx M Tile).FinishedRebuilds = M.FinishedRebuilds := by
  obtain ⟨h1, h2, -, -, -, h6⟩ := Initialize_fields ctx M
  unfold StartRebuild
  simp only []
  split_ifs <;> exact ⟨h1, h2, h6⟩

theorem StartRebuild_valid (ctx : RebuildContext) (M : URuntimeLandscapeRebuildManager)
    (Tile : Nat)
    (h : ((ctx.InitialHeightValues Tile).length : Int)
      = GetTotalVertexAmountPerComponent ctx.Landscape) :
    (StartRebuild ctx M Tile).ActiveRunners = 1 ∧
    (StartRebuild ctx M Tile).QueuedWork = M.QueuedWork ++ [FQueuedWork.GenerateVertices] ∧
    (StartRebuild ctx M Tile).TickEnabled = true ∧
    (StartRebuild ctx M Tile).DataBuffer.HeightValues
      = ctx.ApplyDataFromLayers Tile (ctx.InitialHeightValues Tile) ∧
    (StartRebuild ctx M Tile).DataBuffer.RebuildState = .RLRS_BuildVertices := by
  obtain ⟨-, -, -, -, h5, -⟩ := Initialize_fields ctx M
  unfold StartRebuild
  simp only []
  rw [if_neg (not_not.mpr h)]
  exact ⟨rfl, by rw [← h5], rfl, rfl, rfl⟩

theorem AddUnique_nodup (Queue : List Nat) (Item : Nat) (h : Queue.Nodup) :
    (AddUnique Queue Item).Nodup := by
  unfold AddUnique
  split_ifs with hm
  · exact h
  · rw [List.nodup_append]
    refine ⟨h, List.nodup_singleton _, ?_⟩
    intro a ha hb
    rw [List.mem_singleton] at hb
    exact hm (hb ▸ ha)

theorem AddUnique_of_mem (Queue : List Nat) (Item : Nat) (h : Item ∈ Queue) :
    AddUnique Queue Item = Queue := by
  unfold AddUnique
  rw [if_pos h]

theorem AddUnique_of_not_mem (Queue : List Nat) (Item : Nat) (h : Item ∉ Queue) :
    AddUnique Queue Item = Queue ++ [Item] := by
  unfold AddUnique
  rw [if_neg h]

theorem QueueRebuild_busy (ctx : RebuildContext) (M : URuntimeLandscapeRebuildManager)
    (Tile B : Nat) (h : M.CurrentComponent = some B) :
    QueueRebuild ctx M Tile = { M with RebuildQueue := AddUnique M.RebuildQueue Tile } := by
  unfold QueueRebuild
  rw [h]
  rfl

theorem QueueRebuild_idle (ctx : RebuildContext) (M : URuntimeLandscapeRebuildManager)
    (Tile : Nat) (h : M.CurrentComponent = none) :
    QueueRebuild ctx M Tile
      = StartRebuild ctx { M with CurrentComponent := some Tile } Tile := by
  unfold QueueRebuild
  rw [h]
  rfl

theorem RebuildNextInQueue_queue (ctx : RebuildContext) (M : URuntimeLandscapeRebuildManager) :
    (RebuildNextInQueue ctx M).RebuildQueue = M.RebuildQueue.dropLast ∧
    (RebuildNextInQueue ctx M).CurrentComponent = M.RebuildQueue.getLast? ∧
    (RebuildNextInQueue ctx M).FinishedRebuilds = M.FinishedRebuilds := by
  unfold RebuildNextInQueue
  cases hq : M.RebuildQueue.getLast? with
  | none =>
    rw [List.getLast?_eq_none_iff] at hq
    simp [hq]
  | some Next =>
    obtain ⟨h1, h2, h3⟩ := StartRebuild_fields ctx
      { M with CurrentComponent := some Next, RebuildQueue := M.RebuildQueue.dropLast } Next
    exact ⟨h2, h1, h3⟩

theorem schedulerStep_queue_nodup (ctx : RebuildContext)
    (M M1 : URuntimeLandscapeRebuildManager) (e : SchedulerEvent)
    (hstep : schedulerStep ctx M e = some M1) (h : M.RebuildQueue.Nodup) :
    M1.RebuildQueue.Nodup := by
  cases e with
  | queueRebuild Tile =>
    simp only [schedulerStep, Option.some.injEq] at hstep
    subst hstep
    cases hc : M.CurrentComponent with
    | none =>
      rw [QueueRebuild_idle ctx M Tile hc, (StartRebuild_fields ctx _ Tile).2.1]
      exact h
    | some B =>
      rw [QueueRebuild_busy ctx M Tile B hc]
      exact AddUnique_nodup _ _ h
  | tick =>
    simp only [schedulerStep] at hstep
    split_ifs at hstep
    unfold TickComponent at hstep
    split_ifs at hstep
    · split at hstep
      · simp only [Option.some.injEq] at hstep
        subst hstep
        exact h
      · split at hstep
        · cases hstep
        · simp only [Option.some.injEq] at hstep
          subst hstep
          rw [(RebuildNextInQueue_queue ctx _).1]
          exact h.sublist (List.dropLast_sublist _)
      · cases hstep
    · simp only [Option.some.injEq] at hstep
      subst hstep
      exact h
  | runnerFinished Slot =>
    simp only [schedulerStep] at hstep
    split_ifs at hstep
    simp only [Option.some.injEq] at hstep
    subst hstep
    exact h
  | cancelRebuild =>
    simp only [schedulerStep, Option.some.injEq] at hstep
    subst hstep
    exact h

theorem Reachable_queue_nodup (ctx : RebuildContext) (M : URuntimeLandscapeRebuildManager)
    (h : Reachable ctx M) : M.RebuildQueue.Nodup := by
  induction h with
  | start => exact List.nodup_nil
  | step M M1 e _ hstep ih => exact schedulerStep_queue_nodup ctx M M1 e hstep ih

/-- C6. Request de-duplication: in every state reachable through QueueRebuild, ticks
(TickComponent / RebuildNextInQueue), worker completions and CancelRebuild the pending
queue holds each tile at most once. While a tile B is the current job, three calls of
QueueRebuild(A) on a queue not yet holding A leave exactly one entry for A; when B then
finishes (tick in phase BuildAdditionalData with the counter below 1, queue holding only
A), FinishRebuild runs on B, A becomes the current job and the queue is empty. On the
concrete run with B = 1 and A = 0, continued until the manager is idle, FinishRebuild ran
once on tile 1 and then once on tile 0. -/
theorem QueueRebuild_deduplication :
    (∀ (ctx : RebuildContext) (M : URuntimeLandscapeRebuildManager),
      Reachable ctx M → M.RebuildQueue.Nodup) ∧
    (∀ (ctx : RebuildContext) (M : URuntimeLandscapeRebuildManager) (A B : Nat),
      M.CurrentComponent = some B → A ∉ M.RebuildQueue →
      (QueueRebuild ctx (QueueRebuild ctx (QueueRebuild ctx M A) A) A).RebuildQueue
          = M.RebuildQueue ++ [A] ∧
      (QueueRebuild ctx (QueueRebuild ctx (QueueRebuild ctx M A) A) A).RebuildQueue.count A = 1 ∧
      (QueueRebuild ctx (QueueRebuild ctx (QueueRebuild ctx M A) A) A).CurrentComponent
          = some B) ∧
    (∀ (ctx : RebuildContext) (M : URuntimeLandscapeRebuildManager) (A B : Nat),
      M.CurrentComponent = some B → M.RebuildQueue = [] →
      M.DataBuffer.RebuildState = .RLRS_BuildAdditionalData → M.ActiveRunners < 1 →
      ∃ M1, TickComponent ctx (QueueRebuild ctx (QueueRebuild ctx (QueueRebuild ctx M A) A) A)
          = some M1 ∧
        M1.CurrentComponent = some A ∧ M1.RebuildQueue = [] ∧
        M1.FinishedRebuilds = M.FinishedRebuilds ++ [B]) ∧
    (schedulerRun soundContext newRebuildManager
        [.queueRebuild 1, .queueRebuild 0, .queueRebuild 0, .queueRebuild 0,
          .runnerFinished 0, .tick, .runnerFinished 0, .runnerFinished 0, .tick,
          .runnerFinished 0, .tick, .runnerFinished 0, .runnerFinished 0, .tick]).map
        (fun M => (M.CurrentComponent, M.RebuildQueue, M.FinishedRebuilds))
      = some (none, [], [1, 0]) := by
  have again : ∀ (ctx : RebuildContext) (M : URuntimeLandscapeRebuildManager) (A B : Nat),
      M.CurrentComponent = some B → A ∈ M.RebuildQueue → QueueRebuild ctx M A = M := by
    intro ctx M A B hB hA
    rw [QueueRebuild_busy ctx M A B hB, AddUnique_of_mem _ _ hA]
  have three : ∀ (ctx : RebuildContext) (M : URuntimeLandscapeRebuildManager) (A B : Nat),
      M.CurrentComponent = some B → A ∉ M.RebuildQueue →
      QueueRebuild ctx (QueueRebuild ctx (QueueRebuild ctx M A) A) A
        = { M with RebuildQueue := M.RebuildQueue ++ [A] } := by
    intro ctx M A B hB hA
    rw [QueueRebuild_busy ctx M A B hB, AddUnique_of_not_mem _ _ hA,
      again ctx { M with RebuildQueue := M.RebuildQueue ++ [A] } A B hB (by simp),
      again ctx { M with RebuildQueue := M.RebuildQueue ++ [A] } A B hB (by simp)]
  refine ⟨Reachable_queue_nodup, ?_, ?_, by decide⟩
  · intro ctx M A B hB hA
    rw [three ctx M A B hB hA]
    refine ⟨rfl, ?_, hB⟩
    simp only [List.count_append, List.count_eq_zero_of_not_mem hA, List.count_singleton_self]
  · intro ctx M A B hB hq hstate hcount
    rw [three ctx M A B hB (by rw [hq]; exact List.not_mem_nil A)]
    unfold TickComponent
    simp only [hq, List.nil_append, hstate, hB, if_pos hcount]
    refine ⟨_, rfl, ?_⟩
    obtain ⟨h1, h2, h3⟩ := RebuildNextInQueue_queue ctx
      { M with RebuildQueue := [A], FinishedRebuilds := M.FinishedRebuilds ++ [B] }
    exact ⟨h2, h1, h3⟩

/-! ### Phase 2: one worker per vertex row -/

theorem AdditionalDataWork_fold (C n : Nat) :
    (List.range n).foldl
      (fun (acc : List FQueuedWork × Nat) Y =>
        (acc.1 ++ [FQueuedWork.GenerateAdditionalVertexData Y acc.2], acc.2 + (C + 1)))
      ([], 0)
    = ((List.range n).map (fun Y => FQueuedWork.GenerateAdditionalVertexData Y (Y * (C + 1))),
        n * (C + 1)) := by
  induction n with
  | zero => simp
  | succ n ih =>
    rw [List.range_succ, List.foldl_append, ih, List.map_append]
    simp only [List.foldl_cons, List.foldl_nil, List.map_cons, List.map_nil, Prod.mk.injEq,
      true_and]
    ring

theorem AdditionalDataWork_eq (L : ARuntimeLandscape) :
    AdditionalDataWork L
      = (List.range (L.ComponentResolutionY + 1)).map
          (fun Y => FQueuedWork.GenerateAdditionalVertexData Y (Y * (L.ComponentResolutionX + 1))) := by
  unfold AdditionalDataWork
  rw [AdditionalDataWork_fold]

theorem DoThreadedWorkVertices_fold (s n : Nat) :
    (List.range n).foldl
      (fun (acc : List Nat × Nat) (_X : Nat) => (acc.1 ++ [acc.2], acc.2 + 1)) ([], s)
    = ((List.range n).map (fun X => s + X), s + n) := by
  induction n with
  | zero => simp
  | succ n ih =>
    rw [List.range_succ, List.foldl_append, ih, List.map_append]
    simp only [List.foldl_cons, List.foldl_nil, List.map_cons, List.map_nil, Prod.mk.injEq,
      true_and]
    ring

theorem DoThreadedWorkVertices_eq (L : ARuntimeLandscape) (StartIndex : Nat) :
    DoThreadedWorkVertices L StartIndex
      = (List.range (L.ComponentResolutionX + 1)).map (fun X => StartIndex + X) := by
  unfold DoThreadedWorkVertices
  rw [DoThreadedWorkVertices_fold]

theorem mem_DoThreadedWorkVertices (L : ARuntimeLandscape) (StartIndex v : Nat) :
    v ∈ DoThreadedWorkVertices L StartIndex ↔
      ∃ X, X ≤ L.ComponentResolutionX ∧ v = StartIndex + X := by
  rw [DoThreadedWorkVertices_eq]
  simp only [List.mem_map, List.mem_range]
  constructor
  · rintro ⟨X, hX, rfl⟩
    exact ⟨X, by omega, rfl⟩
  · rintro ⟨X, hX, rfl⟩
    exact ⟨X, by omega, rfl⟩

theorem AdditionalDataWork_length (L : ARuntimeLandscape) :
    (AdditionalDataWork L).length = L.ComponentResolutionY + 1 := by
  rw [AdditionalDataWork_eq, List.length_map, List.length_range]

/-- C8. Phase-2 row partition: StartGenerateAdditionalData hands exactly ResY + 1 work
items to the pool and sets the active-worker counter to ResY + 1; the item of worker Y
(0 <= Y <= ResY) carries StartIndex = Y * (ResX + 1), and that worker visits exactly the
vertex indices Y * (ResX + 1) + X for 0 <= X <= ResX; the index sets of two different
workers are disjoint and together they are exactly [0, (ResX + 1) * (ResY + 1)). -/
theorem StartGenerateAdditionalData_row_partition (ctx : RebuildContext)
    (M : URuntimeLandscapeRebuildManager) :
    ((StartGenerateAdditionalData ctx M).QueuedWork
        = M.QueuedWork ++ AdditionalDataWork ctx.Landscape ∧
      (AdditionalDataWork ctx.Landscape).length = ctx.Landscape.ComponentResolutionY + 1 ∧
      (StartGenerateAdditionalData ctx M).ActiveRunners
        = ((AdditionalDataWork ctx.Landscape).length : Int) ∧
      (StartGenerateAdditionalData ctx M).ActiveRunners
        = (ctx.Landscape.ComponentResolutionY : Int) + 1) ∧
    (∀ Y, Y ≤ ctx.Landscape.ComponentResolutionY →
      (AdditionalDataWork ctx.Landscape)[Y]?
        = some (FQueuedWork.GenerateAdditionalVertexData Y
            (Y * (ctx.Landscape.ComponentResolutionX + 1)))) ∧
    (∀ Y v, v ∈ DoThreadedWorkVertices ctx.Landscape (Y * (ctx.Landscape.ComponentResolutionX + 1))
      ↔ ∃ X, X ≤ ctx.Landscape.ComponentResolutionX ∧
          v = Y * (ctx.Landscape.ComponentResolutionX + 1) + X) ∧
    (∀ Y Y1, Y ≤ ctx.Landscape.ComponentResolutionY → Y1 ≤ ctx.Landscape.ComponentResolutionY →
      Y ≠ Y1 →
      List.Disjoint
        (DoThreadedWorkVertices ctx.Landscape (Y * (ctx.Landscape.ComponentResolutionX + 1)))
        (DoThreadedWorkVertices ctx.Landscape (Y1 * (ctx.Landscape.ComponentResolutionX + 1)))) ∧
    (∀ v, (∃ Y, Y ≤ ctx.Landscape.ComponentResolutionY ∧
        v ∈ DoThreadedWorkVertices ctx.Landscape (Y * (ctx.Landscape.ComponentResolutionX + 1)))
      ↔ v < (ctx.Landscape.ComponentResolutionX + 1) * (ctx.Landscape.ComponentResolutionY + 1)) := by
  have hlen := AdditionalDataWork_length ctx.Landscape
  refine ⟨⟨rfl, hlen, ?_, rfl⟩, ?_, ?_, ?_, ?_⟩
  · rw [hlen]
    simp [StartGenerateAdditionalData]
  · intro Y hY
    rw [AdditionalDataWork_eq, List.getElem?_map, List.getElem?_range (by omega)]
    rfl
  · intro Y v
    exact mem_DoThreadedWorkVertices _ _ _
  · intro Y Y1 _ _ hne v hv hv1
    rw [mem_DoThreadedWorkVertices] at hv hv1
    obtain ⟨X, hX, rfl⟩ := hv
    obtain ⟨X1, hX1, h⟩ := hv1
    rcases Nat.lt_or_gt_of_ne hne with hlt | hgt
    · have : (Y + 1) * (ctx.Landscape.ComponentResolutionX + 1)
          ≤ Y1 * (ctx.Landscape.ComponentResolutionX + 1) := Nat.mul_le_mul_right _ hlt
      have e : (Y + 1) * (ctx.Landscape.ComponentResolutionX + 1)
          = Y * (ctx.Landscape.ComponentResolutionX + 1) + (ctx.Landscape.ComponentResolutionX + 1) := by
        ring
      omega
    · have : (Y1 + 1) * (ctx.Landscape.ComponentResolutionX + 1)
          ≤ Y * (ctx.Landscape.ComponentResolutionX + 1) := Nat.mul_le_mul_right _ hgt
      have e : (Y1 + 1) * (ctx.Landscape.ComponentResolutionX + 1)
          = Y1 * (ctx.Landscape.ComponentResolutionX + 1) + (ctx.Landscape.ComponentResolutionX + 1) := by
        ring
      omega
  · intro v
    constructor
    · rintro ⟨Y, hY, hv⟩
      rw [mem_DoThreadedWorkVertices] at hv
      obtain ⟨X, hX, rfl⟩ := hv
      have h1 : (Y + 1) * (ctx.Landscape.ComponentResolutionX + 1)
          ≤ (ctx.Landscape.ComponentResolutionY + 1) * (ctx.Landscape.ComponentResolutionX + 1) :=
        Nat.mul_le_mul_right _ (by omega)
      have e : (Y + 1) * (ctx.Landscape.ComponentResolutionX + 1)
          = Y * (ctx.Landscape.ComponentResolutionX + 1) + (ctx.Landscape.ComponentResolutionX + 1) := by
        ring
      have c := Nat.mul_comm (ctx.Landscape.ComponentResolutionX + 1)
        (ctx.Landscape.ComponentResolutionY + 1)
      omega
    · intro hv
      refine ⟨v / (ctx.Landscape.ComponentResolutionX + 1), ?_, ?_⟩
      · have := Nat.div_lt_of_lt_mul hv
        omega
      · rw [mem_DoThreadedWorkVertices]
        refine ⟨v % (ctx.Landscape.ComponentResolutionX + 1), ?_, ?_⟩
        · have : v % (ctx.Landscape.ComponentResolutionX + 1)
              < ctx.Landscape.ComponentResolutionX + 1 := Nat.mod_lt v (by omega)
          omega
        · have := Nat.div_add_mod v (ctx.Landscape.ComponentResolutionX + 1)
          have c := Nat.mul_comm (ctx.Landscape.ComponentResolutionX + 1)
            (v / (ctx.Landscape.ComponentResolutionX + 1))
          omega

/-! ### The barrier between the two phases -/

theorem TickComponent_blocked (ctx : RebuildContext) (M : URuntimeLandscapeRebuildManager)
    (h : 1 ≤ M.ActiveRunners) : TickComponent ctx M = some M := by
  unfold TickComponent
  rw [if_neg (by omega)]

/-- C9 (amended). From every scheduler state, CancelRebuild resets the active-worker
counter to zero, clears the current tile, disables ticking and does not invoke
FinishRebuild; the pending queue, the buffer and the work already handed to the pool are
left as they are. A following QueueRebuild makes its tile the current one at once and
leaves the old queue entries pending; when the tile's height data is valid its job starts
(state BuildVertices, counter 1, vertex worker queued, ticking enabled). -/
theorem CancelRebuild_effect (ctx : RebuildContext) (M : URuntimeLandscapeRebuildManager) :
    (CancelRebuild M).ActiveRunners = 0 ∧
    (CancelRebuild M).CurrentComponent = none ∧
    (CancelRebuild M).TickEnabled = false ∧
    (CancelRebuild M).FinishedRebuilds = M.FinishedRebuilds ∧
    (CancelRebuild M).RebuildQueue = M.RebuildQueue ∧
    (CancelRebuild M).DataBuffer = M.DataBuffer ∧
    (CancelRebuild M).QueuedWork = M.QueuedWork ∧
    (∀ Tile : Nat,
      (QueueRebuild ctx (CancelRebuild M) Tile).CurrentComponent = some Tile ∧
      (QueueRebuild ctx (CancelRebuild M) Tile).RebuildQueue = M.RebuildQueue ∧
      (QueueRebuild ctx (CancelRebuild M) Tile).FinishedRebuilds = M.FinishedRebuilds ∧
      (((ctx.InitialHeightValues Tile).length : Int)
          = GetTotalVertexAmountPerComponent ctx.Landscape →
        (QueueRebuild ctx (CancelRebuild M) Tile).DataBuffer.RebuildState = .RLRS_BuildVertices ∧
        (QueueRebuild ctx (CancelRebuild M) Tile).ActiveRunners = 1 ∧
        (QueueRebuild ctx (CancelRebuild M) Tile).QueuedWork
          = M.QueuedWork ++ [FQueuedWork.GenerateVertices] ∧
        (QueueRebuild ctx (CancelRebuild M) Tile).TickEnabled = true)) := by
  refine ⟨rfl, rfl, rfl, rfl, rfl, rfl, rfl, ?_⟩
  intro Tile
  rw [QueueRebuild_idle ctx (CancelRebuild M) Tile rfl]
  obtain ⟨h1, h2, h3⟩ :=
    StartRebuild_fields ctx { CancelRebuild M with CurrentComponent := some Tile } Tile
  refine ⟨h1, h2, h3, ?_⟩
  intro hvalid
  obtain ⟨v1, v2, v3, -, v5⟩ :=
    StartRebuild_valid ctx { CancelRebuild M with CurrentComponent := some Tile } Tile hvalid
  exact ⟨v5, v1, v2, v3⟩

/-- C9 (counterexample). Tile 0 is being rebuilt and tile 1 is pending when the rebuild
is cancelled: the queue still holds tile 1 afterwards. Tile 2 is then queued and runs to
its finish; the next thing the manager does is start the rebuild of tile 1, which had
been queued before the cancellation. -/
theorem CancelRebuild_keeps_queue_counterexample :
    (schedulerRun soundContext newRebuildManager
        [.queueRebuild 0, .queueRebuild 1, .runnerFinished 0, .cancelRebuild]).map
        (fun M => (M.CurrentComponent, M.RebuildQueue, M.ActiveRunners))
      = some (none, [1], 0) ∧
    (schedulerRun soundContext newRebuildManager
        [.queueRebuild 0, .queueRebuild 1, .runnerFinished 0, .cancelRebuild,
          .queueRebuild 2, .runnerFinished 0, .tick, .runnerFinished 0, .runnerFinished 0,
          .tick]).map
        (fun M => (M.CurrentComponent, M.RebuildQueue, M.FinishedRebuilds,
          M.DataBuffer.RebuildState, M.ActiveRunners))
      = some (some 1, [], [2], .RLRS_BuildVertices, 1) := by
  constructor <;> decide

/-! ### Height data of the wrong size -/

/-- C10 (evaluation at the failing input). Tile 1 stores three height samples where four
are required; it is queued while tile 0 is being rebuilt. When tile 0 finishes, tile 1 is
popped and StartRebuild returns early: no worker is queued and the buffer keeps the
heights of tile 0, but the buffer state stays BuildAdditionalData with the counter at
zero and ticking enabled. The next tick therefore invokes FinishRebuild on tile 1 with
the buffer of tile 0. -/
theorem StartRebuild_mismatch_then_finish :
    (mismatchContext.InitialHeightValues 1).length = 3 ∧
    GetTotalVertexAmountPerComponent mismatchContext.Landscape = 4 ∧
    (schedulerRun mismatchContext newRebuildManager
        [.queueRebuild 0, .queueRebuild 1, .runnerFinished 0, .tick, .runnerFinished 0,
          .runnerFinished 0, .tick]).map
        (fun M => (M.CurrentComponent, M.FinishedRebuilds, M.QueuedWork))
      = some (some 1, [0], []) ∧
    (schedulerRun mismatchContext newRebuildManager
        [.queueRebuild 0, .queueRebuild 1, .runnerFinished 0, .tick, .runnerFinished 0,
          .runnerFinished 0, .tick]).map
        (fun M => (M.DataBuffer.RebuildState, M.ActiveRunners, M.TickEnabled))
      = some (.RLRS_BuildAdditionalData, 0, true) ∧
    (schedulerRun mismatchContext newRebuildManager
        [.queueRebuild 0, .queueRebuild 1, .runnerFinished 0, .tick, .runnerFinished 0,
          .runnerFinished 0, .tick, .tick]).map
        (fun M => (M.CurrentComponent, M.FinishedRebuilds, M.DataBuffer.HeightValues.length))
      = some (none, [0, 1], 4) := by
  refine ⟨by decide, by decide, by decide, by decide, by decide⟩

/-! ### Detaching a layer -/

/-- C11 (amended). For every tile and every layer not in the tile's assigned-layer set,
RemoveLandscapeLayer(layer) leaves the tile (its layer set included) unchanged, but it
still requests a rebuild: the manager afterwards is the one QueueRebuild(tile) yields. So
with no current job the tile becomes the current tile; with a job running the current
tile stays and the tile is appended to the pending queue unless it is queued already, in
which case the manager is unchanged. -/
theorem RemoveLandscapeLayer_unattached (ctx : RebuildContext)
    (Tile : URuntimeLandscapeComponent) (M : URuntimeLandscapeRebuildManager) (Layer : Nat)
    (h : Layer ∉ Tile.AffectingLayers) :
    (Tile.RemoveLandscapeLayer ctx M Layer).1 = Tile ∧
    (Tile.RemoveLandscapeLayer ctx M Layer).2 = QueueRebuild ctx M Tile.Index ∧
    (M.CurrentComponent = none →
      (Tile.RemoveLandscapeLayer ctx M Layer).2.CurrentComponent = some Tile.Index ∧
      (Tile.RemoveLandscapeLayer ctx M Layer).2.RebuildQueue = M.RebuildQueue) ∧
    (∀ B, M.CurrentComponent = some B → Tile.Index ∉ M.RebuildQueue →
      (Tile.RemoveLandscapeLayer ctx M Layer).2
        = { M with RebuildQueue := M.RebuildQueue ++ [Tile.Index] }) ∧
    (∀ B, M.CurrentComponent = some B → Tile.Index ∈ M.RebuildQueue →
      (Tile.RemoveLandscapeLayer ctx M Layer).2 = M) := by
  have h1 : (Tile.RemoveLandscapeLayer ctx M Layer).1 = Tile := by
    simp only [URuntimeLandscapeComponent.RemoveLandscapeLayer, Finset.erase_eq_of_not_mem h]
  have h2 : (Tile.RemoveLandscapeLayer ctx M Layer).2 = QueueRebuild ctx M Tile.Index := rfl
  refine ⟨h1, h2, ?_, ?_, ?_⟩
  · intro hc
    rw [h2, QueueRebuild_idle ctx M Tile.Index hc]
    obtain ⟨a, b, -⟩ := StartRebuild_fields ctx { M with CurrentComponent := some Tile.Index }
      Tile.Index
    exact ⟨a, b⟩
  · intro B hB hq
    rw [h2, QueueRebuild_busy ctx M Tile.Index B hB, AddUnique_of_not_mem _ _ hq]
  · intro B hB hq
    rw [h2, QueueRebuild_busy ctx M Tile.Index B hB, AddUnique_of_mem _ _ hq]

/-- Witness for C11 (amended): layer 7 is not attached to the bare tile 0. -/
theorem RemoveLandscapeLayer_unattached_witness :
    (bareTile.RemoveLandscapeLayer soundContext newRebuildManager 7).1 = bareTile ∧
    (bareTile.RemoveLandscapeLayer soundContext newRebuildManager 7).2
      = QueueRebuild soundContext newRebuildManager bareTile.Index :=
  ⟨(RemoveLandscapeLayer_unattached soundContext bareTile newRebuildManager 7 (by decide)).1,
    (RemoveLandscapeLayer_unattached soundContext bareTile newRebuildManager 7 (by decide)).2.1⟩

/-- C11 (counterexample). Layer 7 is not attached to tile 0 and the manager is idle with an
empty queue. After RemoveLandscapeLayer(7) the tile is unchanged, but the manager has
tile 0 as its current tile, counter 1 and a vertex worker queued: a rebuild was
requested. With tile 1 being rebuilt instead, the same call appends tile 0 to the
pending queue. -/
theorem RemoveLandscapeLayer_requests_rebuild_counterexample :
    (7 ∉ bareTile.AffectingLayers) ∧
    newRebuildManager.CurrentComponent = none ∧
    (bareTile.RemoveLandscapeLayer soundContext newRebuildManager 7).1 = bareTile ∧
    (bareTile.RemoveLandscapeLayer soundContext newRebuildManager 7).2.CurrentComponent
      = some 0 ∧
    (bareTile.RemoveLandscapeLayer soundContext newRebuildManager 7).2.ActiveRunners = 1 ∧
    (bareTile.RemoveLandscapeLayer soundContext newRebuildManager 7).2.QueuedWork
      = [FQueuedWork.GenerateVertices] ∧
    (QueueRebuild soundContext newRebuildManager 1).RebuildQueue = [] ∧
    (bareTile.RemoveLandscapeLayer soundContext
        (QueueRebuild soundContext newRebuildManager 1) 7).2.RebuildQueue = [0] := by
  refine ⟨by decide, rfl, by decide, by decide, by decide, by decide, by decide, by decide⟩

/-! ### The cached triangle list -/

theorem GenerateTriangleArray_none_eq_empty (L : ARuntimeLandscape) :
    GenerateTriangleArray L none = GenerateTriangleArray L (some ∅) := by
  unfold GenerateTriangleArray
  simp [quadIsSkipped]

theorem Initialize_triangles (ctx : RebuildContext) (M : URuntimeLandscapeRebuildManager)
    (h : M.RunnersCreated = true →
      M.DataBuffer.Triangles = GenerateTriangleArray ctx.Landscape none) :
    (Initialize ctx M).RunnersCreated = true ∧
    (Initialize ctx M).DataBuffer.Triangles = GenerateTriangleArray ctx.Landscape none := by
  unfold Initialize InitializeBuffer
  split_ifs with hc
  · exact ⟨hc, h hc⟩
  · exact ⟨rfl, rfl⟩

theorem StartRebuild_triangles (ctx : RebuildContext) (M : URuntimeLandscapeRebuildManager)
    (Tile : Nat)
    (h : M.RunnersCreated = true →
      M.DataBuffer.Triangles = GenerateTriangleArray ctx.Landscape none) :
    (StartRebuild ctx M Tile).RunnersCreated = true ∧
    (StartRebuild ctx M Tile).DataBuffer.Triangles = GenerateTriangleArray ctx.Landscape none := by
  obtain ⟨h1, h2⟩ := Initialize_triangles ctx M h
  unfold StartRebuild
  simp only []
  split_ifs <;> exact ⟨h1, h2⟩

/-- In every reachable state the runners exist unless the buffer is still in state
RLRS_None, and once they exist the buffer holds the default triangle list. -/
theorem Reachable_triangles (ctx : RebuildContext) (M : URuntimeLandscapeRebuildManager)
    (h : Reachable ctx M) :
    (M.RunnersCreated = true ∨ M.DataBuffer.RebuildState = .RLRS_None) ∧
    (M.RunnersCreated = true →
      M.DataBuffer.Triangles = GenerateTriangleArray ctx.Landscape none) := by
  induction h with
  | start => exact ⟨Or.inr rfl, fun h => by cases h⟩
  | step M M1 e _ hstep ih =>
    obtain ⟨ih1, ih2⟩ := ih
    cases e with
    | queueRebuild Tile =>
      simp only [schedulerStep, Option.some.injEq] at hstep
      subst hstep
      cases hc : M.CurrentComponent with
      | none =>
        rw [QueueRebuild_idle ctx M Tile hc]
        obtain ⟨a, b⟩ := StartRebuild_triangles ctx { M with CurrentComponent := some Tile }
          Tile ih2
        exact ⟨Or.inl a, fun _ => b⟩
      | some B =>
        rw [QueueRebuild_busy ctx M Tile B hc]
        exact ⟨ih1, ih2⟩
    | tick =>
      simp only [schedulerStep] at hstep
      split_ifs at hstep
      by_cases hcnt : M.ActiveRunners < 1
      · unfold TickComponent at hstep
        rw [if_pos hcnt] at hstep
        cases hs : M.DataBuffer.RebuildState with
        | RLRS_None => rw [hs] at hstep; cases hstep
        | RLRS_BuildVertices =>
          rw [hs] at hstep
          simp only [Option.some.injEq] at hstep
          subst hstep
          have hcr : M.RunnersCreated = true := by
            rcases ih1 with h | h
            · exact h
            · rw [hs] at h; cases h
          exact ⟨Or.inl hcr, fun _ => ih2 hcr⟩
        | RLRS_BuildAdditionalData =>
          rw [hs] at hstep
          cases hcur : M.CurrentComponent with
          | none => rw [hcur] at hstep; cases hstep
          | some Tile =>
            rw [hcur] at hstep
            simp only [Option.some.injEq] at hstep
            subst hstep
            have hcr : M.RunnersCreated = true := by
              rcases ih1 with h | h
              · exact h
              · rw [hs] at h; cases h
            unfold RebuildNextInQueue
            cases hlast : M.RebuildQueue.getLast? with
            | none =>
              simp only [hlast]
              exact ⟨Or.inl hcr, fun _ => ih2 hcr⟩
            | some Next =>
              simp only [hlast]
              obtain ⟨a, b⟩ := StartRebuild_triangles ctx
                { M with
                  FinishedRebuilds := M.FinishedRebuilds ++ [Tile]
                  CurrentComponent := some Next
                  RebuildQueue := M.RebuildQueue.dropLast } Next ih2
              exact ⟨Or.inl a, fun _ => b⟩
      · rw [TickComponent_blocked ctx M (by omega)] at hstep
        simp only [Option.some.injEq] at hstep
        subst hstep
        exact ⟨ih1, ih2⟩
    | runnerFinished Slot =>
      simp only [schedulerStep] at hstep
      split_ifs at hstep
      simp only [Option.some.injEq] at hstep
      subst hstep
      exact ⟨ih1, ih2⟩
    | cancelRebuild =>
      simp only [schedulerStep, Option.some.injEq] at hstep
      subst hstep
      exact ⟨ih1, ih2⟩

/-- C12. Zero-hole fast path: for every resolution GenerateTriangleArray(nullptr) equals
GenerateTriangleArray(empty hole set). In every reachable scheduler state whose buffer
has left RLRS_None (so in every state in which a tick can invoke FinishRebuild) the
buffer holds that default list, and the triangle list FinishRebuild hands to the mesh
equals GenerateTriangleArray(VerticesInHole) for every tile, on the cached branch and on
the recomputing branch alike. -/
theorem FinishRebuild_triangles_eq :
    (∀ L : ARuntimeLandscape, GenerateTriangleArray L none = GenerateTriangleArray L (some ∅)) ∧
    (∀ (L : ARuntimeLandscape) (Tile : URuntimeLandscapeComponent)
        (RebuildBuffer : FRuntimeLandscapeRebuildBuffer),
      RebuildBuffer.Triangles = GenerateTriangleArray L none →
      FinishRebuildTriangles L Tile RebuildBuffer
        = GenerateTriangleArray L (some Tile.VerticesInHole)) ∧
    (∀ (ctx : RebuildContext) (M : URuntimeLandscapeRebuildManager),
      Reachable ctx M → M.DataBuffer.RebuildState ≠ .RLRS_None →
      M.DataBuffer.Triangles = GenerateTriangleArray ctx.Landscape none ∧
      ∀ Tile : URuntimeLandscapeComponent,
        FinishRebuildTriangles ctx.Landscape Tile M.DataBuffer
          = GenerateTriangleArray ctx.Landscape (some Tile.VerticesInHole)) := by
  have key : ∀ (L : ARuntimeLandscape) (Tile : URuntimeLandscapeComponent)
      (RebuildBuffer : FRuntimeLandscapeRebuildBuffer),
      RebuildBuffer.Triangles = GenerateTriangleArray L none →
      FinishRebuildTriangles L Tile RebuildBuffer
        = GenerateTriangleArray L (some Tile.VerticesInHole) := by
    intro L Tile RebuildBuffer hb
    unfold FinishRebuildTriangles
    split_ifs with he
    · rw [hb, he, GenerateTriangleArray_none_eq_empty]
    · rfl
  refine ⟨GenerateTriangleArray_none_eq_empty, key, ?_⟩
  intro ctx M hM hs
  obtain ⟨h1, h2⟩ := Reachable_triangles ctx M hM
  have hcr : M.RunnersCreated = true := by
    rcases h1 with h | h
    · exact h
    · exact absurd h hs
  exact ⟨h2 hcr, fun Tile => key ctx.Landscape Tile M.DataBuffer (h2 hcr)⟩

/-! ### Area query: rejection -/

/-- C13. For every query box that lies entirely outside the landscape's world bounds on
at least one axis (Max < origin or Min > origin + LandscapeSize, on X or on Y),
GetComponentsInArea returns the empty list. -/
theorem GetComponentsInArea_outside (L : ARuntimeLandscape) (Area : FBox2D)
    (h : Area.Max.X < L.StartLocation.X ∨ Area.Min.X > L.StartLocation.X + L.LandscapeSize.X ∨
      Area.Max.Y < L.StartLocation.Y ∨ Area.Min.Y > L.StartLocation.Y + L.LandscapeSize.Y) :
    GetComponentsInArea L Area = some [] := by
  unfold GetComponentsInArea
  simp only []
  rw [if_pos]
  rcases h with h | h | h | h
  · exact Or.inr (Or.inr (Or.inl h))
  · exact Or.inl h
  · exact Or.inr (Or.inr (Or.inr h))
  · exact Or.inr (Or.inl h)

/-- Witness for C13: on the 2x2 grid of side-100 tiles the box [250,300] x [0,50] lies to
the right of the landscape. -/
theorem GetComponentsInArea_outside_witness :
    GetComponentsInArea grid2x2 { Min := { X := 250, Y := 0 }, Max := { X := 300, Y := 50 } }
      = some [] :=
  GetComponentsInArea_outside grid2x2
    { Min := { X := 250, Y := 0 }, Max := { X := 300, Y := 50 } }
    (Or.inr (Or.inl (by norm_num [grid2x2])))

/-! ### Smoothing offsets -/

theorem UpdateShape_offsets_eq (T : FVector2D → FVector2D) (C0 : ULandscapeLayerComponent)
    (o : FVector2D) (hO : C0.Origin = some o) :
    (UpdateShape T C0).Radius = C0.Radius ∧
    (UpdateShape T C0).BoundsSmoothingOffset
      = (match C0.SmoothingDirection with
          | .SD_Inwards => 0
          | .SD_Outwards => C0.SmoothingDistance
          | .SD_Center => C0.SmoothingDistance * (1 / 2)) ∧
    (UpdateShape T C0).InnerSmoothingOffset
      = (match C0.SmoothingDirection with
          | .SD_Inwards => Clamp C0.SmoothingDistance 0 (halfExtent C0 - 1 / 1000)
          | .SD_Outwards => 0
          | .SD_Center => Clamp (C0.SmoothingDistance * (1 / 2)) 0 (halfExtent C0 - 1 / 1000)) := by
  unfold UpdateShape halfExtent
  rw [hO]
  cases hdir : C0.SmoothingDirection <;> by_cases hs : C0.Shape = .HS_Round <;>
    simp [hs]

theorem Clamp_zero_eq_min (x hi : ℚ) (hx : 0 ≤ x) (hhi : 0 ≤ hi) : Clamp x 0 hi = min x hi :=
  max_eq_left (le_min hx hhi)

/-- C14. Smoothing-direction split: after UpdateShape with smoothing distance D >= 0 and
half-extent h >= 0.001 (h = Radius for a round layer, min(Extent.X, Extent.Y)
otherwise): Inwards gives outer offset 0 and inner offset min(D, h - 0.001); Outwards
gives inner offset 0 and outer offset D; Center gives outer offset D/2 and inner offset
min(D/2, h - 0.001). Hence inner + outer <= D, with equality whenever the clamp does not
bind, and the inner offset never exceeds h - 0.001. -/
theorem UpdateShape_direction_split (T : FVector2D → FVector2D) (C0 : ULandscapeLayerComponent)
    (o : FVector2D) (hO : C0.Origin = some o) (hD : 0 ≤ C0.SmoothingDistance)
    (hh : 1 / 1000 ≤ halfExtent C0) :
    (C0.SmoothingDirection = .SD_Inwards →
      (UpdateShape T C0).BoundsSmoothingOffset = 0 ∧
      (UpdateShape T C0).InnerSmoothingOffset
        = min C0.SmoothingDistance (halfExtent C0 - 1 / 1000)) ∧
    (C0.SmoothingDirection = .SD_Outwards →
      (UpdateShape T C0).InnerSmoothingOffset = 0 ∧
      (UpdateShape T C0).BoundsSmoothingOffset = C0.SmoothingDistance) ∧
    (C0.SmoothingDirection = .SD_Center →
      (UpdateShape T C0).BoundsSmoothingOffset = C0.SmoothingDistance / 2 ∧
      (UpdateShape T C0).InnerSmoothingOffset
        = min (C0.SmoothingDistance / 2) (halfExtent C0 - 1 / 1000)) ∧
    (UpdateShape T C0).InnerSmoothingOffset + (UpdateShape T C0).BoundsSmoothingOffset
      ≤ C0.SmoothingDistance ∧
    ((C0.SmoothingDirection = .SD_Outwards ∨
        (C0.SmoothingDirection = .SD_Inwards ∧ C0.SmoothingDistance ≤ halfExtent C0 - 1 / 1000) ∨
        (C0.SmoothingDirection = .SD_Center ∧
          C0.SmoothingDistance / 2 ≤ halfExtent C0 - 1 / 1000)) →
      (UpdateShape T C0).InnerSmoothingOffset + (UpdateShape T C0).BoundsSmoothingOffset
        = C0.SmoothingDistance) ∧
    (UpdateShape T C0).InnerSmoothingOffset ≤ halfExtent C0 - 1 / 1000 := by
  obtain ⟨-, hB, hI⟩ := UpdateShape_offsets_eq T C0 o hO
  have hhi : 0 ≤ halfExtent C0 - 1 / 1000 := by linarith
  have hD2 : 0 ≤ C0.SmoothingDistance * (1 / 2) := by linarith
  have e2 : C0.SmoothingDistance * (1 / 2) = C0.SmoothingDistance / 2 := by ring
  cases hdir : C0.SmoothingDirection
  · rw [hdir] at hB hI
    simp only [] at hB hI
    rw [Clamp_zero_eq_min _ _ hD hhi] at hI
    rw [hB, hI]
    refine ⟨fun _ => ⟨rfl, rfl⟩, (fun h => by cases h), (fun h => by cases h), ?_, ?_, ?_⟩
    · have := min_le_left C0.SmoothingDistance (halfExtent C0 - 1 / 1000)
      linarith
    · rintro (h | ⟨-, h⟩ | ⟨h, -⟩)
      · cases h
      · rw [min_eq_left h]; ring
      · cases h
    · exact min_le_right _ _
  · rw [hdir] at hB hI
    simp only [] at hB hI
    rw [hB, hI]
    refine ⟨(fun h => by cases h), fun _ => ⟨rfl, rfl⟩, (fun h => by cases h), ?_, ?_, hhi⟩
    · linarith
    · intro _; ring
  · rw [hdir] at hB hI
    simp only [] at hB hI
    rw [Clamp_zero_eq_min _ _ hD2 hhi, e2] at hI
    rw [e2] at hB
    rw [hB, hI]
    refine ⟨(fun h => by cases h), (fun h => by cases h), fun _ => ⟨rfl, rfl⟩, ?_, ?_, ?_⟩
    · have := min_le_left (C0.SmoothingDistance / 2) (halfExtent C0 - 1 / 1000)
      linarith
    · rintro (h | ⟨h, -⟩ | ⟨-, h⟩)
      · cases h
      · cases h
      · rw [min_eq_left h]; ring
    · exact min_le_right _ _

/-- Witness for C14: the round layer of scenario 2 (radius 100, distance 50, Center). -/
theorem UpdateShape_direction_split_witness :
    (UpdateShape id roundLayer).BoundsSmoothingOffset = roundLayer.SmoothingDistance / 2 ∧
    (UpdateShape id roundLayer).InnerSmoothingOffset
      = min (roundLayer.SmoothingDistance / 2) (halfExtent roundLayer - 1 / 1000) :=
  (UpdateShape_direction_split id roundLayer { X := 0, Y := 0 } rfl
    (by norm_num [roundLayer]) (by norm_num [halfExtent, roundLayer])).2.2.1 rfl

/-- C15. Layer invariant for the round shape: for every radius R >= 0, every smoothing
distance D >= 0 and every smoothing direction, after UpdateShape the inner radius is
non-negative and contained in the outer radius, 0 <= R - InnerSmoothingOffset <=
R + BoundsSmoothingOffset, and when the direction is Outwards the inner offset is 0. -/
theorem UpdateShape_round_invariant (T : FVector2D → FVector2D) (C0 : ULandscapeLayerComponent)
    (o : FVector2D) (hShape : C0.Shape = .HS_Round) (hO : C0.Origin = some o)
    (hR : 0 ≤ C0.Radius) (hD : 0 ≤ C0.SmoothingDistance) :
    0 ≤ (UpdateShape T C0).Radius - (UpdateShape T C0).InnerSmoothingOffset ∧
    (UpdateShape T C0).Radius - (UpdateShape T C0).InnerSmoothingOffset
      ≤ (UpdateShape T C0).Radius + (UpdateShape T C0).BoundsSmoothingOffset ∧
    (C0.SmoothingDirection = .SD_Outwards → (UpdateShape T C0).InnerSmoothingOffset = 0) := by
  obtain ⟨hRad, -, hB, hI0, hI1, -⟩ := UpdateShape_round_offsets T C0 o hShape hO hR hD
  obtain ⟨-, -, hI⟩ := UpdateShape_offsets_eq T C0 o hO
  refine ⟨by rw [hRad]; linarith, by linarith, ?_⟩
  intro hdir
  rw [hI, hdir]

/-- Witness for C15: the round layer of scenario 2. -/
theorem UpdateShape_round_invariant_witness :
    0 ≤ (UpdateShape id roundLayer).Radius - (UpdateShape id roundLayer).InnerSmoothingOffset ∧
    (UpdateShape id roundLayer).Radius - (UpdateShape id roundLayer).InnerSmoothingOffset
      ≤ (UpdateShape id roundLayer).Radius + (UpdateShape id roundLayer).BoundsSmoothingOffset ∧
    (roundLayer.SmoothingDirection = .SD_Outwards →
      (UpdateShape id roundLayer).InnerSmoothingOffset = 0) :=
  UpdateShape_round_invariant id roundLayer { X := 0, Y := 0 } rfl rfl
    (by norm_num [roundLayer]) (by norm_num [roundLayer])

/-! ### Area query: the enumerated rectangle -/

theorem forRange_pairwise (Lo Hi : Int) : (forRange Lo Hi).Pairwise (· < ·) := by
  unfold forRange
  rw [List.pairwise_map]
  exact (List.pairwise_lt_range _).imp (fun h => by omega)

theorem tileGrid_pairwise (W r0 r1 c0 c1 : Int) (hc0 : 0 ≤ c0) (hc1 : c1 ≤ W - 1) :
    ((forRange r0 r1).flatMap (fun Y => (forRange c0 c1).map (fun X => Y * W + X))).Pairwise
      (· < ·) := by
  rw [List.pairwise_flatMap]
  constructor
  · intro Y _
    rw [List.pairwise_map]
    exact (forRange_pairwise c0 c1).imp (fun h => by omega)
  · refine (forRange_pairwise r0 r1).imp ?_
    intro Y1 Y2 hlt x hx y hy
    simp only [List.mem_map, mem_forRange] at hx hy
    obtain ⟨X1, hX1, rfl⟩ := hx
    obtain ⟨X2, hX2, rfl⟩ := hy
    have h1 : (Y1 + 1) * W ≤ Y2 * W := by
      apply mul_le_mul_of_nonneg_right (by omega)
      omega
    have e : (Y1 + 1) * W = Y1 * W + W := by ring
    omega

theorem GetComponentsInArea_unfold (L : ARuntimeLandscape) (Area : FBox2D)
    (hrej : ¬ AreaIsRejected L Area)
    (hc : AreaMinColumn L Area ≤ AreaMaxColumn L Area)
    (hr : AreaMinRow L Area ≤ AreaMaxRow L Area) :
    GetComponentsInArea L Area
      = some ((forRange (AreaMinRow L Area) (AreaMaxRow L Area)).flatMap (fun Y =>
          (forRange (AreaMinColumn L Area) (AreaMaxColumn L Area)).map
            (fun X => Y * L.ComponentAmount.X + X))) ∧
    (((forRange (AreaMinRow L Area) (AreaMaxRow L Area)).flatMap (fun Y =>
          (forRange (AreaMinColumn L Area) (AreaMaxColumn L Area)).map
            (fun X => Y * L.ComponentAmount.X + X))).length : Int)
      = (AreaMaxColumn L Area - AreaMinColumn L Area + 1)
          * (AreaMaxRow L Area - AreaMinRow L Area + 1) := by
  have hlen : (((forRange (AreaMinRow L Area) (AreaMaxRow L Area)).flatMap (fun Y =>
          (forRange (AreaMinColumn L Area) (AreaMaxColumn L Area)).map
            (fun X => Y * L.ComponentAmount.X + X))).length : Int)
      = (AreaMaxColumn L Area - AreaMinColumn L Area + 1)
          * (AreaMaxRow L Area - AreaMinRow L Area + 1) := by
    rw [length_tileGrid]
    push_cast
    rw [Int.toNat_of_nonneg (by omega), Int.toNat_of_nonneg (by omega)]
    ring
  refine ⟨?_, hlen⟩
  have hpos : (AreaMaxColumn L Area - AreaMinColumn L Area + 1)
      * (AreaMaxRow L Area - AreaMinRow L Area + 1) > 0 := by
    apply mul_pos <;> omega
  unfold AreaIsRejected at hrej
  unfold AreaMinColumn AreaMaxColumn AreaMinRow AreaMaxRow at hlen hpos ⊢
  unfold GetComponentsInArea
  simp only []
  rw [if_neg hrej, if_neg (not_not.mpr hpos), if_pos hlen]

/-- C20. Area query algorithm: for every box with Min <= Max that is not rejected and
whose clamped rectangle is non-empty, GetComponentsInArea returns exactly the tile
indices row*W + col for row in [max(floor(relMin.Y/size),0), min(floor(relMax.Y/size),H-1)]
and col in [max(floor(relMin.X/size),0), min(floor(relMax.X/size),W-1)], enumerated
row-major: the list is strictly increasing (so without duplicates), every index lies in
[0, W*H), and the final count assertion Result.Num() == ExpectedAmount holds. -/
theorem GetComponentsInArea_rectangle (L : ARuntimeLandscape) (Area : FBox2D)
    (_hX : Area.Min.X ≤ Area.Max.X) (_hY : Area.Min.Y ≤ Area.Max.Y)
    (hrej : ¬ AreaIsRejected L Area)
    (hc : AreaMinColumn L Area ≤ AreaMaxColumn L Area)
    (hr : AreaMinRow L Area ≤ AreaMaxRow L Area) :
    ∃ Result, GetComponentsInArea L Area = some Result ∧
      Result = (forRange (AreaMinRow L Area) (AreaMaxRow L Area)).flatMap (fun row =>
          (forRange (AreaMinColumn L Area) (AreaMaxColumn L Area)).map
            (fun col => row * L.ComponentAmount.X + col)) ∧
      (∀ i, i ∈ Result ↔ ∃ row col, (AreaMinRow L Area ≤ row ∧ row ≤ AreaMaxRow L Area) ∧
          (AreaMinColumn L Area ≤ col ∧ col ≤ AreaMaxColumn L Area) ∧
          i = row * L.ComponentAmount.X + col) ∧
      Result.Pairwise (· < ·) ∧ Result.Nodup ∧
      (∀ i ∈ Result, 0 ≤ i ∧ i < L.ComponentAmount.X * L.ComponentAmount.Y) ∧
      (Result.length : Int)
        = (AreaMaxColumn L Area - AreaMinColumn L Area + 1)
            * (AreaMaxRow L Area - AreaMinRow L Area + 1) := by
  obtain ⟨hres, hlen⟩ := GetComponentsInArea_unfold L Area hrej hc hr
  have hc0 : 0 ≤ AreaMinColumn L Area := le_max_right _ _
  have hc1 : AreaMaxColumn L Area ≤ L.ComponentAmount.X - 1 := min_le_right _ _
  have hr0 : 0 ≤ AreaMinRow L Area := le_max_right _ _
  have hr1 : AreaMaxRow L Area ≤ L.ComponentAmount.Y - 1 := min_le_right _ _
  have hpw := tileGrid_pairwise L.ComponentAmount.X (AreaMinRow L Area) (AreaMaxRow L Area)
    (AreaMinColumn L Area) (AreaMaxColumn L Area) hc0 hc1
  have hmem : ∀ i, i ∈ (forRange (AreaMinRow L Area) (AreaMaxRow L Area)).flatMap (fun row =>
          (forRange (AreaMinColumn L Area) (AreaMaxColumn L Area)).map
            (fun col => row * L.ComponentAmount.X + col)) ↔
      ∃ row col, (AreaMinRow L Area ≤ row ∧ row ≤ AreaMaxRow L Area) ∧
          (AreaMinColumn L Area ≤ col ∧ col ≤ AreaMaxColumn L Area) ∧
          i = row * L.ComponentAmount.X + col := by
    intro i
    simp only [List.mem_flatMap, List.mem_map, mem_forRange]
    constructor
    · rintro ⟨row, hrow, col, hcol, rfl⟩
      exact ⟨row, col, hrow, hcol, rfl⟩
    · rintro ⟨row, col, hrow, hcol, rfl⟩
      exact ⟨row, hrow, col, hcol, rfl⟩
  refine ⟨_, hres, rfl, hmem, hpw, hpw.imp (fun h => ne_of_lt h), ?_, hlen⟩
  intro i hi
  obtain ⟨row, col, ⟨hrow0, hrow1⟩, ⟨hcol0, hcol1⟩, rfl⟩ := (hmem i).mp hi
  have hW : 0 ≤ L.ComponentAmount.X := by omega
  constructor
  · exact add_nonneg (mul_nonneg (by omega) hW) (by omega)
  · have h1 : (row + 1) * L.ComponentAmount.X ≤ L.ComponentAmount.Y * L.ComponentAmount.X :=
      mul_le_mul_of_nonneg_right (by omega) hW
    have e : (row + 1) * L.ComponentAmount.X = row * L.ComponentAmount.X + L.ComponentAmount.X := by
      ring
    have c := mul_comm L.ComponentAmount.X L.ComponentAmount.Y
    omega

/-- Witness for C20: scenario 1, the 2x2 grid of side-100 tiles and the box
[0,50] x [0,50]; the enumerated rectangle is the single tile 0. -/
theorem GetComponentsInArea_rectangle_witness :
    (∃ Result, GetComponentsInArea grid2x2 cornerBox = some Result ∧
      Result = (forRange (AreaMinRow grid2x2 cornerBox) (AreaMaxRow grid2x2 cornerBox)).flatMap
        (fun row =>
          (forRange (AreaMinColumn grid2x2 cornerBox) (AreaMaxColumn grid2x2 cornerBox)).map
            (fun col => row * grid2x2.ComponentAmount.X + col)) ∧
      (∀ i, i ∈ Result ↔ ∃ row col,
          (AreaMinRow grid2x2 cornerBox ≤ row ∧ row ≤ AreaMaxRow grid2x2 cornerBox) ∧
          (AreaMinColumn grid2x2 cornerBox ≤ col ∧ col ≤ AreaMaxColumn grid2x2 cornerBox) ∧
          i = row * grid2x2.ComponentAmount.X + col) ∧
      Result.Pairwise (· < ·) ∧ Result.Nodup ∧
      (∀ i ∈ Result, 0 ≤ i ∧ i < grid2x2.ComponentAmount.X * grid2x2.ComponentAmount.Y) ∧
      (Result.length : Int)
        = (AreaMaxColumn grid2x2 cornerBox - AreaMinColumn grid2x2 cornerBox + 1)
            * (AreaMaxRow grid2x2 cornerBox - AreaMinRow grid2x2 cornerBox + 1)) ∧
    GetComponentsInArea grid2x2 cornerBox = some [0] := by
  refine ⟨GetComponentsInArea_rectangle grid2x2 cornerBox (by norm_num [cornerBox])
    (by norm_num [cornerBox]) ?_ ?_ ?_, ?_⟩
  · norm_num [AreaIsRejected, grid2x2, cornerBox]
  · norm_num [AreaMinColumn, AreaMaxColumn, grid2x2, cornerBox, FloorToInt]
  · norm_num [AreaMinRow, AreaMaxRow, grid2x2, cornerBox, FloorToInt]
  · norm_num [GetComponentsInArea, grid2x2, cornerBox, FloorToInt, forRange, List.range_succ]

/-! ### Vegetation: choosing the rule of a vertex -/

theorem SelectGroundType_cons_some (s : FGrassTypeSettings) (w : ℚ)
    (t : List (Option FGrassTypeSettings × ℚ)) (S : GrassSelection) :
    SelectGroundType ((some s, w) :: t) S
      = SelectGroundType t
          (if w ≥ S.HighestWeight ∧ w > 1 / 5 then
            { SelectedGrass := s, HighestWeight := w, bIsLayerApplied := true }
          else S) := by
  rw [SelectGroundType]
  split_ifs <;> rfl

theorem SelectGroundType_cons_skip (e : Option FGrassTypeSettings × ℚ)
    (t : List (Option FGrassTypeSettings × ℚ)) (S : GrassSelection)
    (h : ¬ (e.2 ≥ S.HighestWeight ∧ e.2 > 1 / 5)) :
    SelectGroundType (e :: t) S = SelectGroundType t S := by
  rw [SelectGroundType, if_neg h]

theorem SelectGroundType_cons_none (w : ℚ) (t : List (Option FGrassTypeSettings × ℚ))
    (S : GrassSelection) (h : w ≥ S.HighestWeight ∧ w > 1 / 5) :
    SelectGroundType ((none, w) :: t) S = none := by
  rw [SelectGroundType, if_pos h]

/-- The loop stops the program only at a null key whose weight is above 1/5. -/
theorem SelectGroundType_none (Weights : List (Option FGrassTypeSettings × ℚ)) :
    ∀ S : GrassSelection, SelectGroundType Weights S = none →
      ∃ e ∈ Weights, e.1 = none ∧ 1 / 5 < e.2 := by
  induction Weights with
  | nil =>
    intro S h
    simp [SelectGroundType] at h
  | cons e t ih =>
    intro S h
    obtain ⟨k, w⟩ := e
    by_cases hupd : w ≥ S.HighestWeight ∧ w > 1 / 5
    · cases k with
      | none => exact ⟨(none, w), List.mem_cons_self _ _, rfl, hupd.2⟩
      | some s =>
        rw [SelectGroundType_cons_some, if_pos hupd] at h
        obtain ⟨x, hx, h1, h2⟩ := ih _ h
        exact ⟨x, List.mem_cons_of_mem _ hx, h1, h2⟩
    · rw [SelectGroundType_cons_skip _ _ _ hupd] at h
      obtain ⟨x, hx, h1, h2⟩ := ih _ h
      exact ⟨x, List.mem_cons_of_mem _ hx, h1, h2⟩

/-- Without a weight above 1/5 the loop leaves the locals as they are, null keys or
not. -/
theorem SelectGroundType_low (Weights : List (Option FGrassTypeSettings × ℚ))
    (hall : ∀ e ∈ Weights, e.2 ≤ 1 / 5) :
    ∀ S : GrassSelection, SelectGroundType Weights S = some S := by
  induction Weights with
  | nil => intro S; rfl
  | cons e t ih =>
    intro S
    have he := hall e (List.mem_cons_self _ _)
    rw [SelectGroundType_cons_skip _ _ _ (fun h => absurd h.2 (not_lt.mpr he))]
    exact ih (fun x hx => hall x (List.mem_cons_of_mem _ hx)) S

/-- The state of the ground-type loop when no null key has a weight above 1/5: the loop
ends; once a layer is applied the highest weight is above 1/5; it is the largest weight
seen and belongs to an entry of the list. -/
theorem SelectGroundType_invariant (Weights : List (Option FGrassTypeSettings × ℚ)) :
    ∀ S : GrassSelection,
      (S.bIsLayerApplied = true → 1 / 5 < S.HighestWeight) →
      (S.bIsLayerApplied = false → S.HighestWeight ≤ 1 / 5) →
      (∀ e ∈ Weights, 1 / 5 < e.2 → e.1 ≠ none) →
      ∃ R, SelectGroundType Weights S = some R ∧
        (R.bIsLayerApplied = true →
          1 / 5 < R.HighestWeight ∧
          (∀ e ∈ Weights, e.2 ≤ R.HighestWeight) ∧
          (S.bIsLayerApplied = true → S.HighestWeight ≤ R.HighestWeight) ∧
          ((some R.SelectedGrass, R.HighestWeight) ∈ Weights ∨ R = S)) ∧
        (R.bIsLayerApplied = false → R = S ∧ ∀ e ∈ Weights, e.2 ≤ 1 / 5) ∧
        (S.bIsLayerApplied = true → R.bIsLayerApplied = true) ∧
        ((∃ e ∈ Weights, 1 / 5 < e.2) → R.bIsLayerApplied = true) := by
  induction Weights with
  | nil =>
    intro S h1 _ _
    refine ⟨S, rfl, fun ha => ⟨h1 ha, (fun e he => by cases he), fun _ => le_refl _, Or.inr rfl⟩,
      fun _ => ⟨rfl, (fun e he => by cases he)⟩, fun h => h, ?_⟩
    rintro ⟨e, he, -⟩
    cases he
  | cons e t ih =>
    intro S h1 h2 hnn
    have hnnt : ∀ x ∈ t, 1 / 5 < x.2 → x.1 ≠ none :=
      fun x hx => hnn x (List.mem_cons_of_mem _ hx)
    obtain ⟨k, w⟩ := e
    by_cases hupd : w ≥ S.HighestWeight ∧ w > 1 / 5
    · have hk : k ≠ none := hnn (k, w) (List.mem_cons_self _ _) hupd.2
      obtain ⟨s, rfl⟩ := Option.ne_none_iff_exists'.mp hk
      rw [SelectGroundType_cons_some, if_pos hupd]
      obtain ⟨R, hR, a, b, c, d⟩ := ih
        { SelectedGrass := s, HighestWeight := w, bIsLayerApplied := true }
        (fun _ => hupd.2) (fun h => by cases h) hnnt
      have happ := c rfl
      obtain ⟨a1, a2, a3, a4⟩ := a happ
      refine ⟨R, hR, fun _ => ⟨a1, ?_, fun _ => le_trans hupd.1 (a3 rfl), ?_⟩, ?_,
        fun _ => happ, fun _ => happ⟩
      · intro x hx
        rcases List.mem_cons.mp hx with rfl | hx
        · exact a3 rfl
        · exact a2 x hx
      · left
        rcases a4 with h | h
        · exact List.mem_cons_of_mem _ h
        · rw [h]
          exact List.mem_cons_self _ _
      · intro hf
        rw [happ] at hf
        cases hf
    · rw [SelectGroundType_cons_skip _ _ _ hupd]
      obtain ⟨R, hR, a, b, c, d⟩ := ih S h1 h2 hnnt
      refine ⟨R, hR, fun ha => ?_, fun hf => ?_, c, ?_⟩
      · obtain ⟨a1, a2, a3, a4⟩ := a ha
        refine ⟨a1, ?_, a3, ?_⟩
        · intro x hx
          rcases List.mem_cons.mp hx with rfl | hx
          · by_cases hle : w > 1 / 5
            · have hlt : w < S.HighestWeight := by
                by_contra hc
                exact hupd ⟨not_lt.mp hc, hle⟩
              cases hS : S.bIsLayerApplied with
              | true => exact le_trans hlt.le (a3 hS)
              | false =>
                have := h2 hS
                linarith
            · have := not_lt.mp hle
              show w ≤ R.HighestWeight
              linarith
          · exact a2 x hx
        · rcases a4 with h | h
          · exact Or.inl (List.mem_cons_of_mem _ h)
          · exact Or.inr h
      · obtain ⟨b1, b2⟩ := b hf
        refine ⟨b1, ?_⟩
        intro x hx
        rcases List.mem_cons.mp hx with rfl | hx
        · by_contra hc
          have hgt : w > 1 / 5 := not_le.mp hc
          have hS : S.bIsLayerApplied = false := by
            rw [b1] at hf
            exact hf
          have := h2 hS
          exact hupd ⟨by linarith, hgt⟩
        · exact b2 x hx
      · rintro ⟨x, hx, hgt⟩
        rcases List.mem_cons.mp hx with rfl | hx
        · cases hS : S.bIsLayerApplied with
          | true => exact c hS
          | false =>
            have := h2 hS
            exact absurd ⟨by linarith, hgt⟩ hupd
        · exact d ⟨x, hx, hgt⟩

theorem SelectGroundType_initial (Weights : List (Option FGrassTypeSettings × ℚ))
    (hnn : ∀ e ∈ Weights, 1 / 5 < e.2 → e.1 ≠ none) (hex : ∃ e ∈ Weights, 1 / 5 < e.2) :
    ∃ R, SelectGroundType Weights GrassSelection.initial = some R ∧
      R.bIsLayerApplied = true ∧
      (some R.SelectedGrass, R.HighestWeight) ∈ Weights ∧
      ∀ e ∈ Weights, e.2 ≤ R.HighestWeight := by
  obtain ⟨R, hR, a, -, -, d⟩ := SelectGroundType_invariant Weights GrassSelection.initial
    (fun h => by cases h) (fun _ => by norm_num [GrassSelection.initial]) hnn
  have happ := d hex
  obtain ⟨-, a2, -, a4⟩ := a happ
  refine ⟨R, hR, happ, ?_, a2⟩
  rcases a4 with h | h
  · exact h
  · rw [h] at happ
    cases happ

/-- C16 (amended). For every vertex that is not in the tile's first row or first column:
if every ground-type entry with a weight above 0.2 has a non-null ground type and some
weight is above 0.2, the worker selects a ground type attaining the largest weight and
generates the vegetation with that weight; if every weight is <= 0.2 (a largest weight
of exactly 0.2 included) it goes on to the height-band fallback; the call fails to return
only when a null ground type has a weight above 0.2, and it does fail when the first
entry of the map is such a null entry. -/
theorem GenerateGrassDataForVertex_ground_type (G : GrassContext)
    (YCoordinate VertexIndex X : Nat) (AdditionalData : FLandscapeAdditionalData) (n : Nat)
    (hY : YCoordinate ≠ 0) (hX : X ≠ 0) :
    ((∀ e ∈ G.GroundTypeWeights X YCoordinate, 1 / 5 < e.2 → e.1 ≠ none) →
      (∃ e ∈ G.GroundTypeWeights X YCoordinate, 1 / 5 < e.2) →
      ∃ Grass Weight, (some Grass, Weight) ∈ G.GroundTypeWeights X YCoordinate ∧
        (∀ e ∈ G.GroundTypeWeights X YCoordinate, e.2 ≤ Weight) ∧
        GenerateGrassDataForVertex G YCoordinate VertexIndex X AdditionalData n
          = some (GenerateGrassTransformsAtVertex G Grass VertexIndex Weight
              AdditionalData.ClearData n)) ∧
    ((∀ e ∈ G.GroundTypeWeights X YCoordinate, e.2 ≤ 1 / 5) →
      GenerateGrassDataForVertex G YCoordinate VertexIndex X AdditionalData n
        = some (if (SelectHeightBand G.HeightBasedData (G.VertexHeight VertexIndex)
              GrassSelection.initial).bIsLayerApplied then
            GenerateGrassTransformsAtVertex G
              (SelectHeightBand G.HeightBasedData (G.VertexHeight VertexIndex)
                GrassSelection.initial).SelectedGrass VertexIndex
              (SelectHeightBand G.HeightBasedData (G.VertexHeight VertexIndex)
                GrassSelection.initial).HighestWeight AdditionalData.ClearData n
          else (AdditionalData.ClearData, n))) ∧
    (GenerateGrassDataForVertex G YCoordinate VertexIndex X AdditionalData n = none →
      ∃ e ∈ G.GroundTypeWeights X YCoordinate, e.1 = none ∧ 1 / 5 < e.2) ∧
    (∀ (w : ℚ) (Rest : List (Option FGrassTypeSettings × ℚ)),
      G.GroundTypeWeights X YCoordinate = (none, w) :: Rest → 1 / 5 < w →
      GenerateGrassDataForVertex G YCoordinate VertexIndex X AdditionalData n = none) := by
  have hfirst : ¬ (YCoordinate = 0 ∨ X = 0) := by
    rintro (h | h)
    · exact hY h
    · exact hX h
  refine ⟨?_, ?_, ?_, ?_⟩
  · intro hnn hex
    obtain ⟨R, hR, happ, hmem, hmax⟩ :=
      SelectGroundType_initial (G.GroundTypeWeights X YCoordinate) hnn hex
    refine ⟨_, _, hmem, hmax, ?_⟩
    unfold GenerateGrassDataForVertex
    simp only [if_neg hfirst, hR, happ, not_true_eq_false, if_false, if_true]
  · intro hall
    have h0 := SelectGroundType_low (G.GroundTypeWeights X YCoordinate) hall
      GrassSelection.initial
    have hinit : GrassSelection.initial.bIsLayerApplied = false := rfl
    unfold GenerateGrassDataForVertex
    simp only [if_neg hfirst, h0, hinit, Bool.false_eq_true, not_false_eq_true, if_true]
    split_ifs <;> rfl
  · intro hnone
    cases hs : SelectGroundType (G.GroundTypeWeights X YCoordinate) GrassSelection.initial with
    | none => exact SelectGroundType_none _ _ hs
    | some S1 =>
      unfold GenerateGrassDataForVertex at hnone
      simp only [if_neg hfirst, hs] at hnone
      split_ifs at hnone
  · intro w Rest hW hw
    have hs : SelectGroundType (G.GroundTypeWeights X YCoordinate) GrassSelection.initial
        = none := by
      rw [hW]
      apply SelectGroundType_cons_none
      refine ⟨?_, hw⟩
      show w ≥ 0
      linarith
    unfold GenerateGrassDataForVertex
    simp only [if_neg hfirst, hs]

/-- Witness for C16 (amended): vertex (X, Y) = (1, 1) with the single weight 1/4. -/
theorem GenerateGrassDataForVertex_ground_type_witness :
    ∃ Grass Weight, (some Grass, Weight) ∈ (grassContext (1 / 4) 200).GroundTypeWeights 1 1 ∧
      (∀ e ∈ (grassContext (1 / 4) 200).GroundTypeWeights 1 1, e.2 ≤ Weight) ∧
      GenerateGrassDataForVertex (grassContext (1 / 4) 200) 1 3 1 { GrassData := [] } 0
        = some (GenerateGrassTransformsAtVertex (grassContext (1 / 4) 200) Grass 3 Weight
            (FLandscapeAdditionalData.ClearData { GrassData := [] }) 0) :=
  (GenerateGrassDataForVertex_ground_type (grassContext (1 / 4) 200) 1 3 1 { GrassData := [] } 0
    (by decide) (by decide)).1
    (by
      intro e he _
      simp only [grassContext, List.mem_singleton] at he
      rw [he]
      simp)
    ⟨(some plainGrass, 1 / 4), by simp [grassContext], by norm_num⟩

/-- C16 (counterexample). The only ground-type weight at vertex (1, 1) is exactly 0.2, so
the largest weight is >= 0.2; the loop does not apply it, the worker falls through to the
height bands (none contains height 200) and the vertex gets no vegetation, whereas
generating with that ground type and weight 0.2 would place one instance. -/
theorem GenerateGrassDataForVertex_threshold_counterexample :
    (grassContext (1 / 5) 200).GroundTypeWeights 1 1 = [(some plainGrass, 1 / 5)] ∧
    ((1 : ℚ) / 5 ≥ 2 / 10) ∧
    SelectGroundType ((grassContext (1 / 5) 200).GroundTypeWeights 1 1)
      GrassSelection.initial = some GrassSelection.initial ∧
    GrassSelection.initial.bIsLayerApplied = false ∧
    GenerateGrassDataForVertex (grassContext (1 / 5) 200) 1 3 1 { GrassData := [] } 0
      = some ({ GrassData := [] }, 0) ∧
    ((GenerateGrassTransformsAtVertex (grassContext (1 / 5) 200) plainGrass 3 (1 / 5)
        { GrassData := [] } 0).1.GrassData.map
          (fun p => p.2.InstanceTransformsRelative.length)) = [1] := by
  refine ⟨rfl, by norm_num, ?_, rfl, ?_, ?_⟩
  · norm_num [grassContext, SelectGroundType, GrassSelection.initial]
  · norm_num [GenerateGrassDataForVertex, grassContext, SelectGroundType, SelectHeightBand,
      GrassSelection.initial, FLandscapeAdditionalData.ClearData]
  · norm_num [GenerateGrassTransformsAtVertex, grassContext, plainGrass, GenerateGrassForVariety,
      RemainingInstanceCount, RandRange, FloorToInt, FindOrAddSet, GenerateInstances,
      GetRandomGrassLocation, GetRandomGrassRotation, GetRandomGrassScale]

/-- A layer set with an empty second slot at vertex (1, 1): when the empty slot carries
the weight 1/4 and the ground type before it only 1/10, the null key is dereferenced and
the call does not return; when the ground type before it carries 1/2, the empty slot
fails the test against the running maximum and the call returns. -/
theorem GenerateGrassDataForVertex_empty_slot :
    GenerateGrassDataForVertex (emptySlotContext (1 / 10) (1 / 4) 200) 1 3 1
      { GrassData := [] } 0 = none ∧
    GenerateGrassDataForVertex (emptySlotContext (1 / 2) (1 / 4) 200) 1 3 1
      { GrassData := [] } 0
      = some (GenerateGrassTransformsAtVertex (emptySlotContext (1 / 2) (1 / 4) 200)
          plainGrass 3 (1 / 2) { GrassData := [] } 0) := by
  constructor
  · norm_num [GenerateGrassDataForVertex, emptySlotContext, grassContext, SelectGroundType,
      GrassSelection.initial]
  · norm_num [GenerateGrassDataForVertex, emptySlotContext, grassContext, SelectGroundType,
      GrassSelection.initial, FLandscapeAdditionalData.ClearData]

/-! ### Vegetation: the height-band fallback -/

theorem SelectHeightBand_cons (b : FHeightBasedLandscapeData)
    (t : List FHeightBasedLandscapeData) (h : ℚ) (S : GrassSelection) :
    SelectHeightBand (b :: t) h S
      = SelectHeightBand t h
          (if b.MinHeight < h ∧ b.MaxHeight > h then
            { SelectedGrass := b.Grass, HighestWeight := 1, bIsLayerApplied := true }
          else S) := rfl

/-- The fallback loop ends with the last band, in list order, whose open interval contains
the height; without such a band the locals are unchanged. -/
theorem SelectHeightBand_eq (Bands : List FHeightBasedLandscapeData) (h : ℚ) :
    ∀ S : GrassSelection,
      SelectHeightBand Bands h S
        = match (Bands.filter (fun b => inOpenBand b h)).getLast? with
          | none => S
          | some b => { SelectedGrass := b.Grass, HighestWeight := 1, bIsLayerApplied := true } := by
  induction Bands with
  | nil => intro S; rfl
  | cons b t ih =>
    intro S
    rw [SelectHeightBand_cons, ih]
    by_cases hb : b.MinHeight < h ∧ b.MaxHeight > h
    · have hb1 : inOpenBand b h = true := by simp [inOpenBand, hb]
      have hf : (b :: t).filter (fun b => inOpenBand b h)
          = b :: t.filter (fun b => inOpenBand b h) := by
        simp [List.filter_cons, hb1]
      rw [if_pos hb, hf]
      cases hl : (t.filter (fun b => inOpenBand b h)).getLast? with
      | none =>
        rw [List.getLast?_eq_none_iff] at hl
        simp [hl]
      | some c =>
        have hne : t.filter (fun b => inOpenBand b h) ≠ [] := by
          intro hnil
          rw [hnil] at hl
          cases hl
        obtain ⟨x, l, hxl⟩ := List.exists_cons_of_ne_nil hne
        rw [hxl] at hl ⊢
        rw [List.getLast?_cons_cons, hl]
    · have hb1 : inOpenBand b h = false := by simp [inOpenBand, hb]
      have hf : (b :: t).filter (fun b => inOpenBand b h)
          = t.filter (fun b => inOpenBand b h) := by
        simp [List.filter_cons, hb1]
      rw [if_neg hb, hf]

/-- C17 (amended). Height-band fallback: for a vertex outside the first row and column at
which no ground-type weight exceeds 0.2, the call returns and the selected vegetation
rule is that of the last band in list order whose open interval (MinHeight, MaxHeight)
contains the vertex's world height, used with weight exactly 1; if no band contains the
height, the vertex data is cleared and no vegetation is generated. -/
theorem GenerateGrassDataForVertex_height_band (G : GrassContext)
    (YCoordinate VertexIndex X : Nat) (AdditionalData : FLandscapeAdditionalData) (n : Nat)
    (hY : YCoordinate ≠ 0) (hX : X ≠ 0)
    (hall : ∀ e ∈ G.GroundTypeWeights X YCoordinate, e.2 ≤ 1 / 5) :
    GenerateGrassDataForVertex G YCoordinate VertexIndex X AdditionalData n
      = some (match (G.HeightBasedData.filter
            (fun b => inOpenBand b (G.VertexHeight VertexIndex))).getLast? with
        | none => ({ GrassData := [] }, n)
        | some Band =>
          GenerateGrassTransformsAtVertex G Band.Grass VertexIndex 1 AdditionalData.ClearData n) := by
  have h0 := SelectGroundType_low (G.GroundTypeWeights X YCoordinate) hall GrassSelection.initial
  have hfirst : ¬ (YCoordinate = 0 ∨ X = 0) := by
    rintro (h | h)
    · exact hY h
    · exact hX h
  unfold GenerateGrassDataForVertex
  simp only [if_neg hfirst, h0]
  have hinit : GrassSelection.initial.bIsLayerApplied = false := rfl
  simp only [hinit, Bool.false_eq_true, not_false_eq_true, if_true]
  rw [SelectHeightBand_eq]
  cases (G.HeightBasedData.filter (fun b => inOpenBand b (G.VertexHeight VertexIndex))).getLast? with
  | none => rfl
  | some b => rfl

/-- Witness for C17 (amended): the single weight 0 and a vertex at height 50, inside the
band from 0 to 100. -/
theorem GenerateGrassDataForVertex_height_band_witness :
    GenerateGrassDataForVertex (grassContext 0 50) 1 3 1 { GrassData := [] } 0
      = some (match ((grassContext 0 50).HeightBasedData.filter
            (fun b => inOpenBand b ((grassContext 0 50).VertexHeight 3))).getLast? with
        | none => ({ GrassData := [] }, 0)
        | some Band =>
          GenerateGrassTransformsAtVertex (grassContext 0 50) Band.Grass 3 1
            (FLandscapeAdditionalData.ClearData { GrassData := [] }) 0) :=
  GenerateGrassDataForVertex_height_band (grassContext 0 50) 1 3 1 { GrassData := [] } 0
    (by decide) (by decide) (by norm_num [grassContext])

/-- C17 (counterexample). No ground-type weight exceeds 0.2 and the vertex lies at height
0, the lower bound of the only band, so the half-open interval [0, 100) contains the
height. The worker does not select the band: the vertex gets no vegetation, whereas the
band's rule with weight 1 would place five instances. -/
theorem GenerateGrassDataForVertex_band_edge_counterexample :
    (∀ e ∈ (grassContext 0 0).GroundTypeWeights 1 1, e.2 ≤ 1 / 5) ∧
    (grassContext 0 0).HeightBasedData
      = [{ MinHeight := 0, MaxHeight := 100, Grass := plainGrass }] ∧
    inHalfOpenBand { MinHeight := 0, MaxHeight := 100, Grass := plainGrass }
      ((grassContext 0 0).VertexHeight 3) = true ∧
    GenerateGrassDataForVertex (grassContext 0 0) 1 3 1 { GrassData := [] } 0
      = some ({ GrassData := [] }, 0) ∧
    ((GenerateGrassTransformsAtVertex (grassContext 0 0) plainGrass 3 1
        { GrassData := [] } 0).1.GrassData.map
          (fun p => p.2.InstanceTransformsRelative.length)) = [5] := by
  refine ⟨by norm_num [grassContext], rfl, by norm_num [inHalfOpenBand, grassContext], ?_, ?_⟩
  · norm_num [GenerateGrassDataForVertex, grassContext, SelectGroundType, SelectHeightBand,
      GrassSelection.initial, FLandscapeAdditionalData.ClearData]
  · norm_num [GenerateGrassTransformsAtVertex, grassContext, plainGrass, GenerateGrassForVariety,
      RemainingInstanceCount, RandRange, FloorToInt, FindOrAddSet, GenerateInstances,
      GetRandomGrassLocation, GetRandomGrassRotation, GetRandomGrassScale]

/-! ### Vegetation: number of instances -/

theorem GenerateInstances_length (G : GrassContext) (Variety : FGrassVariety)
    (VertexIndex : Nat) (k : Nat) :
    ∀ n, (GenerateInstances G Variety VertexIndex k n).1.length = k := by
  induction k with
  | zero => intro n; rfl
  | succ k ih =>
    intro n
    simp only [GenerateInstances, List.length_cons, ih]

/-- C18. Vegetation instance count: for every variety, with
v = AreaPerSquare * density * 0.000001 * weight >= 0 and u the random draw in [0, 1], the
number of instance transforms generated for the variety at a vertex is floor(v) + 1 if
u < v - floor(v) and floor(v) otherwise; so it is floor(v) or floor(v) + 1, and it equals
v when v is an integer. For a grass type with this single variety that passes the slope
test, these transforms are the whole vegetation data of the vertex. -/
theorem GenerateGrassForVariety_count (G : GrassContext) (Variety : FGrassVariety)
    (VertexIndex : Nat) (Weight : ℚ) (n : Nat)
    (hv : 0 ≤ G.AreaPerSquare * Variety.Density * (1 / 1000000) * Weight)
    (hu0 : 0 ≤ G.Rand n) (_hu1 : G.Rand n ≤ 1) :
    (((GenerateGrassForVariety G Variety VertexIndex Weight n).1.InstanceTransformsRelative.length
        : Nat) : Int)
      = (if G.Rand n < G.AreaPerSquare * Variety.Density * (1 / 1000000) * Weight
            - (Int.floor (G.AreaPerSquare * Variety.Density * (1 / 1000000) * Weight) : ℚ)
          then Int.floor (G.AreaPerSquare * Variety.Density * (1 / 1000000) * Weight) + 1
          else Int.floor (G.AreaPerSquare * Variety.Density * (1 / 1000000) * Weight)) ∧
    ((((GenerateGrassForVariety G Variety VertexIndex Weight n).1.InstanceTransformsRelative.length
        : Nat) : Int) = Int.floor (G.AreaPerSquare * Variety.Density * (1 / 1000000) * Weight) ∨
      (((GenerateGrassForVariety G Variety VertexIndex Weight n).1.InstanceTransformsRelative.length
        : Nat) : Int)
        = Int.floor (G.AreaPerSquare * Variety.Density * (1 / 1000000) * Weight) + 1) ∧
    (((Int.floor (G.AreaPerSquare * Variety.Density * (1 / 1000000) * Weight) : Int) : ℚ)
        = G.AreaPerSquare * Variety.Density * (1 / 1000000) * Weight →
      (((GenerateGrassForVariety G Variety VertexIndex Weight n).1.InstanceTransformsRelative.length
        : Nat) : ℚ) = G.AreaPerSquare * Variety.Density * (1 / 1000000) * Weight) ∧
    (∀ MaxSlopeAngle : ℚ,
      ¬ (MaxSlopeAngle > 0 ∧ (|(G.SlopeAngles VertexIndex).1| > MaxSlopeAngle ∨
          |(G.SlopeAngles VertexIndex).2| > MaxSlopeAngle)) →
      (GenerateGrassTransformsAtVertex G
          { GrassType := some [Variety], MaxSlopeAngle := MaxSlopeAngle } VertexIndex Weight
          { GrassData := [] } n).1.GrassData
        = [(Variety.GrassMesh, (GenerateGrassForVariety G Variety VertexIndex Weight n).1)]) := by
  have hfl : 0 ≤ Int.floor (G.AreaPerSquare * Variety.Density * (1 / 1000000) * Weight) :=
    Int.floor_nonneg.mpr hv
  have hlen : (((GenerateGrassForVariety G Variety VertexIndex Weight n).1.InstanceTransformsRelative.length
        : Nat) : Int)
      = (if G.Rand n < G.AreaPerSquare * Variety.Density * (1 / 1000000) * Weight
            - (Int.floor (G.AreaPerSquare * Variety.Density * (1 / 1000000) * Weight) : ℚ)
          then Int.floor (G.AreaPerSquare * Variety.Density * (1 / 1000000) * Weight) + 1
          else Int.floor (G.AreaPerSquare * Variety.Density * (1 / 1000000) * Weight)) := by
    have hr : RandRange G.Rand n 0 1 = G.Rand n := by
      unfold RandRange
      ring
    simp only [GenerateGrassForVariety, GenerateInstances_length, RemainingInstanceCount, hr,
      FloorToInt]
    split_ifs
    · exact Int.toNat_of_nonneg (by omega)
    · exact Int.toNat_of_nonneg hfl
  refine ⟨hlen, ?_, ?_, ?_⟩
  · rw [hlen]
    split_ifs
    · exact Or.inr rfl
    · exact Or.inl rfl
  · intro hint
    have hnot : ¬ (G.Rand n < G.AreaPerSquare * Variety.Density * (1 / 1000000) * Weight
            - (Int.floor (G.AreaPerSquare * Variety.Density * (1 / 1000000) * Weight) : ℚ)) := by
      rw [hint]
      simp only [sub_self, not_lt]
      exact hu0
    rw [if_neg hnot] at hlen
    rw [← hint]
    exact_mod_cast hlen
  · intro MaxSlopeAngle hslope
    unfold GenerateGrassTransformsAtVertex
    simp only [if_neg hslope, List.foldl_cons, List.foldl_nil, FindOrAddSet, List.any_nil,
      Bool.false_eq_true, if_false, List.nil_append]

/-- Witness for C18: area 5000000, density 1 and weight 1 give v = 5; the draw is 1/2 and
five instances are generated. -/
theorem GenerateGrassForVariety_count_witness :
    ((((GenerateGrassForVariety (grassContext 1 50)
        { GrassMesh := 0, Density := 1, RandomRotation := false, Scaling := .Other
          ScaleX := { Min := 1, Max := 1 }, ScaleY := { Min := 1, Max := 1 }
          ScaleZ := { Min := 1, Max := 1 } } 3 1 0).1.InstanceTransformsRelative.length : Nat) : Int)
      = Int.floor ((grassContext 1 50).AreaPerSquare * 1 * (1 / 1000000) * 1) ∨
    ((((GenerateGrassForVariety (grassContext 1 50)
        { GrassMesh := 0, Density := 1, RandomRotation := false, Scaling := .Other
          ScaleX := { Min := 1, Max := 1 }, ScaleY := { Min := 1, Max := 1 }
          ScaleZ := { Min := 1, Max := 1 } } 3 1 0).1.InstanceTransformsRelative.length : Nat) : Int)
      = Int.floor ((grassContext 1 50).AreaPerSquare * 1 * (1 / 1000000) * 1) + 1)) :=
  (GenerateGrassForVariety_count (grassContext 1 50)
    { GrassMesh := 0, Density := 1, RandomRotation := false, Scaling := .Other
      ScaleX := { Min := 1, Max := 1 }, ScaleY := { Min := 1, Max := 1 }
      ScaleZ := { Min := 1, Max := 1 } } 3 1 0
    (by norm_num [grassContext]) (by norm_num [grassContext]) (by norm_num [grassContext])).2.1

/-! ### Vegetation: first row and first column -/

theorem GenerateGrassDataForVertex_first (G : GrassContext) (YCoordinate VertexIndex X : Nat)
    (AdditionalData : FLandscapeAdditionalData) (n : Nat) (h : YCoordinate = 0 ∨ X = 0) :
    GenerateGrassDataForVertex G YCoordinate VertexIndex X AdditionalData n
      = some ({ GrassData := [] }, n) := by
  unfold GenerateGrassDataForVertex
  rw [if_pos h]
  rfl

/-- The call returns at a vertex of the first row or column, and at any other vertex
whose weights map has no null key with a weight above 1/5. -/
theorem GenerateGrassDataForVertex_returns (G : GrassContext) (YCoordinate VertexIndex X : Nat)
    (AdditionalData : FLandscapeAdditionalData) (n : Nat)
    (h : YCoordinate ≠ 0 → X ≠ 0 →
      ∀ e ∈ G.GroundTypeWeights X YCoordinate, 1 / 5 < e.2 → e.1 ≠ none) :
    ∃ r, GenerateGrassDataForVertex G YCoordinate VertexIndex X AdditionalData n = some r := by
  by_cases hfirst : YCoordinate = 0 ∨ X = 0
  · exact ⟨_, GenerateGrassDataForVertex_first G _ _ _ _ _ hfirst⟩
  · rw [not_or] at hfirst
    cases hr : GenerateGrassDataForVertex G YCoordinate VertexIndex X AdditionalData n with
    | some r => exact ⟨r, rfl⟩
    | none =>
      exfalso
      have hs : SelectGroundType (G.GroundTypeWeights X YCoordinate) GrassSelection.initial
          = none := by
        cases hs : SelectGroundType (G.GroundTypeWeights X YCoordinate)
            GrassSelection.initial with
        | none => rfl
        | some S1 =>
          unfold GenerateGrassDataForVertex at hr
          simp only [if_neg (not_or.mpr hfirst), hs] at hr
          split_ifs at hr
      obtain ⟨e, he, h1, h2⟩ := SelectGroundType_none _ _ hs
      exact h hfirst.1 hfirst.2 e he h2 h1

/-- The loop of `DoThreadedWork` after its first `k` passes. -/
theorem DoThreadedWork_loop (G : GrassContext) (YCoordinate StartIndex : Nat)
    (AdditionalData : List FLandscapeAdditionalData) (n : Nat) (k : Nat) :
    ∃ r : Option (List FLandscapeAdditionalData × Nat),
      (List.range k).foldl
        (fun (acc : Option (List FLandscapeAdditionalData × Nat) × Nat) X =>
          (match acc.1 with
            | none => none
            | some (Buffer, m) =>
              match Buffer[acc.2]? with
              | none => none
              | some Entry =>
                match GenerateGrassDataForVertex G YCoordinate acc.2 X Entry m with
                | none => none
                | some r => some (Buffer.set acc.2 r.1, r.2),
            acc.2 + 1))
        (some (AdditionalData, n), StartIndex) = (r, StartIndex + k) ∧
      (StartIndex + k ≤ AdditionalData.length →
        (∀ X, X < k → YCoordinate ≠ 0 → X ≠ 0 →
          ∀ e ∈ G.GroundTypeWeights X YCoordinate, 1 / 5 < e.2 → e.1 ≠ none) →
        r.isSome = true) ∧
      ∀ Buffer m, r = some (Buffer, m) →
        Buffer.length = AdditionalData.length ∧
        (∀ i, (i < StartIndex ∨ StartIndex + k ≤ i) → Buffer[i]? = AdditionalData[i]?) ∧
        (∀ X, X < k → ∃ Entry m1 res,
          GenerateGrassDataForVertex G YCoordinate (StartIndex + X) X Entry m1 = some res ∧
          Buffer[StartIndex + X]? = some res.1) := by
  induction k with
  | zero =>
    refine ⟨some (AdditionalData, n), rfl, fun _ _ => rfl, ?_⟩
    intro Buffer m h
    simp only [Option.some.injEq, Prod.mk.injEq] at h
    obtain ⟨rfl, rfl⟩ := h
    exact ⟨rfl, fun _ _ => rfl, fun X hX => absurd hX (Nat.not_lt_zero X)⟩
  | succ k ih =>
    obtain ⟨r, hr, hsome, hprop⟩ := ih
    rw [List.range_succ, List.foldl_append, hr]
    simp only [List.foldl_cons, List.foldl_nil]
    cases r with
    | none =>
      refine ⟨none, rfl, ?_, fun Buffer m h => by cases h⟩
      intro hlen hnn
      have := hsome (by omega) (fun X hX => hnn X (by omega))
      cases this
    | some p =>
      obtain ⟨Buffer, m⟩ := p
      obtain ⟨hl, hframe, hrow⟩ := hprop Buffer m rfl
      cases hget : Buffer[StartIndex + k]? with
      | none =>
        refine ⟨none, by simp only [hget]; rfl, ?_, fun B m1 h => by cases h⟩
        intro hlen _
        have hlt : StartIndex + k < Buffer.length := by omega
        rw [List.getElem?_eq_getElem hlt] at hget
        cases hget
      | some Entry =>
        have hlt : StartIndex + k < Buffer.length := by
          by_contra hc
          rw [List.getElem?_eq_none (by omega)] at hget
          cases hget
        cases hcall : GenerateGrassDataForVertex G YCoordinate (StartIndex + k) k Entry m with
        | none =>
          refine ⟨none, by simp only [hget, hcall]; rfl, ?_, fun B m1 h => by cases h⟩
          intro _ hnn
          obtain ⟨res, hres⟩ := GenerateGrassDataForVertex_returns G YCoordinate
            (StartIndex + k) k Entry m (hnn k (by omega))
          rw [hres] at hcall
          cases hcall
        | some res =>
          refine ⟨some (Buffer.set (StartIndex + k) res.1, res.2),
            by simp only [hget, hcall]; rfl, fun _ _ => rfl, ?_⟩
          intro B m1 h
          simp only [Option.some.injEq, Prod.mk.injEq] at h
          obtain ⟨rfl, rfl⟩ := h
          refine ⟨by rw [List.length_set, hl], ?_, ?_⟩
          · intro i hi
            rw [List.getElem?_set_ne (by omega)]
            exact hframe i (by omega)
          · intro X hX
            by_cases hXk : X = k
            · subst hXk
              refine ⟨Entry, m, res, hcall, ?_⟩
              rw [List.getElem?_set_self hlt]
            · obtain ⟨E, m2, res2, hE1, hE2⟩ := hrow X (by omega)
              refine ⟨E, m2, res2, hE1, ?_⟩
              rw [List.getElem?_set_ne (by omega)]
              exact hE2

/-- What one row worker does to the buffer array: it returns when its row lies inside
the array and no vertex of the row dereferences a null ground type; when it returns it
has kept the array length, left every entry outside its row alone and written each
entry of its row with `GenerateGrassDataForVertex`. -/
theorem DoThreadedWork_spec (G : GrassContext) (YCoordinate StartIndex : Nat)
    (AdditionalData : List FLandscapeAdditionalData) (n : Nat) :
    (StartIndex + (G.Landscape.ComponentResolutionX + 1) ≤ AdditionalData.length →
      (∀ X, X ≤ G.Landscape.ComponentResolutionX → YCoordinate ≠ 0 → X ≠ 0 →
        ∀ e ∈ G.GroundTypeWeights X YCoordinate, 1 / 5 < e.2 → e.1 ≠ none) →
      (DoThreadedWork G YCoordinate StartIndex AdditionalData n).isSome = true) ∧
    ∀ Buffer m, DoThreadedWork G YCoordinate StartIndex AdditionalData n = some (Buffer, m) →
      Buffer.length = AdditionalData.length ∧
      (∀ i, (i < StartIndex ∨ StartIndex + (G.Landscape.ComponentResolutionX + 1) ≤ i) →
        Buffer[i]? = AdditionalData[i]?) ∧
      (∀ X, X ≤ G.Landscape.ComponentResolutionX → ∃ Entry m1 res,
        GenerateGrassDataForVertex G YCoordinate (StartIndex + X) X Entry m1 = some res ∧
        Buffer[StartIndex + X]? = some res.1) := by
  obtain ⟨r, hr, hsome, hprop⟩ := DoThreadedWork_loop G YCoordinate StartIndex AdditionalData n
    (G.Landscape.ComponentResolutionX + 1)
  have hd : DoThreadedWork G YCoordinate StartIndex AdditionalData n = r := by
    unfold DoThreadedWork
    rw [hr]
  rw [hd]
  refine ⟨fun hlen hnn => hsome hlen (fun X hX => hnn X (by omega)), ?_⟩
  intro Buffer m h
  obtain ⟨a, b, c⟩ := hprop Buffer m h
  exact ⟨a, b, fun X hX => c X (by omega)⟩

/-- Every run of the row workers that returns has kept the array length and left the
entries of the first row and column empty: those of a processed row, and those that were
empty before. -/
theorem RunAdditionalDataWorkers_first (G : GrassContext) (Rows : List Nat) :
    ∀ (AdditionalData : List FLandscapeAdditionalData) (n : Nat)
      (Buffer : List FLandscapeAdditionalData) (m : Nat),
      RunAdditionalDataWorkers G Rows AdditionalData n = some (Buffer, m) →
      Buffer.length = AdditionalData.length ∧
      ∀ Y X, X ≤ G.Landscape.ComponentResolutionX → (Y = 0 ∨ X = 0) →
        (Y ∈ Rows ∨ AdditionalData[Y * (G.Landscape.ComponentResolutionX + 1) + X]?
            = some { GrassData := [] }) →
        Buffer[Y * (G.Landscape.ComponentResolutionX + 1) + X]? = some { GrassData := [] } := by
  induction Rows with
  | nil =>
    intro AdditionalData n Buffer m hrun
    simp only [RunAdditionalDataWorkers, Option.some.injEq, Prod.mk.injEq] at hrun
    obtain ⟨rfl, rfl⟩ := hrun
    refine ⟨rfl, ?_⟩
    intro Y X _ _ h
    rcases h with h | h
    · cases h
    · exact h
  | cons Y1 t ih =>
    intro AdditionalData n Buffer m hrun
    obtain ⟨-, hspec⟩ := DoThreadedWork_spec G Y1
      (Y1 * (G.Landscape.ComponentResolutionX + 1)) AdditionalData n
    cases hw : DoThreadedWork G Y1 (Y1 * (G.Landscape.ComponentResolutionX + 1)) AdditionalData n with
    | none =>
      simp only [RunAdditionalDataWorkers, hw] at hrun
      cases hrun
    | some p =>
      obtain ⟨B1, m1⟩ := p
      obtain ⟨hl1, hframe, hrow⟩ := hspec B1 m1 hw
      simp only [RunAdditionalDataWorkers, hw] at hrun
      obtain ⟨hl, hclr⟩ := ih B1 m1 Buffer m hrun
      refine ⟨by rw [hl, hl1], ?_⟩
      intro Y X hX hfirst hpre
      apply hclr Y X hX hfirst
      by_cases hYt : Y ∈ t
      · exact Or.inl hYt
      · right
        by_cases hYY : Y = Y1
        · subst hYY
          obtain ⟨Entry, m2, res, hE1, hE2⟩ := hrow X hX
          rw [GenerateGrassDataForVertex_first G Y _ X Entry m2 hfirst] at hE1
          simp only [Option.some.injEq] at hE1
          rw [hE2, ← hE1]
        · have hpre2 : AdditionalData[Y * (G.Landscape.ComponentResolutionX + 1) + X]?
              = some { GrassData := [] } := by
            rcases hpre with h | h
            · rcases List.mem_cons.mp h with h | h
              · exact absurd h hYY
              · exact absurd h hYt
            · exact h
          rw [hframe _ ?_]
          · exact hpre2
          · rcases Nat.lt_or_gt_of_ne hYY with hlt | hgt
            · left
              have h1 : (Y + 1) * (G.Landscape.ComponentResolutionX + 1)
                  ≤ Y1 * (G.Landscape.ComponentResolutionX + 1) := Nat.mul_le_mul_right _ hlt
              have e : (Y + 1) * (G.Landscape.ComponentResolutionX + 1)
                  = Y * (G.Landscape.ComponentResolutionX + 1)
                    + (G.Landscape.ComponentResolutionX + 1) := by ring
              omega
            · right
              have h1 : (Y1 + 1) * (G.Landscape.ComponentResolutionX + 1)
                  ≤ Y * (G.Landscape.ComponentResolutionX + 1) := Nat.mul_le_mul_right _ hgt
              have e : (Y1 + 1) * (G.Landscape.ComponentResolutionX + 1)
                  = Y1 * (G.Landscape.ComponentResolutionX + 1)
                    + (G.Landscape.ComponentResolutionX + 1) := by ring
              omega

/-- The row workers, run in any order on a buffer of (ResX+1)*(ResY+1) entries, all
return when no vertex outside the first row and column has a null ground type with a
weight above 1/5. -/
theorem RunAdditionalDataWorkers_returns (G : GrassContext) (Rows : List Nat) :
    ∀ (AdditionalData : List FLandscapeAdditionalData) (n : Nat),
      (∀ Y ∈ Rows, Y ≤ G.Landscape.ComponentResolutionY) →
      AdditionalData.length
        = (G.Landscape.ComponentResolutionX + 1) * (G.Landscape.ComponentResolutionY + 1) →
      (∀ Y ∈ Rows, ∀ X, X ≤ G.Landscape.ComponentResolutionX → Y ≠ 0 → X ≠ 0 →
        ∀ e ∈ G.GroundTypeWeights X Y, 1 / 5 < e.2 → e.1 ≠ none) →
      ∃ Buffer m, RunAdditionalDataWorkers G Rows AdditionalData n = some (Buffer, m) := by
  induction Rows with
  | nil =>
    intro AdditionalData n _ _ _
    exact ⟨AdditionalData, n, rfl⟩
  | cons Y1 t ih =>
    intro AdditionalData n hrows hlen hnn
    have hY1 : Y1 ≤ G.Landscape.ComponentResolutionY := hrows Y1 (List.mem_cons_self _ _)
    have hfit : Y1 * (G.Landscape.ComponentResolutionX + 1)
        + (G.Landscape.ComponentResolutionX + 1) ≤ AdditionalData.length := by
      rw [hlen]
      have h1 : (Y1 + 1) * (G.Landscape.ComponentResolutionX + 1)
          ≤ (G.Landscape.ComponentResolutionY + 1) * (G.Landscape.ComponentResolutionX + 1) :=
        Nat.mul_le_mul_right _ (by omega)
      have e : (Y1 + 1) * (G.Landscape.ComponentResolutionX + 1)
          = Y1 * (G.Landscape.ComponentResolutionX + 1) + (G.Landscape.ComponentResolutionX + 1) := by
        ring
      have c := Nat.mul_comm (G.Landscape.ComponentResolutionX + 1)
        (G.Landscape.ComponentResolutionY + 1)
      omega
    obtain ⟨hsome, hspec⟩ := DoThreadedWork_spec G Y1
      (Y1 * (G.Landscape.ComponentResolutionX + 1)) AdditionalData n
    cases hw : DoThreadedWork G Y1 (Y1 * (G.Landscape.ComponentResolutionX + 1)) AdditionalData n with
    | none =>
      have := hsome hfit (hnn Y1 (List.mem_cons_self _ _))
      rw [hw] at this
      cases this
    | some p =>
      obtain ⟨B1, m1⟩ := p
      obtain ⟨hl1, -, -⟩ := hspec B1 m1 hw
      obtain ⟨Buffer, m, hrun⟩ := ih B1 m1
        (fun Y hY => hrows Y (List.mem_cons_of_mem _ hY)) (by rw [hl1, hlen])
        (fun Y hY => hnn Y (List.mem_cons_of_mem _ hY))
      refine ⟨Buffer, m, ?_⟩
      simp only [RunAdditionalDataWorkers, hw]
      exact hrun

/-- C19. For every tile, a vertex with local X = 0 or in row Y = 0 gets empty vegetation
data: GenerateGrassDataForVertex returns, clears its entry and generates no instance
transform, whatever the ground-type weights (null ground types included), the height
bands and the previous content of the entry. For phase 2 as a whole, with the row workers
run in any order on a buffer with arbitrary content: every run that ends leaves every
entry with X = 0 or Y = 0 of a processed row empty; the worker of row 0 always ends; and
the whole run ends on a buffer of (ResX+1)*(ResY+1) entries when no vertex outside the
first row and column dereferences a null ground type. -/
theorem GenerateGrassDataForVertex_first_row_column (G : GrassContext) :
    (∀ (YCoordinate VertexIndex X : Nat) (AdditionalData : FLandscapeAdditionalData) (n : Nat),
      (YCoordinate = 0 ∨ X = 0) →
      GenerateGrassDataForVertex G YCoordinate VertexIndex X AdditionalData n
        = some ({ GrassData := [] }, n)) ∧
    (∀ (Rows : List Nat) (AdditionalData : List FLandscapeAdditionalData) (n : Nat)
        (Buffer : List FLandscapeAdditionalData) (m : Nat),
      RunAdditionalDataWorkers G Rows AdditionalData n = some (Buffer, m) →
      Buffer.length = AdditionalData.length ∧
      ∀ Y ∈ Rows, ∀ X, X ≤ G.Landscape.ComponentResolutionX → (Y = 0 ∨ X = 0) →
        Buffer[Y * (G.Landscape.ComponentResolutionX + 1) + X]? = some { GrassData := [] }) ∧
    (∀ (AdditionalData : List FLandscapeAdditionalData) (n : Nat),
      G.Landscape.ComponentResolutionX + 1 ≤ AdditionalData.length →
      ∃ Buffer m, RunAdditionalDataWorkers G [0] AdditionalData n = some (Buffer, m)) ∧
    (∀ (Rows : List Nat) (AdditionalData : List FLandscapeAdditionalData) (n : Nat),
      (∀ Y ∈ Rows, Y ≤ G.Landscape.ComponentResolutionY) →
      AdditionalData.length
        = (G.Landscape.ComponentResolutionX + 1) * (G.Landscape.ComponentResolutionY + 1) →
      (∀ Y ∈ Rows, ∀ X, X ≤ G.Landscape.ComponentResolutionX → Y ≠ 0 → X ≠ 0 →
        ∀ e ∈ G.GroundTypeWeights X Y, 1 / 5 < e.2 → e.1 ≠ none) →
      ∃ Buffer m, RunAdditionalDataWorkers G Rows AdditionalData n = some (Buffer, m) ∧
        Buffer.length = AdditionalData.length ∧
        ∀ Y ∈ Rows, ∀ X, X ≤ G.Landscape.ComponentResolutionX → (Y = 0 ∨ X = 0) →
          Buffer[Y * (G.Landscape.ComponentResolutionX + 1) + X]? = some { GrassData := [] }) := by
  have part : ∀ (Rows : List Nat) (AdditionalData : List FLandscapeAdditionalData) (n : Nat)
      (Buffer : List FLandscapeAdditionalData) (m : Nat),
      RunAdditionalDataWorkers G Rows AdditionalData n = some (Buffer, m) →
      Buffer.length = AdditionalData.length ∧
      ∀ Y ∈ Rows, ∀ X, X ≤ G.Landscape.ComponentResolutionX → (Y = 0 ∨ X = 0) →
        Buffer[Y * (G.Landscape.ComponentResolutionX + 1) + X]? = some { GrassData := [] } := by
    intro Rows AdditionalData n Buffer m hrun
    obtain ⟨hl, hclr⟩ := RunAdditionalDataWorkers_first G Rows AdditionalData n Buffer m hrun
    exact ⟨hl, fun Y hY X hX hfirst => hclr Y X hX hfirst (Or.inl hY)⟩
  refine ⟨GenerateGrassDataForVertex_first G, part, ?_, ?_⟩
  · intro AdditionalData n hlen
    obtain ⟨hsome, -⟩ := DoThreadedWork_spec G 0 (0 * (G.Landscape.ComponentResolutionX + 1))
      AdditionalData n
    have hs := hsome (by omega) (fun X _ h0 => absurd rfl h0)
    cases hw : DoThreadedWork G 0 (0 * (G.Landscape.ComponentResolutionX + 1)) AdditionalData n with
    | none =>
      rw [hw] at hs
      cases hs
    | some p =>
      exact ⟨p.1, p.2, by simp only [RunAdditionalDataWorkers, hw]⟩
  · intro Rows AdditionalData n hrows hlen hnn
    obtain ⟨Buffer, m, hrun⟩ := RunAdditionalDataWorkers_returns G Rows AdditionalData n hrows
      hlen hnn
    obtain ⟨hl, hclr⟩ := part Rows AdditionalData n Buffer m hrun
    exact ⟨Buffer, m, hrun, hl, hclr⟩

/-! ### Round shape: the three cases -/

/-- Offsets of a layer after `UpdateShape` for a smoothing distance that is not negative:
both are non-negative and their sum is at most the smoothing distance. -/
theorem UpdateShape_offsets_nonneg (T : FVector2D → FVector2D) (C0 : ULandscapeLayerComponent)
    (o : FVector2D) (hO : C0.Origin = some o) (hD : 0 ≤ C0.SmoothingDistance) :
    0 ≤ (UpdateShape T C0).BoundsSmoothingOffset ∧
    0 ≤ (UpdateShape T C0).InnerSmoothingOffset ∧
    (UpdateShape T C0).InnerSmoothingOffset + (UpdateShape T C0).BoundsSmoothingOffset
      ≤ C0.SmoothingDistance := by
  obtain ⟨_, hB, hI⟩ := UpdateShape_offsets_eq T C0 o hO
  rw [hI, hB]
  cases hdir : C0.SmoothingDirection <;> simp only []
  · refine ⟨le_refl _, Clamp_zero_nonneg _ _, ?_⟩
    have := Clamp_zero_le_self C0.SmoothingDistance (halfExtent C0 - 1 / 1000) hD
    linarith
  · refine ⟨hD, le_refl _, by linarith⟩
  · have h2 : 0 ≤ C0.SmoothingDistance * (1 / 2) := by linarith
    refine ⟨by linarith, Clamp_zero_nonneg _ _, ?_⟩
    have := Clamp_zero_le_self (C0.SmoothingDistance * (1 / 2)) (halfExtent C0 - 1 / 1000) h2
    linarith

/-- C27. Round layer with smoothing distance 0. For every radius (R >= 0 is not even
needed) and every direction, with the offsets computed by UpdateShape: both offsets are 0, the outer and the inner
squared radius are both R^2, so every point satisfies the first test (not affected) or
the second (factor 0); the function never reaches `check(SmoothingDistance > 0)` nor the
division by SmoothingDistance, whatever `Sqrt` is. -/
theorem TryCalculateSphereSmoothingFactor_zero_distance (Sqrt : ℚ → ℚ)
    (T : FVector2D → FVector2D) (C0 : ULandscapeLayerComponent) (o Location Origin : FVector2D)
    (hO : C0.Origin = some o) (hD : C0.SmoothingDistance = 0) :
    (UpdateShape T C0).BoundsSmoothingOffset = 0 ∧
    (UpdateShape T C0).InnerSmoothingOffset = 0 ∧
    (SizeSquared Location Origin ≥ C0.Radius * C0.Radius →
      TryCalculateSphereSmoothingFactor Sqrt (UpdateShape T C0) Location Origin = some none) ∧
    (SizeSquared Location Origin < C0.Radius * C0.Radius →
      TryCalculateSphereSmoothingFactor Sqrt (UpdateShape T C0) Location Origin
        = some (some 0)) ∧
    TryCalculateSphereSmoothingFactor Sqrt (UpdateShape T C0) Location Origin ≠ none := by
  obtain ⟨hRad, _, _⟩ := UpdateShape_offsets_eq T C0 o hO
  obtain ⟨hB, hI, hsum⟩ := UpdateShape_offsets_nonneg T C0 o hO (le_of_eq hD.symm)
  have hB0 : (UpdateShape T C0).BoundsSmoothingOffset = 0 := by linarith
  have hI0 : (UpdateShape T C0).InnerSmoothingOffset = 0 := by linarith
  have h1 : SizeSquared Location Origin ≥ C0.Radius * C0.Radius →
      TryCalculateSphereSmoothingFactor Sqrt (UpdateShape T C0) Location Origin = some none := by
    intro h
    unfold TryCalculateSphereSmoothingFactor
    simp only []
    rw [hRad, hB0, add_zero, if_pos h]
  have h2 : SizeSquared Location Origin < C0.Radius * C0.Radius →
      TryCalculateSphereSmoothingFactor Sqrt (UpdateShape T C0) Location Origin
        = some (some 0) := by
    intro h
    unfold TryCalculateSphereSmoothingFactor
    simp only []
    rw [hRad, hB0, hI0, add_zero, sub_zero, if_neg (not_le.mpr h), if_pos h]
  refine ⟨hB0, hI0, h1, h2, ?_⟩
  by_cases h : SizeSquared Location Origin ≥ C0.Radius * C0.Radius
  · rw [h1 h]
    simp
  · rw [h2 (not_le.mp h)]
    simp

/-- Witness for C27: radius 100, smoothing distance 0, direction Center, the point (54, 72)
at distance 90; the square root function is the constant 0, it is never consulted. -/
theorem TryCalculateSphereSmoothingFactor_zero_distance_witness :
    (UpdateShape id { roundLayer with SmoothingDistance := 0 }).BoundsSmoothingOffset = 0 ∧
    (UpdateShape id { roundLayer with SmoothingDistance := 0 }).InnerSmoothingOffset = 0 ∧
    (SizeSquared { X := 54, Y := 72 } { X := 0, Y := 0 } ≥ (100 : ℚ) * 100 →
      TryCalculateSphereSmoothingFactor (fun _ => 0)
        (UpdateShape id { roundLayer with SmoothingDistance := 0 })
        { X := 54, Y := 72 } { X := 0, Y := 0 } = some none) ∧
    (SizeSquared { X := 54, Y := 72 } { X := 0, Y := 0 } < (100 : ℚ) * 100 →
      TryCalculateSphereSmoothingFactor (fun _ => 0)
        (UpdateShape id { roundLayer with SmoothingDistance := 0 })
        { X := 54, Y := 72 } { X := 0, Y := 0 } = some (some 0)) ∧
    TryCalculateSphereSmoothingFactor (fun _ => 0)
        (UpdateShape id { roundLayer with SmoothingDistance := 0 })
        { X := 54, Y := 72 } { X := 0, Y := 0 } ≠ none :=
  TryCalculateSphereSmoothingFactor_zero_distance (fun _ => 0) id
    { roundLayer with SmoothingDistance := 0 } { X := 0, Y := 0 } { X := 54, Y := 72 }
    { X := 0, Y := 0 } rfl rfl

/-! ### Box shape -/

theorem ComputeSquaredDistanceToPoint_nonneg (Box : FBox2D) (P : FVector2D) :
    0 ≤ ComputeSquaredDistanceToPoint Box P := by
  unfold ComputeSquaredDistanceToPoint
  apply add_nonneg <;> split_ifs <;> first | exact mul_self_nonneg _ | exact le_refl _

theorem ComputeSquaredDistanceToPoint_eq_zero_iff (Box : FBox2D) (P : FVector2D) :
    ComputeSquaredDistanceToPoint Box P = 0 ↔
      (Box.Min.X ≤ P.X ∧ P.X ≤ Box.Max.X) ∧ (Box.Min.Y ≤ P.Y ∧ P.Y ≤ Box.Max.Y) := by
  have axis : ∀ (p lo hi : ℚ),
      0 ≤ (if p < lo then (p - lo) * (p - lo) else if p > hi then (p - hi) * (p - hi) else 0) ∧
      ((if p < lo then (p - lo) * (p - lo) else if p > hi then (p - hi) * (p - hi) else 0) = 0
        ↔ lo ≤ p ∧ p ≤ hi) := by
    intro p lo hi
    split_ifs with h1 h2
    · refine ⟨mul_self_nonneg _, ?_⟩
      constructor
      · intro h
        have := mul_self_eq_zero.mp h
        linarith
      · intro h
        linarith [h.1]
    · refine ⟨mul_self_nonneg _, ?_⟩
      constructor
      · intro h
        have := mul_self_eq_zero.mp h
        linarith
      · intro h
        linarith [h.2]
    · exact ⟨le_refl _, by simp only [true_iff]; exact ⟨not_lt.mp h1, not_lt.mp h2⟩⟩
  unfold ComputeSquaredDistanceToPoint
  obtain ⟨hx0, hx⟩ := axis P.X Box.Min.X Box.Max.X
  obtain ⟨hy0, hy⟩ := axis P.Y Box.Min.Y Box.Max.Y
  rw [← hx, ← hy]
  constructor
  · intro h
    constructor <;> linarith
  · intro h
    rw [h.1, h.2, add_zero]

/-- The box function never takes the branch with the zero divisor: it returns false when
the squared distance reaches the squared smoothing distance and the quotient otherwise
(which is 0 at squared distance 0). -/
theorem TryCalculateBoxSmoothingFactor_eq (Inv : FVector2D → FVector2D)
    (C : ULandscapeLayerComponent) (Location Origin : FVector2D) :
    TryCalculateBoxSmoothingFactor Inv C Location Origin
      = if ComputeSquaredDistanceToPoint C.InnerBox (BoxLocalPoint Inv Location Origin)
            ≥ C.SmoothingDistance * C.SmoothingDistance then some none
        else some (some (ComputeSquaredDistanceToPoint C.InnerBox
          (BoxLocalPoint Inv Location Origin) / (C.SmoothingDistance * C.SmoothingDistance))) := by
  have h0 := ComputeSquaredDistanceToPoint_nonneg C.InnerBox (BoxLocalPoint Inv Location Origin)
  unfold TryCalculateBoxSmoothingFactor
  simp only []
  by_cases h1 : ComputeSquaredDistanceToPoint C.InnerBox (BoxLocalPoint Inv Location Origin)
      ≥ C.SmoothingDistance * C.SmoothingDistance
  · rw [if_pos h1, if_pos h1]
  · rw [if_neg h1, if_neg h1]
    by_cases h2 : ComputeSquaredDistanceToPoint C.InnerBox (BoxLocalPoint Inv Location Origin) = 0
    · rw [if_pos h2, h2, zero_div]
    · rw [if_neg h2, if_neg]
      intro h3
      rw [h3] at h1
      exact h1 h0

/-- C22. Box-shape factor. For a box layer with smoothing distance D > 0 and s the squared
distance from the layer-local point to the inner box: s >= 0; the function reports not
affected exactly when s >= D^2; otherwise it returns the factor s / D^2, which lies in
[0, 1); and the quotient s / D^2 is 0 exactly for the points inside or on the inner
box. -/
theorem TryCalculateBoxSmoothingFactor_factor (Inv : FVector2D → FVector2D)
    (C : ULandscapeLayerComponent) (Location Origin : FVector2D)
    (hD : 0 < C.SmoothingDistance) :
    0 ≤ ComputeSquaredDistanceToPoint C.InnerBox (BoxLocalPoint Inv Location Origin) ∧
    (TryCalculateBoxSmoothingFactor Inv C Location Origin = some none ↔
      ComputeSquaredDistanceToPoint C.InnerBox (BoxLocalPoint Inv Location Origin)
        ≥ C.SmoothingDistance * C.SmoothingDistance) ∧
    (ComputeSquaredDistanceToPoint C.InnerBox (BoxLocalPoint Inv Location Origin)
        < C.SmoothingDistance * C.SmoothingDistance →
      TryCalculateBoxSmoothingFactor Inv C Location Origin
        = some (some (ComputeSquaredDistanceToPoint C.InnerBox
            (BoxLocalPoint Inv Location Origin) / (C.SmoothingDistance * C.SmoothingDistance))) ∧
      0 ≤ ComputeSquaredDistanceToPoint C.InnerBox (BoxLocalPoint Inv Location Origin)
          / (C.SmoothingDistance * C.SmoothingDistance) ∧
      ComputeSquaredDistanceToPoint C.InnerBox (BoxLocalPoint Inv Location Origin)
          / (C.SmoothingDistance * C.SmoothingDistance) < 1) ∧
    (ComputeSquaredDistanceToPoint C.InnerBox (BoxLocalPoint Inv Location Origin)
        / (C.SmoothingDistance * C.SmoothingDistance) = 0 ↔
      (C.InnerBox.Min.X ≤ (BoxLocalPoint Inv Location Origin).X ∧
        (BoxLocalPoint Inv Location Origin).X ≤ C.InnerBox.Max.X) ∧
      (C.InnerBox.Min.Y ≤ (BoxLocalPoint Inv Location Origin).Y ∧
        (BoxLocalPoint Inv Location Origin).Y ≤ C.InnerBox.Max.Y)) := by
  have h0 := ComputeSquaredDistanceToPoint_nonneg C.InnerBox (BoxLocalPoint Inv Location Origin)
  have hDD : 0 < C.SmoothingDistance * C.SmoothingDistance := mul_pos hD hD
  have heq := TryCalculateBoxSmoothingFactor_eq Inv C Location Origin
  refine ⟨h0, ⟨?_, ?_⟩, ?_, ?_⟩
  · intro h
    by_contra hc
    rw [heq, if_neg hc] at h
    cases h
  · intro h
    rw [heq, if_pos h]
  · intro h
    rw [heq, if_neg (not_le.mpr h)]
    exact ⟨rfl, div_nonneg h0 hDD.le, (div_lt_one hDD).mpr h⟩
  · rw [div_eq_zero_iff, ← ComputeSquaredDistanceToPoint_eq_zero_iff]
    constructor
    · rintro (h | h)
      · exact h
      · exact absurd h hDD.ne'
    · intro h
      exact Or.inl h

/-- Witness for C22: the box layer with extent 100 x 100 and smoothing distance 50,
direction Outwards, and the point (120, 0), 20 units outside the inner box: the factor is
400 / 2500. -/
theorem TryCalculateBoxSmoothingFactor_factor_witness :
    TryCalculateBoxSmoothingFactor id (UpdateShape id (boxLayer 50)) { X := 120, Y := 0 }
        { X := 0, Y := 0 } = some (some (4 / 25)) ∧
    (ComputeSquaredDistanceToPoint (UpdateShape id (boxLayer 50)).InnerBox
        (BoxLocalPoint id { X := 120, Y := 0 } { X := 0, Y := 0 })
        < (UpdateShape id (boxLayer 50)).SmoothingDistance
          * (UpdateShape id (boxLayer 50)).SmoothingDistance →
      TryCalculateBoxSmoothingFactor id (UpdateShape id (boxLayer 50)) { X := 120, Y := 0 }
          { X := 0, Y := 0 }
        = some (some (ComputeSquaredDistanceToPoint (UpdateShape id (boxLayer 50)).InnerBox
            (BoxLocalPoint id { X := 120, Y := 0 } { X := 0, Y := 0 })
            / ((UpdateShape id (boxLayer 50)).SmoothingDistance
              * (UpdateShape id (boxLayer 50)).SmoothingDistance))) ∧
      0 ≤ ComputeSquaredDistanceToPoint (UpdateShape id (boxLayer 50)).InnerBox
            (BoxLocalPoint id { X := 120, Y := 0 } { X := 0, Y := 0 })
          / ((UpdateShape id (boxLayer 50)).SmoothingDistance
            * (UpdateShape id (boxLayer 50)).SmoothingDistance) ∧
      ComputeSquaredDistanceToPoint (UpdateShape id (boxLayer 50)).InnerBox
            (BoxLocalPoint id { X := 120, Y := 0 } { X := 0, Y := 0 })
          / ((UpdateShape id (boxLayer 50)).SmoothingDistance
            * (UpdateShape id (boxLayer 50)).SmoothingDistance) < 1) :=
  ⟨by
      have hne : ¬ ELayerShape.HS_Box = ELayerShape.HS_Round := by decide
      norm_num [TryCalculateBoxSmoothingFactor, ComputeSquaredDistanceToPoint, BoxLocalPoint,
        UpdateShape, boxLayer, hne],
    (TryCalculateBoxSmoothingFactor_factor id (UpdateShape id (boxLayer 50)) { X := 120, Y := 0 }
      { X := 0, Y := 0 } (by
        have hne : ¬ ELayerShape.HS_Box = ELayerShape.HS_Round := by decide
        norm_num [UpdateShape, boxLayer, hne])).2.2.1⟩

/-- C28. The box path never divides by zero. For every layer and point the function
returns normally; the division by D^2 sits behind the tests `s >= D^2` (failed) and
`s == 0` (failed), which force 0 < s < D^2 and so D different from 0. Consequently a box
layer with D = 0 reports every point as not affected, a point inside its inner box
included, and `ApplyLayerData` leaves every vertex as it was, whatever the effects. -/
theorem TryCalculateBoxSmoothingFactor_no_zero_division :
    (∀ (Inv : FVector2D → FVector2D) (C : ULandscapeLayerComponent) (Location Origin : FVector2D),
      TryCalculateBoxSmoothingFactor Inv C Location Origin ≠ none ∧
      (¬ ComputeSquaredDistanceToPoint C.InnerBox (BoxLocalPoint Inv Location Origin)
          ≥ C.SmoothingDistance * C.SmoothingDistance →
        ComputeSquaredDistanceToPoint C.InnerBox (BoxLocalPoint Inv Location Origin) ≠ 0 →
        0 < ComputeSquaredDistanceToPoint C.InnerBox (BoxLocalPoint Inv Location Origin) ∧
        ComputeSquaredDistanceToPoint C.InnerBox (BoxLocalPoint Inv Location Origin)
          < C.SmoothingDistance * C.SmoothingDistance ∧
        C.SmoothingDistance ≠ 0 ∧ C.SmoothingDistance * C.SmoothingDistance ≠ 0) ∧
      (C.SmoothingDistance = 0 →
        TryCalculateBoxSmoothingFactor Inv C Location Origin = some none)) ∧
    (∀ (σ : Type) (Sqrt : ℚ → ℚ) (Inv : FVector2D → FVector2D) (C : ULandscapeLayerComponent)
        (o : FVector2D) (Layers : List (ℚ → σ → σ)) (VertexLocation : FVector2D) (Vertex : σ),
      C.Shape = .HS_Box → C.Origin = some o → C.SmoothingDistance = 0 →
      ApplyLayerData Sqrt Inv C Layers VertexLocation Vertex = some Vertex) ∧
    ((UpdateShape id (boxLayer 0)).InnerBox.Min.X ≤ 20 ∧
      (20 : ℚ) ≤ (UpdateShape id (boxLayer 0)).InnerBox.Max.X ∧
      (UpdateShape id (boxLayer 0)).InnerBox.Min.Y ≤ 0 ∧
      (0 : ℚ) ≤ (UpdateShape id (boxLayer 0)).InnerBox.Max.Y ∧
      TryCalculateBoxSmoothingFactor id (UpdateShape id (boxLayer 0)) { X := 20, Y := 0 }
        { X := 0, Y := 0 } = some none) := by
  have zero : ∀ (Inv : FVector2D → FVector2D) (C : ULandscapeLayerComponent)
      (Location Origin : FVector2D), C.SmoothingDistance = 0 →
      TryCalculateBoxSmoothingFactor Inv C Location Origin = some none := by
    intro Inv C Location Origin hD
    rw [TryCalculateBoxSmoothingFactor_eq, if_pos]
    rw [hD, mul_zero]
    exact ComputeSquaredDistanceToPoint_nonneg _ _
  refine ⟨?_, ?_, ?_⟩
  · intro Inv C Location Origin
    have h0 := ComputeSquaredDistanceToPoint_nonneg C.InnerBox (BoxLocalPoint Inv Location Origin)
    refine ⟨?_, ?_, zero Inv C Location Origin⟩
    · rw [TryCalculateBoxSmoothingFactor_eq]
      split_ifs <;> simp
    · intro h1 h2
      have hpos := lt_of_le_of_ne h0 (Ne.symm h2)
      have hlt := not_le.mp h1
      have hDD : C.SmoothingDistance * C.SmoothingDistance ≠ 0 := by
        intro h
        rw [h] at hlt
        linarith
      exact ⟨hpos, hlt, fun h => hDD (by rw [h, mul_zero]), hDD⟩
  · intro σ Sqrt Inv C o Layers VertexLocation Vertex hShape hO hD
    unfold ApplyLayerData
    split_ifs with h
    · have : TryCalculateSmoothingFactor Sqrt Inv C VertexLocation = some none := by
        unfold TryCalculateSmoothingFactor
        rw [hO, hShape]
        exact zero Inv C VertexLocation o hD
      rw [this]
    · rfl
  · have hne : ¬ ELayerShape.HS_Box = ELayerShape.HS_Round := by decide
    norm_num [TryCalculateBoxSmoothingFactor, ComputeSquaredDistanceToPoint, BoxLocalPoint,
      UpdateShape, boxLayer, hne]

/-! ### Vertex coordinates within a tile -/

theorem flatMap_filter_map {α β γ : Type} (l : List α) (p : α → Bool) (g : α → β)
    (f : β → List γ) :
    ((l.filter p).map g).flatMap f = l.flatMap (fun x => if p x then f (g x) else []) := by
  induction l with
  | nil => rfl
  | cons a t ih =>
    by_cases h : p a
    · simp [List.filter_cons, h, ih]
    · simp [List.filter_cons, h, ih]

theorem GenerateTriangleArray_some_eq_reference (L : ARuntimeLandscape) (Holes : Finset Nat) :
    GenerateTriangleArray L (some Holes)
      = triangleListReference L.ComponentResolutionY L.ComponentResolutionX Holes := by
  unfold GenerateTriangleArray triangleListReference quadsWithoutHole
  rw [List.flatMap_assoc]
  congr 1
  funext Y
  rw [flatMap_filter_map]
  congr 1
  funext X
  have h := quadIsSkipped_some L.ComponentResolutionX Holes X Y
  simp only [quadIndices]
  simp only [← add_assoc]
  rw [h]
  cases quadTouchesHole L.ComponentResolutionX Holes X Y <;> rfl

theorem length_quadsWithoutHole (R C : Nat) (Holes : Finset Nat) :
    (quadsWithoutHole R C Holes).length + holeQuadCount R C Holes = R * C := by
  unfold quadsWithoutHole holeQuadCount
  induction R with
  | zero => simp
  | succ n ih =>
    rw [List.range_succ, List.flatMap_append, List.length_append, List.map_append,
      List.sum_append]
    simp only [List.flatMap_cons, List.flatMap_nil, List.append_nil, List.length_map,
      List.map_cons, List.map_nil, List.sum_cons, List.sum_nil, add_zero]
    have h : ((List.range C).filter (fun x => !quadTouchesHole C Holes x n)).length
        + ((List.range C).filter (fun x => quadTouchesHole C Holes x n)).length = C := by
      have := @List.length_eq_length_filter_add Nat (List.range C)
        (fun x => quadTouchesHole C Holes x n)
      rw [List.length_range] at this
      omega
    have e : (n + 1) * C = n * C + C := by ring
    omega

/-- C24. Triangle list reference definition. For every resolution R x C (R rows, C
columns) and every hole set H, GenerateTriangleArray returns exactly the concatenation,
over the quads (x, y) in row-major order that have no corner in H, of the six indices
T1,T2,T3,T3,T2,T4 with T1 = y*(C+1)+x, T2 = T1+(C+1), T3 = T1+1, T4 = T2+1. With q the
number of quads with a hole corner, the quads kept number R*C - q and the list has
6*(R*C - q) entries; without holes (null hole pointer or empty set) it has 6*R*C. -/
theorem GenerateTriangleArray_reference (L : ARuntimeLandscape) (Holes : Finset Nat) :
    GenerateTriangleArray L (some Holes)
      = triangleListReference L.ComponentResolutionY L.ComponentResolutionX Holes ∧
    GenerateTriangleArray L none
      = triangleListReference L.ComponentResolutionY L.ComponentResolutionX ∅ ∧
    (quadsWithoutHole L.ComponentResolutionY L.ComponentResolutionX Holes).length
      = L.ComponentResolutionY * L.ComponentResolutionX
          - holeQuadCount L.ComponentResolutionY L.ComponentResolutionX Holes ∧
    (GenerateTriangleArray L (some Holes)).length
      = 6 * (L.ComponentResolutionY * L.ComponentResolutionX
          - holeQuadCount L.ComponentResolutionY L.ComponentResolutionX Holes) ∧
    (GenerateTriangleArray L none).length
      = 6 * L.ComponentResolutionY * L.ComponentResolutionX ∧
    (GenerateTriangleArray L (some ∅)).length
      = 6 * L.ComponentResolutionY * L.ComponentResolutionX := by
  have h1 := GenerateTriangleArray_length_some L Holes
  have h2 := holeQuadCount_le L.ComponentResolutionY L.ComponentResolutionX Holes
  have h3 := length_quadsWithoutHole L.ComponentResolutionY L.ComponentResolutionX Holes
  have h4 := GenerateTriangleArray_length_some L ∅
  have h5 : holeQuadCount L.ComponentResolutionY L.ComponentResolutionX ∅ = 0 := by
    unfold holeQuadCount
    simp [quadTouchesHole, quadCorners]
  have h6 : (GenerateTriangleArray L (some ∅)).length
      = 6 * L.ComponentResolutionY * L.ComponentResolutionX := by
    rw [h5] at h4
    rw [mul_assoc]
    omega
  refine ⟨GenerateTriangleArray_some_eq_reference L Holes, ?_, by omega, by omega, ?_, h6⟩
  · rw [GenerateTriangleArray_none_eq_empty, GenerateTriangleArray_some_eq_reference]
  · rw [GenerateTriangleArray_none_eq_empty, h6]

/-! ### Taking the next tile from the queue -/

/-- C25. LIFO pop. When a job finishes (a tick in state BuildAdditionalData with no
active runner) the tile is finished and RebuildNextInQueue runs. With an empty queue the
manager goes idle: no current tile, polling disabled, nothing else changed. Otherwise the
new current tile is the last element of the queue, exactly that element is removed and
the order of the others is unchanged (queue = rest ++ [last] becomes rest). The last
element is the most recently appended tile: a tile queued while the manager is busy and
not yet in the queue is the next one taken. -/
theorem RebuildNextInQueue_takes_last (ctx : RebuildContext)
    (M : URuntimeLandscapeRebuildManager) :
    (M.RebuildQueue = [] →
      RebuildNextInQueue ctx M = { M with CurrentComponent := none, TickEnabled := false }) ∧
    (∀ (Rest : List Nat) (Last : Nat), M.RebuildQueue = Rest ++ [Last] →
      (RebuildNextInQueue ctx M).CurrentComponent = some Last ∧
      (RebuildNextInQueue ctx M).RebuildQueue = Rest) ∧
    (∀ B : Nat, M.DataBuffer.RebuildState = .RLRS_BuildAdditionalData → M.ActiveRunners < 1 →
      M.CurrentComponent = some B →
      TickComponent ctx M
        = some (RebuildNextInQueue ctx { M with FinishedRebuilds := M.FinishedRebuilds ++ [B] })) ∧
    (∀ B Tile : Nat, M.CurrentComponent = some B → Tile ∉ M.RebuildQueue →
      (QueueRebuild ctx M Tile).RebuildQueue = M.RebuildQueue ++ [Tile] ∧
      (RebuildNextInQueue ctx (QueueRebuild ctx M Tile)).CurrentComponent = some Tile ∧
      (RebuildNextInQueue ctx (QueueRebuild ctx M Tile)).RebuildQueue = M.RebuildQueue) := by
  have pop : ∀ (M0 : URuntimeLandscapeRebuildManager) (Rest : List Nat) (Last : Nat),
      M0.RebuildQueue = Rest ++ [Last] →
      (RebuildNextInQueue ctx M0).CurrentComponent = some Last ∧
      (RebuildNextInQueue ctx M0).RebuildQueue = Rest := by
    intro M0 Rest Last hq
    obtain ⟨h1, h2, -⟩ := RebuildNextInQueue_queue ctx M0
    rw [h1, h2, hq]
    exact ⟨List.getLast?_concat _, List.dropLast_concat⟩
  refine ⟨?_, pop M, ?_, ?_⟩
  · intro hq
    unfold RebuildNextInQueue
    rw [hq]
    rfl
  · intro B hs hr hc
    unfold TickComponent
    rw [if_pos hr, hs]
    simp only []
    rw [hc]
  · intro B Tile hc hnot
    have hq : (QueueRebuild ctx M Tile).RebuildQueue = M.RebuildQueue ++ [Tile] := by
      rw [QueueRebuild_busy ctx M Tile B hc]
      exact AddUnique_of_not_mem _ _ hnot
    exact ⟨hq, pop _ _ _ hq⟩

/-! ### The count assertion of the area query -/

theorem FloorToInt_mono {a b : ℚ} (h : a ≤ b) : FloorToInt a ≤ FloorToInt b :=
  Int.floor_mono h

/-- The clamped ranges of a well-formed box that is not rejected are non-empty as soon as
the lower corner of the box lies strictly before the far edges of the landscape. -/
theorem Area_ranges_nonempty (L : ARuntimeLandscape) (Area : FBox2D)
    (hS : 0 < L.ComponentSize)
    (hW : 1 ≤ L.ComponentAmount.X) (hH : 1 ≤ L.ComponentAmount.Y)
    (hX : Area.Min.X ≤ Area.Max.X) (hY : Area.Min.Y ≤ Area.Max.Y)
    (hrej : ¬ AreaIsRejected L Area)
    (hfarX : Area.Min.X - L.StartLocation.X < (L.ComponentAmount.X : ℚ) * L.ComponentSize)
    (hfarY : Area.Min.Y - L.StartLocation.Y < (L.ComponentAmount.Y : ℚ) * L.ComponentSize) :
    AreaMinColumn L Area ≤ AreaMaxColumn L Area ∧ AreaMinRow L Area ≤ AreaMaxRow L Area := by
  unfold AreaIsRejected at hrej
  push_neg at hrej
  obtain ⟨-, -, h3, h4⟩ := hrej
  have axis : ∀ (lo hi : ℚ) (n : Int), 1 ≤ n → lo ≤ hi → 0 ≤ hi →
      lo < (n : ℚ) * L.ComponentSize →
      max (FloorToInt (lo / L.ComponentSize)) 0
        ≤ min (FloorToInt (hi / L.ComponentSize)) (n - 1) := by
    intro lo hi n hn hle h0 hfar
    have h1 : FloorToInt (lo / L.ComponentSize) ≤ FloorToInt (hi / L.ComponentSize) :=
      FloorToInt_mono (div_le_div_of_nonneg_right hle hS.le)
    have h2 : FloorToInt (lo / L.ComponentSize) ≤ n - 1 := by
      rw [floor_div_le_iff _ _ _ hS]
      push_cast
      linarith
    have h5 : (0 : Int) ≤ FloorToInt (hi / L.ComponentSize) := by
      rw [le_floor_div_iff _ _ _ hS]
      push_cast
      linarith
    exact max_le (le_min h1 h2) (le_min h5 (by omega))
  unfold AreaMinColumn AreaMaxColumn AreaMinRow AreaMaxRow
  exact ⟨axis _ _ _ hW (by linarith) (by linarith) hfarX,
    axis _ _ _ hH (by linarith) (by linarith) hfarY⟩

/-- C29. The count assertion of the area query. On a landscape with LandscapeSize =
ComponentAmount * ComponentSize, a well-formed box that passes the rejection test and
whose lower corner lies strictly before the far edges (Min - origin < ComponentAmount *
ComponentSize on both axes) has non-empty clamped ranges, ExpectedAmount > 0, and a
non-empty result. The rejection test itself only excludes Min > origin + LandscapeSize:
on the 2 x 2 grid of tiles of size 100 the box [200, 250] x [0, 50] is well formed and
not rejected, but MinColumn = 2 > MaxColumn = 1, ExpectedAmount = 0, the
`ensure(ExpectedAmount > 0)` fails and the result is empty. -/
theorem GetComponentsInArea_expected_amount :
    (∀ (L : ARuntimeLandscape) (Area : FBox2D), 0 < L.ComponentSize →
      1 ≤ L.ComponentAmount.X → 1 ≤ L.ComponentAmount.Y →
      L.LandscapeSize.X = (L.ComponentAmount.X : ℚ) * L.ComponentSize →
      L.LandscapeSize.Y = (L.ComponentAmount.Y : ℚ) * L.ComponentSize →
      Area.Min.X ≤ Area.Max.X → Area.Min.Y ≤ Area.Max.Y → ¬ AreaIsRejected L Area →
      Area.Min.X - L.StartLocation.X < (L.ComponentAmount.X : ℚ) * L.ComponentSize →
      Area.Min.Y - L.StartLocation.Y < (L.ComponentAmount.Y : ℚ) * L.ComponentSize →
      AreaMinColumn L Area ≤ AreaMaxColumn L Area ∧ AreaMinRow L Area ≤ AreaMaxRow L Area ∧
      (AreaMaxColumn L Area - AreaMinColumn L Area + 1)
        * (AreaMaxRow L Area - AreaMinRow L Area + 1) > 0 ∧
      ∃ r, GetComponentsInArea L Area = some r ∧ r ≠ []) ∧
    (grid2x2.LandscapeSize.X = (grid2x2.ComponentAmount.X : ℚ) * grid2x2.ComponentSize ∧
      grid2x2.LandscapeSize.Y = (grid2x2.ComponentAmount.Y : ℚ) * grid2x2.ComponentSize ∧
      farEdgeBox.Min.X ≤ farEdgeBox.Max.X ∧ farEdgeBox.Min.Y ≤ farEdgeBox.Max.Y ∧
      ¬ AreaIsRejected grid2x2 farEdgeBox ∧
      AreaMinColumn grid2x2 farEdgeBox = 2 ∧ AreaMaxColumn grid2x2 farEdgeBox = 1 ∧
      (AreaMaxColumn grid2x2 farEdgeBox - AreaMinColumn grid2x2 farEdgeBox + 1)
        * (AreaMaxRow grid2x2 farEdgeBox - AreaMinRow grid2x2 farEdgeBox + 1) = 0 ∧
      GetComponentsInArea grid2x2 farEdgeBox = some []) := by
  constructor
  · intro L Area hS hW hH _ _ hX hY hrej hfarX hfarY
    obtain ⟨hc, hr⟩ := Area_ranges_nonempty L Area hS hW hH hX hY hrej hfarX hfarY
    obtain ⟨hres, hlen⟩ := GetComponentsInArea_unfold L Area hrej hc hr
    have hpos : (AreaMaxColumn L Area - AreaMinColumn L Area + 1)
        * (AreaMaxRow L Area - AreaMinRow L Area + 1) > 0 :=
      mul_pos (by omega) (by omega)
    refine ⟨hc, hr, hpos, _, hres, ?_⟩
    intro hnil
    rw [hnil] at hlen
    simp only [List.length_nil, Nat.cast_zero] at hlen
    omega
  · have f2 : FloorToInt ((200 : ℚ) / 100) = 2 := by
      unfold FloorToInt
      rw [Int.floor_eq_iff]
      norm_num
    have f25 : FloorToInt ((250 : ℚ) / 100) = 2 := by
      unfold FloorToInt
      rw [Int.floor_eq_iff]
      norm_num
    have f0 : FloorToInt ((0 : ℚ) / 100) = 0 := by
      unfold FloorToInt
      rw [Int.floor_eq_iff]
      norm_num
    have f05 : FloorToInt ((50 : ℚ) / 100) = 0 := by
      unfold FloorToInt
      rw [Int.floor_eq_iff]
      norm_num
    have hminc : AreaMinColumn grid2x2 farEdgeBox = 2 := by
      simp only [AreaMinColumn, grid2x2, farEdgeBox, sub_zero, f2]
      decide
    have hmaxc : AreaMaxColumn grid2x2 farEdgeBox = 1 := by
      simp only [AreaMaxColumn, grid2x2, farEdgeBox, sub_zero, f25]
      decide
    have hminr : AreaMinRow grid2x2 farEdgeBox = 0 := by
      simp only [AreaMinRow, grid2x2, farEdgeBox, sub_zero, f0]
      decide
    have hmaxr : AreaMaxRow grid2x2 farEdgeBox = 0 := by
      simp only [AreaMaxRow, grid2x2, farEdgeBox, sub_zero, f05]
      decide
    refine ⟨by norm_num [grid2x2], by norm_num [grid2x2], by norm_num [farEdgeBox],
      by norm_num [farEdgeBox], by norm_num [AreaIsRejected, grid2x2, farEdgeBox],
      hminc, hmaxc, ?_, ?_⟩
    · rw [hminc, hmaxc, hminr, hmaxr]
      decide
    · unfold GetComponentsInArea
      simp only [grid2x2, farEdgeBox, sub_zero, f2, f25, f0, f05]
      norm_num

/-! ### Ground-type weights and colour channels -/

theorem TMapFind_TMapAdd_self {κ ν : Type} [DecidableEq κ] (Map : List (κ × ν)) (Key : κ)
    (Value : ν) : TMapFind (TMapAdd Map Key Value) Key = some Value := by
  induction Map with
  | nil => simp [TMapAdd, TMapFind]
  | cons p Rest ih =>
    unfold TMapAdd
    by_cases h : p.1 = Key
    · rw [if_pos h]
      simp [TMapFind]
    · rw [if_neg h]
      unfold TMapFind
      rw [if_neg h]
      exact ih

theorem TMapFind_TMapAdd_ne {κ ν : Type} [DecidableEq κ] (Map : List (κ × ν)) (Key Other : κ)
    (Value : ν) (hne : Other ≠ Key) :
    TMapFind (TMapAdd Map Key Value) Other = TMapFind Map Other := by
  induction Map with
  | nil =>
    simp only [TMapAdd, TMapFind]
    rw [if_neg (fun h => hne h.symm)]
  | cons p Rest ih =>
    unfold TMapAdd
    by_cases h : p.1 = Key
    · rw [if_pos h]
      unfold TMapFind
      rw [if_neg (fun h2 : Key = Other => hne h2.symm), if_neg (fun h2 => hne (h2.symm.trans h))]
    · rw [if_neg h]
      unfold TMapFind
      by_cases h2 : p.1 = Other
      · rw [if_pos h2, if_pos h2]
      · rw [if_neg h2, if_neg h2]
        exact ih

theorem mem_TMapAdd {κ ν : Type} [DecidableEq κ] (Map : List (κ × ν)) (Key : κ) (Value : ν)
    (p : κ × ν) (hp : p ∈ TMapAdd Map Key Value) : p ∈ Map ∨ p.2 = Value := by
  induction Map with
  | nil =>
    simp only [TMapAdd, List.mem_singleton] at hp
    right
    rw [hp]
  | cons q Rest ih =>
    unfold TMapAdd at hp
    by_cases h : q.1 = Key
    · rw [if_pos h] at hp
      rcases List.mem_cons.mp hp with rfl | h2
      · right; rfl
      · left; exact List.mem_cons_of_mem _ h2
    · rw [if_neg h] at hp
      rcases List.mem_cons.mp hp with rfl | h2
      · left; exact List.mem_cons_self _ _
      · rcases ih h2 with h3 | h3
        · left; exact List.mem_cons_of_mem _ h3
        · right; exact h3

theorem ChannelValue_some (ColorAtPixel : FColor) (n : Nat) (h : n < 4) :
    ∃ v, ChannelValue ColorAtPixel n = some v := by
  interval_cases n <;> exact ⟨_, rfl⟩

theorem channel_weight_range (v : Fin 256) :
    (0 : ℚ) ≤ ((v : Nat) : ℚ) / 255 ∧ ((v : Nat) : ℚ) / 255 ≤ 1 := by
  have h : ((v : Nat) : ℚ) ≤ 255 := by
    have := v.isLt
    exact_mod_cast Nat.le_of_lt_succ this
  constructor
  · positivity
  · rw [div_le_one (by norm_num)]
    exact h

/-- The inner loop: it finishes when no slot has a number above 3; a key outside the
ground types keeps its entry; the key of a slot that no later slot repeats gets the
channel of that slot divided by 255; all weights stay in [0, 1]. -/
theorem AddLayerWeights_spec (ColorAtPixel : FColor) :
    ∀ (Layers : List (Option Nat)) (n : Nat) (Result : List (Option Nat × ℚ)),
      n + Layers.length ≤ 4 →
      ∃ Result1, AddLayerWeights ColorAtPixel Layers n Result = some Result1 ∧
        (∀ k, k ∉ Layers → TMapFind Result1 k = TMapFind Result k) ∧
        (∀ j k, Layers[j]? = some k → k ∉ Layers.drop (j + 1) →
          ∃ v, ChannelValue ColorAtPixel (n + j) = some v ∧
            TMapFind Result1 k = some (((v : Nat) : ℚ) / 255)) ∧
        ((∀ p ∈ Result, 0 ≤ p.2 ∧ p.2 ≤ 1) → ∀ p ∈ Result1, 0 ≤ p.2 ∧ p.2 ≤ 1) := by
  intro Layers
  induction Layers with
  | nil =>
    intro n Result _
    refine ⟨Result, rfl, fun _ _ => rfl, ?_, fun h => h⟩
    intro j k hj
    simp at hj
  | cons a t ih =>
    intro n Result hlen
    simp only [List.length_cons] at hlen
    obtain ⟨v, hv⟩ := ChannelValue_some ColorAtPixel n (by omega)
    obtain ⟨R1, hR1, hframe, hslot, hrange⟩ :=
      ih (n + 1) (TMapAdd Result a (((v : Nat) : ℚ) / 255)) (by omega)
    refine ⟨R1, ?_, ?_, ?_, ?_⟩
    · rw [AddLayerWeights, hv]
      exact hR1
    · intro k hk
      rw [List.mem_cons, not_or] at hk
      rw [hframe k hk.2, TMapFind_TMapAdd_ne _ _ _ _ hk.1]
    · intro j k hj hlater
      cases j with
      | zero =>
        simp only [List.getElem?_cons_zero, Option.some.injEq] at hj
        subst hj
        simp only [zero_add, List.drop_succ_cons, List.drop_zero] at hlater
        refine ⟨v, hv, ?_⟩
        rw [hframe a hlater, TMapFind_TMapAdd_self]
      | succ j1 =>
        simp only [List.getElem?_cons_succ] at hj
        simp only [List.drop_succ_cons] at hlater
        obtain ⟨v1, hv1, hfind⟩ := hslot j1 k hj hlater
        refine ⟨v1, ?_, hfind⟩
        rw [← hv1]
        congr 1
        omega
    · intro hres
      apply hrange
      intro p hp
      rcases mem_TMapAdd _ _ _ _ hp with h | h
      · exact hres p h
      · rw [h]
        exact channel_weight_range v

/-- One layer set: the loop body finishes when the set has at most four ground types,
leaves the keys outside the set alone and keeps the weights in [0, 1]. -/
theorem AddLayerSetWeights_frame (Coords : FIntVector2)
    (LayerSet : FRuntimeLandscapeGroundTypeLayerSet) (Result : List (Option Nat × ℚ))
    (hlen : LayerSet.GroundTypes.length ≤ 4) :
    ∃ Result1, AddLayerSetWeights Coords LayerSet Result = some Result1 ∧
      (∀ k, k ∉ LayerSet.GroundTypes → TMapFind Result1 k = TMapFind Result k) ∧
      ((∀ p ∈ Result, 0 ≤ p.2 ∧ p.2 ≤ 1) → ∀ p ∈ Result1, 0 ≤ p.2 ∧ p.2 ≤ 1) := by
  have skip : ∃ Result1, some Result = some Result1 ∧
      (∀ k, k ∉ LayerSet.GroundTypes → TMapFind Result1 k = TMapFind Result k) ∧
      ((∀ p ∈ Result, 0 ≤ p.2 ∧ p.2 ≤ 1) → ∀ p ∈ Result1, 0 ≤ p.2 ∧ p.2 ≤ 1) :=
    ⟨Result, rfl, fun _ _ => rfl, fun h => h⟩
  unfold AddLayerSetWeights
  cases LayerSet.RenderTarget with
  | none => exact skip
  | some Size =>
    simp only []
    split_ifs with hvalid
    · cases hc : LayerSet.VertexLayerWeights[(GetPixelIndexForCoordinates Size.X Coords).toNat]? with
      | none => exact skip
      | some ColorAtPixel =>
        obtain ⟨R1, h1, h2, -, h4⟩ :=
          AddLayerWeights_spec ColorAtPixel LayerSet.GroundTypes 0 Result (by omega)
        exact ⟨R1, h1, h2, h4⟩
    · exact skip

theorem AddLayerSetWeights_hit (Coords : FIntVector2)
    (LayerSet : FRuntimeLandscapeGroundTypeLayerSet) (Result : List (Option Nat × ℚ))
    (Size : FIntVector2) (ColorAtPixel : FColor)
    (hRT : LayerSet.RenderTarget = some Size)
    (h0 : 0 ≤ GetPixelIndexForCoordinates Size.X Coords)
    (hc : LayerSet.VertexLayerWeights[(GetPixelIndexForCoordinates Size.X Coords).toNat]?
      = some ColorAtPixel) :
    AddLayerSetWeights Coords LayerSet Result
      = AddLayerWeights ColorAtPixel LayerSet.GroundTypes 0 Result := by
  have hlt : (GetPixelIndexForCoordinates Size.X Coords).toNat
      < LayerSet.VertexLayerWeights.length := by
    by_contra hge
    rw [List.getElem?_eq_none (not_lt.mp hge)] at hc
    cases hc
  unfold AddLayerSetWeights
  rw [hRT]
  simp only []
  rw [if_pos ⟨h0, by omega⟩, hc]

theorem AddAllLayerSetWeights_frame (Coords : FIntVector2) :
    ∀ (Sets : List FRuntimeLandscapeGroundTypeLayerSet) (Result : List (Option Nat × ℚ)),
      (∀ T ∈ Sets, T.GroundTypes.length ≤ 4) →
      ∃ Result1, AddAllLayerSetWeights Coords Sets Result = some Result1 ∧
        (∀ k, (∀ T ∈ Sets, k ∉ T.GroundTypes) → TMapFind Result1 k = TMapFind Result k) ∧
        ((∀ p ∈ Result, 0 ≤ p.2 ∧ p.2 ≤ 1) → ∀ p ∈ Result1, 0 ≤ p.2 ∧ p.2 ≤ 1) := by
  intro Sets
  induction Sets with
  | nil =>
    intro Result _
    exact ⟨Result, rfl, fun _ _ => rfl, fun h => h⟩
  | cons S Rest ih =>
    intro Result hlen
    obtain ⟨R1, h1, h2, h3⟩ :=
      AddLayerSetWeights_frame Coords S Result (hlen S (List.mem_cons_self _ _))
    obtain ⟨R2, g1, g2, g3⟩ := ih R1 (fun T hT => hlen T (List.mem_cons_of_mem _ hT))
    refine ⟨R2, ?_, ?_, fun h => g3 (h3 h)⟩
    · rw [AddAllLayerSetWeights, h1]
      exact g1
    · intro k hk
      rw [g2 k (fun T hT => hk T (List.mem_cons_of_mem _ hT)),
        h2 k (hk S (List.mem_cons_self _ _))]

theorem AddAllLayerSetWeights_append (Coords : FIntVector2) :
    ∀ (Pre Post : List FRuntimeLandscapeGroundTypeLayerSet) (Result Result1 : List (Option Nat × ℚ)),
      AddAllLayerSetWeights Coords Pre Result = some Result1 →
      AddAllLayerSetWeights Coords (Pre ++ Post) Result
        = AddAllLayerSetWeights Coords Post Result1 := by
  intro Pre
  induction Pre with
  | nil =>
    intro Post Result Result1 h
    simp only [AddAllLayerSetWeights, Option.some.injEq] at h
    rw [List.nil_append, h]
  | cons S Rest ih =>
    intro Post Result Result1 h
    rw [AddAllLayerSetWeights] at h
    rw [List.cons_append, AddAllLayerSetWeights]
    cases hS : AddLayerSetWeights Coords S Result with
    | none => rw [hS] at h; cases h
    | some R0 =>
      rw [hS] at h
      exact ih Post R0 Result1 h

theorem IndexOfByKey_of_unique :
    ∀ (l : List (Option Nat)) (j : Nat) (k : Option Nat),
      l[j]? = some k → (∀ j1, l[j1]? = some k → j1 = j) → IndexOfByKey l k = some j := by
  intro l
  induction l with
  | nil =>
    intro j k h _
    simp at h
  | cons a t ih =>
    intro j k h huniq
    cases j with
    | zero =>
      simp only [List.getElem?_cons_zero, Option.some.injEq] at h
      subst h
      simp [IndexOfByKey]
    | succ j1 =>
      simp only [List.getElem?_cons_succ] at h
      have hne : a ≠ k := by
        intro e
        have := huniq 0 (by rw [List.getElem?_cons_zero, e])
        omega
      have hu : ∀ j2, t[j2]? = some k → j2 = j1 := by
        intro j2 h2
        have := huniq (j2 + 1) (by rw [List.getElem?_cons_succ]; exact h2)
        omega
      rw [IndexOfByKey, if_neg hne, ih j1 k h hu]
      rfl

theorem not_mem_drop_of_unique (l : List (Option Nat)) (j : Nat) (k : Option Nat)
    (huniq : ∀ j1, l[j1]? = some k → j1 = j) : k ∉ l.drop (j + 1) := by
  intro hmem
  obtain ⟨m, hm⟩ := List.mem_iff_getElem?.mp hmem
  rw [List.getElem?_drop] at hm
  have := huniq _ hm
  omega

/-- C26 (amended). Ground-type channel mapping. Take a layer set with a render target and
a vertex whose pixel index is valid in its raster, every set having at most four slots;
let k be the ground type of slot j, held by no other slot of the set and by no later
set. Then j <= 3, the function returns a map, the weight reported for k is channel j of
the raster sample (R, G, B, A for 0..3) divided by 255, every reported weight lies in
[0, 1], and GetColorChannelForLayer paints k into the unit colour with 1 in component j
and 0 in the other three: the channel it is read back from. -/
theorem GetGroundTypeLayerWeightsAtVertexCoordinates_channel (L : ARuntimeLandscape)
    (Pre Post : List FRuntimeLandscapeGroundTypeLayerSet)
    (LayerSet : FRuntimeLandscapeGroundTypeLayerSet) (Size : FIntVector2)
    (ColorAtPixel : FColor) (SectionIndex X Y : Int) (j : Nat) (k : Option Nat)
    (hlen : ∀ T ∈ Pre ++ LayerSet :: Post, T.GroundTypes.length ≤ 4)
    (hRT : LayerSet.RenderTarget = some Size)
    (h0 : 0 ≤ GetPixelIndexForCoordinates Size.X
      (GetVertexCoordinatesWithinLandscape L SectionIndex X Y))
    (hc : LayerSet.VertexLayerWeights[(GetPixelIndexForCoordinates Size.X
      (GetVertexCoordinatesWithinLandscape L SectionIndex X Y)).toNat]? = some ColorAtPixel)
    (hj : LayerSet.GroundTypes[j]? = some k)
    (huniq : ∀ j1, LayerSet.GroundTypes[j1]? = some k → j1 = j)
    (hpost : ∀ T ∈ Post, k ∉ T.GroundTypes) :
    j < 4 ∧
    ∃ Result v,
      GetGroundTypeLayerWeightsAtVertexCoordinates L (Pre ++ LayerSet :: Post) SectionIndex X Y
        = some Result ∧
      ChannelValue ColorAtPixel j = some v ∧
      TMapFind Result k = some (((v : Nat) : ℚ) / 255) ∧
      (∀ p ∈ Result, 0 ≤ p.2 ∧ p.2 ≤ 1) ∧
      ∃ Color, GetColorChannelForLayer LayerSet k = some Color ∧
        LinearChannel Color j = 1 ∧
        ∀ j1, j1 < 4 → j1 ≠ j → LinearChannel Color j1 = 0 := by
  have hlenS : LayerSet.GroundTypes.length ≤ 4 :=
    hlen LayerSet (List.mem_append_right _ (List.mem_cons_self _ _))
  have hjlt : j < LayerSet.GroundTypes.length := by
    by_contra hge
    rw [List.getElem?_eq_none (not_lt.mp hge)] at hj
    cases hj
  have hj4 : j < 4 := by omega
  obtain ⟨R1, hR1, -, hR1range⟩ := AddAllLayerSetWeights_frame
    (GetVertexCoordinatesWithinLandscape L SectionIndex X Y) Pre []
    (fun T hT => hlen T (List.mem_append_left _ hT))
  obtain ⟨R2, hR2, -, hslot, hR2range⟩ :=
    AddLayerWeights_spec ColorAtPixel LayerSet.GroundTypes 0 R1 (by omega)
  obtain ⟨R3, hR3, hR3frame, hR3range⟩ := AddAllLayerSetWeights_frame
    (GetVertexCoordinatesWithinLandscape L SectionIndex X Y) Post R2
    (fun T hT => hlen T (List.mem_append_right _ (List.mem_cons_of_mem _ hT)))
  obtain ⟨v, hv, hfind⟩ := hslot j k hj (not_mem_drop_of_unique _ j k huniq)
  rw [zero_add] at hv
  have hres : GetGroundTypeLayerWeightsAtVertexCoordinates L (Pre ++ LayerSet :: Post)
      SectionIndex X Y = some R3 := by
    unfold GetGroundTypeLayerWeightsAtVertexCoordinates
    rw [AddAllLayerSetWeights_append _ Pre (LayerSet :: Post) [] R1 hR1, AddAllLayerSetWeights,
      AddLayerSetWeights_hit _ LayerSet R1 Size ColorAtPixel hRT h0 hc, hR2]
    exact hR3
  have hidx := IndexOfByKey_of_unique LayerSet.GroundTypes j k hj huniq
  refine ⟨hj4, R3, v, hres, hv, ?_, ?_, ?_⟩
  · rw [hR3frame k hpost, hfind]
  · apply hR3range
    apply hR2range
    apply hR1range
    intro p hp
    cases hp
  · unfold GetColorChannelForLayer
    rw [hidx]
    interval_cases j
    · refine ⟨_, rfl, rfl, ?_⟩
      intro j1 h1 h2
      interval_cases j1 <;> first | rfl | exact absurd rfl h2
    · refine ⟨_, rfl, rfl, ?_⟩
      intro j1 h1 h2
      interval_cases j1 <;> first | rfl | exact absurd rfl h2
    · refine ⟨_, rfl, rfl, ?_⟩
      intro j1 h1 h2
      interval_cases j1 <;> first | rfl | exact absurd rfl h2
    · refine ⟨_, rfl, rfl, ?_⟩
      intro j1 h1 h2
      interval_cases j1 <;> first | rfl | exact absurd rfl h2

theorem GetVertexCoordinatesWithinLandscape_eq (L : ARuntimeLandscape) (i x y : Int)
    (hW : 1 ≤ L.ComponentAmount.X) (hi : 0 ≤ i) :
    GetVertexCoordinatesWithinLandscape L i x y
      = { X := (L.ComponentResolutionX : Int) * (i % L.ComponentAmount.X) + x
          Y := (L.ComponentResolutionY : Int) * (i / L.ComponentAmount.X) + y } := by
  unfold GetVertexCoordinatesWithinLandscape
  simp only []
  rw [GetComponentCoordinates_eq L i hW hi]

/-- Witness for C26 (amended): the 3 x 3 raster of `sampleLayerSet` (every sample
(255, 51, 0, 0), slots g1, g2, empty, empty), vertex (1, 1) of tile 0 of
`smallLandscape`, slot 1 holding ground type 2: the weight is read from G. -/
theorem GetGroundTypeLayerWeightsAtVertexCoordinates_channel_witness :
    (1 : Nat) < 4 ∧
    ∃ Result v,
      GetGroundTypeLayerWeightsAtVertexCoordinates smallLandscape ([] ++ sampleLayerSet :: [])
        0 1 1 = some Result ∧
      ChannelValue { R := 255, G := 51, B := 0, A := 0 } 1 = some v ∧
      TMapFind Result (some 2) = some (((v : Nat) : ℚ) / 255) ∧
      (∀ p ∈ Result, 0 ≤ p.2 ∧ p.2 ≤ 1) ∧
      ∃ Color, GetColorChannelForLayer sampleLayerSet (some 2) = some Color ∧
        LinearChannel Color 1 = 1 ∧
        ∀ j1, j1 < 4 → j1 ≠ 1 → LinearChannel Color j1 = 0 := by
  have e : GetVertexCoordinatesWithinLandscape smallLandscape 0 1 1 = { X := 1, Y := 1 } := by
    rw [GetVertexCoordinatesWithinLandscape_eq smallLandscape 0 1 1 (by decide) (by decide)]
    rfl
  have hu : ∀ j1, sampleLayerSet.GroundTypes[j1]? = some (some 2) → j1 = 1 := by
    intro j1 h
    have hlt : j1 < 4 := by
      by_contra hge
      have hlen : sampleLayerSet.GroundTypes.length ≤ j1 := by
        have : sampleLayerSet.GroundTypes.length = 4 := rfl
        omega
      rw [List.getElem?_eq_none hlen] at h
      cases h
    interval_cases j1
    · exact absurd h (by decide)
    · rfl
    · exact absurd h (by decide)
    · exact absurd h (by decide)
  exact GetGroundTypeLayerWeightsAtVertexCoordinates_channel smallLandscape [] []
    sampleLayerSet { X := 3, Y := 3 } { R := 255, G := 51, B := 0, A := 0 } 0 1 1 1 (some 2)
    (by
      intro T hT
      simp only [List.nil_append, List.mem_singleton] at hT
      subst hT
      decide)
    rfl
    (by rw [e]; decide)
    (by rw [e]; rfl)
    rfl
    hu
    (by intro T hT; cases hT)

/-- C26 (counterexample). A layer set whose slots 0 and 1 hold the same ground type 1,
raster sample (255, 51, 0, 0): the map reports for ground type 1 the weight 51/255 = 1/5
taken from G, the channel of slot 1, not 255/255 = 1 from R, the channel of slot 0; and
GetColorChannelForLayer paints ground type 1 into R. -/
theorem GetGroundTypeLayerWeightsAtVertexCoordinates_duplicate_counterexample :
    repeatedLayerSet.GroundTypes[0]? = some (some 1) ∧
    repeatedLayerSet.VertexLayerWeights[4]? = some { R := 255, G := 51, B := 0, A := 0 } ∧
    ChannelValue { R := 255, G := 51, B := 0, A := 0 } 0 = some 255 ∧
    GetGroundTypeLayerWeightsAtVertexCoordinates smallLandscape [repeatedLayerSet] 0 1 1
      = some [(some 1, 1 / 5), (some 2, 0), (some 3, 0)] ∧
    TMapFind [(some 1, (1 / 5 : ℚ)), (some 2, 0), (some 3, 0)] (some 1) = some (1 / 5) ∧
    GetColorChannelForLayer repeatedLayerSet (some 1)
      = some { R := 1, G := 0, B := 0, A := 0 } := by
  have e : GetVertexCoordinatesWithinLandscape smallLandscape 0 1 1 = { X := 1, Y := 1 } := by
    rw [GetVertexCoordinatesWithinLandscape_eq smallLandscape 0 1 1 (by decide) (by decide)]
    rfl
  refine ⟨rfl, rfl, rfl, ?_, by simp [TMapFind], by simp [GetColorChannelForLayer,
    IndexOfByKey, repeatedLayerSet]⟩
  unfold GetGroundTypeLayerWeightsAtVertexCoordinates
  rw [e, AddAllLayerSetWeights,
    AddLayerSetWeights_hit { X := 1, Y := 1 } repeatedLayerSet [] { X := 3, Y := 3 }
      { R := 255, G := 51, B := 0, A := 0 } rfl (by decide) rfl]
  have h51 : ((51 : Fin 256) : Nat) = 51 := rfl
  have h255 : ((255 : Fin 256) : Nat) = 255 := rfl
  have h0 : ((0 : Fin 256) : Nat) = 0 := rfl
  norm_num [repeatedLayerSet, AddLayerWeights, ChannelValue, TMapAdd, AddAllLayerSetWeights,
    h51, h255, h0]

/-! ### Raster addressing -/

/-- C30. Raster addressing stays in range. On a grid of W x H tiles (W >= 1) with the
raster sized (ResX*W + 1) x (ResY*H + 1), for every tile index in [0, W*H) and every
local vertex (x, y) with 0 <= x <= ResX, 0 <= y <= ResY: the global coordinates lie in
[0, ResX*W] x [0, ResY*H]; the pixel index lies in [0, SizeX*SizeY); a layer set with
that render target and SizeX*SizeY samples passes the IsValidIndex guard, i.e. its loop
body reads a sample and runs the inner loop on it; and the vertex in the last column
(row) of a tile has the global coordinates, hence the pixel index, of the vertex in the
first column (row) of its right (lower) neighbour. -/
theorem GetPixelIndexForCoordinates_in_range (L : ARuntimeLandscape) (i x y : Int)
    (hW : 1 ≤ L.ComponentAmount.X)
    (hi0 : 0 ≤ i) (hi1 : i < L.ComponentAmount.X * L.ComponentAmount.Y)
    (hx0 : 0 ≤ x) (hx1 : x ≤ L.ComponentResolutionX)
    (hy0 : 0 ≤ y) (hy1 : y ≤ L.ComponentResolutionY) :
    (0 ≤ (GetVertexCoordinatesWithinLandscape L i x y).X ∧
      (GetVertexCoordinatesWithinLandscape L i x y).X
        ≤ (L.ComponentResolutionX : Int) * L.ComponentAmount.X ∧
      0 ≤ (GetVertexCoordinatesWithinLandscape L i x y).Y ∧
      (GetVertexCoordinatesWithinLandscape L i x y).Y
        ≤ (L.ComponentResolutionY : Int) * L.ComponentAmount.Y) ∧
    (0 ≤ GetPixelIndexForCoordinates ((L.ComponentResolutionX : Int) * L.ComponentAmount.X + 1)
        (GetVertexCoordinatesWithinLandscape L i x y) ∧
      GetPixelIndexForCoordinates ((L.ComponentResolutionX : Int) * L.ComponentAmount.X + 1)
        (GetVertexCoordinatesWithinLandscape L i x y)
        < ((L.ComponentResolutionX : Int) * L.ComponentAmount.X + 1)
          * ((L.ComponentResolutionY : Int) * L.ComponentAmount.Y + 1)) ∧
    (∀ (LayerSet : FRuntimeLandscapeGroundTypeLayerSet) (Result : List (Option Nat × ℚ)),
      LayerSet.RenderTarget
        = some { X := (L.ComponentResolutionX : Int) * L.ComponentAmount.X + 1
                 Y := (L.ComponentResolutionY : Int) * L.ComponentAmount.Y + 1 } →
      (LayerSet.VertexLayerWeights.length : Int)
        = ((L.ComponentResolutionX : Int) * L.ComponentAmount.X + 1)
          * ((L.ComponentResolutionY : Int) * L.ComponentAmount.Y + 1) →
      ∃ ColorAtPixel,
        LayerSet.VertexLayerWeights[(GetPixelIndexForCoordinates
          ((L.ComponentResolutionX : Int) * L.ComponentAmount.X + 1)
          (GetVertexCoordinatesWithinLandscape L i x y)).toNat]? = some ColorAtPixel ∧
        AddLayerSetWeights (GetVertexCoordinatesWithinLandscape L i x y) LayerSet Result
          = AddLayerWeights ColorAtPixel LayerSet.GroundTypes 0 Result) ∧
    ((GetComponentCoordinates L i).X + 1 < L.ComponentAmount.X →
      GetComponentCoordinates L (i + 1)
        = { X := (GetComponentCoordinates L i).X + 1, Y := (GetComponentCoordinates L i).Y } ∧
      GetVertexCoordinatesWithinLandscape L i L.ComponentResolutionX y
        = GetVertexCoordinatesWithinLandscape L (i + 1) 0 y) ∧
    ((GetComponentCoordinates L i).Y + 1 < L.ComponentAmount.Y →
      GetComponentCoordinates L (i + L.ComponentAmount.X)
        = { X := (GetComponentCoordinates L i).X, Y := (GetComponentCoordinates L i).Y + 1 } ∧
      GetVertexCoordinatesWithinLandscape L i x L.ComponentResolutionY
        = GetVertexCoordinatesWithinLandscape L (i + L.ComponentAmount.X) x 0) := by
  obtain ⟨hcX, hcY, -, hX0, hX1, hY0, hY1⟩ := GetComponentCoordinates_in_grid L hW i hi0 hi1
  have hWpos : 0 < L.ComponentAmount.X := by omega
  have hRX : (0 : Int) ≤ (L.ComponentResolutionX : Int) := Int.ofNat_nonneg _
  have hRY : (0 : Int) ≤ (L.ComponentResolutionY : Int) := Int.ofNat_nonneg _
  have hgX : (GetVertexCoordinatesWithinLandscape L i x y).X
      = (L.ComponentResolutionX : Int) * (GetComponentCoordinates L i).X + x := rfl
  have hgY : (GetVertexCoordinatesWithinLandscape L i x y).Y
      = (L.ComponentResolutionY : Int) * (GetComponentCoordinates L i).Y + y := rfl
  have bX0 : 0 ≤ (L.ComponentResolutionX : Int) * (GetComponentCoordinates L i).X :=
    mul_nonneg hRX hX0
  have bY0 : 0 ≤ (L.ComponentResolutionY : Int) * (GetComponentCoordinates L i).Y :=
    mul_nonneg hRY hY0
  have bX1 : (L.ComponentResolutionX : Int) * ((GetComponentCoordinates L i).X + 1)
      ≤ (L.ComponentResolutionX : Int) * L.ComponentAmount.X :=
    mul_le_mul_of_nonneg_left (by omega) hRX
  have bY1 : (L.ComponentResolutionY : Int) * ((GetComponentCoordinates L i).Y + 1)
      ≤ (L.ComponentResolutionY : Int) * L.ComponentAmount.Y :=
    mul_le_mul_of_nonneg_left (by omega) hRY
  rw [mul_add, mul_one] at bX1 bY1
  have hcoords : 0 ≤ (GetVertexCoordinatesWithinLandscape L i x y).X ∧
      (GetVertexCoordinatesWithinLandscape L i x y).X
        ≤ (L.ComponentResolutionX : Int) * L.ComponentAmount.X ∧
      0 ≤ (GetVertexCoordinatesWithinLandscape L i x y).Y ∧
      (GetVertexCoordinatesWithinLandscape L i x y).Y
        ≤ (L.ComponentResolutionY : Int) * L.ComponentAmount.Y := by
    rw [hgX, hgY]
    refine ⟨by omega, by omega, by omega, by omega⟩
  obtain ⟨c1, c2, c3, c4⟩ := hcoords
  have hMX : (0 : Int) ≤ (L.ComponentResolutionX : Int) * L.ComponentAmount.X :=
    mul_nonneg hRX (by omega)
  have hidx : 0 ≤ GetPixelIndexForCoordinates
        ((L.ComponentResolutionX : Int) * L.ComponentAmount.X + 1)
        (GetVertexCoordinatesWithinLandscape L i x y) ∧
      GetPixelIndexForCoordinates ((L.ComponentResolutionX : Int) * L.ComponentAmount.X + 1)
        (GetVertexCoordinatesWithinLandscape L i x y)
        < ((L.ComponentResolutionX : Int) * L.ComponentAmount.X + 1)
          * ((L.ComponentResolutionY : Int) * L.ComponentAmount.Y + 1) := by
    unfold GetPixelIndexForCoordinates
    have p1 : 0 ≤ (GetVertexCoordinatesWithinLandscape L i x y).Y
        * ((L.ComponentResolutionX : Int) * L.ComponentAmount.X + 1) :=
      mul_nonneg c3 (by omega)
    have p2 : (GetVertexCoordinatesWithinLandscape L i x y).Y
        * ((L.ComponentResolutionX : Int) * L.ComponentAmount.X + 1)
        ≤ ((L.ComponentResolutionY : Int) * L.ComponentAmount.Y)
          * ((L.ComponentResolutionX : Int) * L.ComponentAmount.X + 1) :=
      mul_le_mul_of_nonneg_right c4 (by omega)
    constructor
    · omega
    · nlinarith
  refine ⟨⟨c1, c2, c3, c4⟩, hidx, ?_, ?_, ?_⟩
  · intro LayerSet Result hRT hlen
    have hlt : (GetPixelIndexForCoordinates
        ((L.ComponentResolutionX : Int) * L.ComponentAmount.X + 1)
        (GetVertexCoordinatesWithinLandscape L i x y)).toNat
        < LayerSet.VertexLayerWeights.length := by
      have := hidx.2
      rw [← hlen] at this
      omega
    refine ⟨LayerSet.VertexLayerWeights.get ⟨_, hlt⟩, ?_, ?_⟩
    · rw [List.getElem?_eq_getElem hlt]
      rfl
    · apply AddLayerSetWeights_hit _ LayerSet Result _ _ hRT hidx.1
      rw [List.getElem?_eq_getElem hlt]
      rfl
  · intro hcol
    rw [hcX] at hcol
    have hmod : (i + 1) % L.ComponentAmount.X = i % L.ComponentAmount.X + 1 := by
      have h1 := Int.emod_add_ediv i L.ComponentAmount.X
      have h2 := Int.emod_nonneg i (ne_of_gt hWpos)
      rw [show i + 1 = (i % L.ComponentAmount.X + 1) + L.ComponentAmount.X * (i / L.ComponentAmount.X)
        by omega, Int.add_mul_emod_self_left]
      exact Int.emod_eq_of_lt (by omega) hcol
    have hdiv : (i + 1) / L.ComponentAmount.X = i / L.ComponentAmount.X := by
      have h1 := Int.emod_add_ediv i L.ComponentAmount.X
      have h2 := Int.emod_nonneg i (ne_of_gt hWpos)
      rw [show i + 1 = (i % L.ComponentAmount.X + 1) + L.ComponentAmount.X * (i / L.ComponentAmount.X)
        by omega, Int.add_mul_ediv_left _ _ (ne_of_gt hWpos),
        Int.ediv_eq_zero_of_lt (by omega) hcol, zero_add]
    have hnext : GetComponentCoordinates L (i + 1)
        = { X := (GetComponentCoordinates L i).X + 1, Y := (GetComponentCoordinates L i).Y } := by
      rw [GetComponentCoordinates_eq L (i + 1) hW (by omega), hcX, hcY, hmod, hdiv]
    refine ⟨hnext, ?_⟩
    unfold GetVertexCoordinatesWithinLandscape
    simp only []
    rw [hnext]
    simp only [mul_add, mul_one, add_zero]
  · intro hrow
    have hmod : (i + L.ComponentAmount.X) % L.ComponentAmount.X = i % L.ComponentAmount.X :=
      Int.add_emod_self
    have hdiv : (i + L.ComponentAmount.X) / L.ComponentAmount.X
        = i / L.ComponentAmount.X + 1 := Int.add_ediv_of_dvd_right (dvd_refl _) |>.trans (by
          rw [Int.ediv_self (ne_of_gt hWpos)])
    have hnext : GetComponentCoordinates L (i + L.ComponentAmount.X)
        = { X := (GetComponentCoordinates L i).X, Y := (GetComponentCoordinates L i).Y + 1 } := by
      rw [GetComponentCoordinates_eq L (i + L.ComponentAmount.X) hW (by omega), hcX, hcY,
        hmod, hdiv]
    refine ⟨hnext, ?_⟩
    unfold GetVertexCoordinatesWithinLandscape
    simp only []
    rw [hnext]
    simp only [mul_add, mul_one, add_zero]

/-- Witness for C30: tile 0 of `smallLandscape` (2 x 2 tiles of 1 x 1 quads, raster
3 x 3) and its local vertex (1, 0). -/
theorem GetPixelIndexForCoordinates_in_range_witness :
    ((0 : Int) < smallLandscape.ComponentAmount.X * smallLandscape.ComponentAmount.Y ∧
      (1 : Int) ≤ smallLandscape.ComponentResolutionX) ∧
    (0 ≤ GetPixelIndexForCoordinates
        ((smallLandscape.ComponentResolutionX : Int) * smallLandscape.ComponentAmount.X + 1)
        (GetVertexCoordinatesWithinLandscape smallLandscape 0 1 0) ∧
      GetPixelIndexForCoordinates
        ((smallLandscape.ComponentResolutionX : Int) * smallLandscape.ComponentAmount.X + 1)
        (GetVertexCoordinatesWithinLandscape smallLandscape 0 1 0)
        < ((smallLandscape.ComponentResolutionX : Int) * smallLandscape.ComponentAmount.X + 1)
          * ((smallLandscape.ComponentResolutionY : Int) * smallLandscape.ComponentAmount.Y + 1)) :=
  ⟨⟨by decide, by decide⟩,
    (GetPixelIndexForCoordinates_in_range smallLandscape 0 1 0 (by decide) (by decide)
      (by decide) (by decide) (by decide) (by decide) (by decide)).2.1⟩

end RuntimeLandscape
